import Mathlib

/-!
# PptxHandler: render-parameter resolution, canvas composition, cache and fallback

A shallow embedding of the `PptxHandler` variants of the repository.  Each source
file gets its own namespace; the closed-over variables of a handler
(`pptxHtmlContent`, `slideCount`, `renderCache`, ...) become the fields of a
`State` record and every method becomes a function on that record.

Conventions shared by all variants:

* JavaScript numbers are modelled as exact rationals (`ℚ`); `Math.round`,
  `Math.ceil` and `Math.sqrt` are the exact mathematical functions, so rounding
  errors of binary floating point are not part of the model.
* The canvas record holds the numbers the handler assigns to `canvas.width`
  and `canvas.height`, and an abstract description of what was painted.
* The collaborators (pptxjs conversion, html2canvas rasterization, DOM
  measurement) are inputs: what they answer is a parameter of the operation that
  awaits them.  The field `rasterLog` records every call of `html2canvas` made
  by `redraw`; the field `completions` records the argument of every call of
  `onCompletion` (`none` for a call without argument).
* The host passes a completion callback to every call, and callbacks and DOM
  calls outside the `try` blocks do not throw.
* A method is a total function on states: it returns normally, nothing is thrown
  to the caller unless the result type says so.
* A `drawImage` call is its destination rectangle together with the context
  transform in force; a rotation by a multiple of 90 degrees is exact on
  rationals.
* The rasterizations started by `createCanvases` complete in an order that is an
  input; the arguments of the calls of its callback are logged in the job record.
-/

namespace PptxHandler

/-! ## JavaScript arithmetic -/

/-- JavaScript `Math.round`: the nearest integer, halves rounded towards +∞. -/
def mathRound (x : ℚ) : ℤ := ⌊x + 1 / 2⌋

/-- JavaScript `Math.ceil`. -/
def mathCeil (x : ℚ) : ℤ := ⌈x⌉

/-- The value of `Math.ceil(Math.sqrt(x))` computed on integers: the least natural number
whose square is at least `x`. -/
def ceilSqrt (x : ℚ) : ℤ :=
  let m := ⌈x⌉.toNat
  let r := Nat.sqrt m
  if r * r = m then (r : ℤ) else (r : ℤ) + 1

/-- Indexing a JavaScript array with a number: `undefined` (here `none`) outside the
range `0 .. length - 1`. -/
def arrayAt {α : Type} (xs : List α) (i : ℤ) : Option α :=
  if 0 ≤ i then xs[i.toNat]? else none

/-! ## JavaScript `Map`, in insertion order -/

/-- `Map.prototype.has`. -/
def mapHas {κ ν : Type} [DecidableEq κ] : List (κ × ν) → κ → Bool
  | [], _ => false
  | e :: rest, k => if e.1 = k then true else mapHas rest k

/-- `Map.prototype.get`. -/
def mapGet {κ ν : Type} [DecidableEq κ] : List (κ × ν) → κ → Option ν
  | [], _ => none
  | e :: rest, k => if e.1 = k then some e.2 else mapGet rest k

/-- `Map.prototype.set`: an existing key keeps its position and gets the new value, a
new key is appended at the end. -/
def mapSet {κ ν : Type} [DecidableEq κ] : List (κ × ν) → κ → ν → List (κ × ν)
  | [], k, v => [(k, v)]
  | e :: rest, k, v => if e.1 = k then (k, v) :: rest else e :: mapSet rest k v

/-- `Map.prototype.delete`. -/
def mapDelete {κ ν : Type} [DecidableEq κ] : List (κ × ν) → κ → List (κ × ν)
  | [], _ => []
  | e :: rest, k => if e.1 = k then rest else e :: mapDelete rest k

/-- The statement pair `firstKey = m.keys().next().value; m.delete(firstKey)`. -/
def mapDeleteFirstKey {κ ν : Type} [DecidableEq κ] (m : List (κ × ν)) : List (κ × ν) :=
  match m with
  | [] => []
  | e :: _ => mapDelete m e.1

/-- The cache update of the success callback of the enhanced handler:
`renderCache.set(k, v)` followed by `if (renderCache.size > 10)` delete the first key. -/
def insertLimited {κ ν : Type} [DecidableEq κ] (m : List (κ × ν)) (k : κ) (v : ν) :
    List (κ × ν) :=
  if (mapSet m k v).length > 10 then mapDeleteFirstKey (mapSet m k v) else mapSet m k v

/-! ## Shared records -/

/-- What is painted on a canvas. -/
inductive Picture
  | blank
  | slide (html : String) (firstRenderPadding : Bool) (scale : ℚ) (rotation : ℤ)
  | fallback (scale : ℚ)
  | errorText (message : String)
  deriving DecidableEq, Repr

/-- The destination surface. -/
structure Canvas where
  width : ℚ
  height : ℚ
  picture : Picture
  deriving DecidableEq, Repr

/-- How a call of `html2canvas(...).then(A).catch(B)` ends. -/
inductive RasterOutcome
  | resolved
  | resolvedDrawThrows
  | resolvedLateThrows
  | rejected
  deriving DecidableEq, Repr

/-! ## src/enhanced_pptx_handler.js -/

namespace Enhanced

/-- The object stored in `pptxHtmlContent`: the outerHTML of every `.slide` element and
the presentation size. -/
structure Presentation where
  slides : List String
  width : ℚ
  height : ℚ
  deriving DecidableEq, Repr

/-- The cache key of `redraw`.  The source builds the string
`pageIndex-scale-rotation`; the decimal rendering of three numbers joined by `-` determines
the three numbers, so the key is modelled as the triple. -/
structure CacheKey where
  pageIndex : ℤ
  scale : ℚ
  rotation : ℤ
  deriving DecidableEq, Repr

/-- The value stored in `renderCache`: `imageData`, `width`, `height`. -/
structure CachedImage where
  imageData : Picture
  width : ℚ
  height : ℚ
  deriving DecidableEq, Repr

/-- The result of `calculateEnhancedSlideMetrics`, measured on the DOM. -/
structure SlideMetrics where
  minTop : ℚ
  totalHeight : ℚ
  adjustmentNeeded : ℚ
  deriving DecidableEq, Repr

/-- The options of one `html2canvas` call that depend on the arguments of `redraw`. -/
structure RasterRequest where
  html : String
  firstRenderPadding : Bool
  scale : ℚ
  width : ℚ
  height : ℚ
  y : ℚ
  deriving DecidableEq, Repr

/-- The variables closed over by the methods of the handler, the canvas, whether the
off-screen container `myModal` is in the document, and the two logs. -/
structure State where
  pptxHtmlContent : Option Presentation
  slideCount : ℕ
  lastRenderedPageIndex : ℤ
  lastRenderedScale : ℚ
  lastRenderedRotation : ℤ
  isFirstRender : Bool
  renderCache : List (CacheKey × CachedImage)
  canvas : Canvas
  modalPresent : Bool
  rasterLog : List RasterRequest
  completions : List (Option String)
  deriving DecidableEq, Repr

/-- The handler right after construction on a canvas. -/
def init (canvas : Canvas) : State :=
  { pptxHtmlContent := none
    slideCount := 0
    lastRenderedPageIndex := -1
    lastRenderedScale := 1
    lastRenderedRotation := 0
    isFirstRender := true
    renderCache := []
    canvas := canvas
    modalPresent := false
    rasterLog := []
    completions := [] }

/-- How the conversion awaited by `loadDocument` ends. -/
inductive LoadOutcome
  | slidesProcessed (slideContents : List String)
  | processingError
  | timedOut
  | initError
  deriving DecidableEq, Repr

/-- Method `loadDocument`: the container `myModal` is created if absent; when the observer
has seen slides and processed them, `pptxHtmlContent` and `slideCount` are replaced; on
every failure `onError` is called and nothing else changes. -/
def loadDocument (s : State) (o : LoadOutcome) : State :=
  let s := { s with modalPresent := true }
  match o with
  | .slidesProcessed slideContents =>
      { s with
        pptxHtmlContent := some { slides := slideContents, width := 1280, height := 720 }
        slideCount := slideContents.length }
  | .processingError => s
  | .timedOut => s
  | .initError => s

/-- Method `pageCount`. -/
def pageCount (s : State) : ℕ := s.slideCount

/-- Method `originalWidth`. -/
def originalWidth (s : State) : ℚ :=
  match s.pptxHtmlContent with
  | some p => if p.width = 0 then 1280 else p.width
  | none => 1280

/-- Method `originalHeight`. -/
def originalHeight (s : State) : ℚ :=
  match s.pptxHtmlContent with
  | some p => if p.height = 0 then 720 else p.height
  | none => 720

/-- Method `cleanup`. -/
def cleanup (s : State) : State :=
  { s with
    modalPresent := false
    renderCache := []
    pptxHtmlContent := none
    slideCount := 0 }

/-- Method `renderFallback`. -/
def renderFallback (s : State) (scale : ℚ) (_rotation : ℤ) : State :=
  { s with canvas := { width := 1280 * scale, height := 720 * scale, picture := .fallback scale } }

/-- The expression `pptxHtmlContent?.slides?.[pageIndex]`, with a falsy result (undefined
or the empty string) mapped to `none`. -/
def slideHtmlAt (s : State) (pageIndex : ℤ) : Option String :=
  match s.pptxHtmlContent with
  | none => none
  | some p =>
    match arrayAt p.slides pageIndex with
    | none => none
    | some html => if html = "" then none else some html

/-- The `scale` option passed to html2canvas: `Math.min(2, Math.max(1, 2 / scale))`
(`2 / 0` is `Infinity` in JavaScript). -/
def html2canvasScale (scale : ℚ) : ℚ :=
  if scale = 0 then 2 else min 2 (max 1 (2 / scale))

/-- What the two callbacks of the `html2canvas` promise close over. -/
structure Job where
  cacheKey : CacheKey
  scale : ℚ
  rotation : ℤ
  html : String
  firstRenderPadding : Bool
  metrics : SlideMetrics
  deriving DecidableEq, Repr

/-- The canvas size computed in the success callback of `redraw`.  The products are exact
here; the binary floating-point product of the code can exceed an integer by one unit in
the last place, where `Math.ceil` then yields one pixel more (`720 * 1.1` gives 793). -/
def finalSize (scale : ℚ) (rotation : ℤ) : ℤ × ℤ :=
  if rotation = 90 ∨ rotation = 270 then
    let scaledWidth := 1280 * scale
    let scaledHeight := 720 * scale
    let side := ceilSqrt (scaledWidth * scaledWidth + scaledHeight * scaledHeight) + 100
    (side, side)
  else
    (mathCeil (1280 * scale), mathCeil (720 * scale))

/-- The synchronous part of `redraw`: the cache check, the tracking variables, the
slide lookup, the padding choice and the call of `html2canvas`.  Every stored slide is the
outerHTML of an element matched by `.slide`, so `tempDiv.querySelector(.slide)` is not
null and `isFirstRender` is cleared whenever a slide is found. -/
def redrawBegin (s : State) (scale : ℚ) (rotation pageIndex : ℤ) (metrics : SlideMetrics) :
    State × Option Job :=
  let cacheKey : CacheKey := { pageIndex := pageIndex, scale := scale, rotation := rotation }
  if !s.isFirstRender && mapHas s.renderCache cacheKey then
    match mapGet s.renderCache cacheKey with
    | some cachedImageData =>
        ({ s with
           canvas := { width := cachedImageData.width, height := cachedImageData.height,
                       picture := cachedImageData.imageData }
           completions := s.completions ++ [none] }, none)
    | none => ({ s with completions := s.completions ++ [none] }, none)
  else
    let s := { s with
               lastRenderedPageIndex := pageIndex
               lastRenderedScale := scale
               lastRenderedRotation := rotation }
    match slideHtmlAt s pageIndex with
    | none => ({ s with completions := s.completions ++ [none] }, none)
    | some slideHtml =>
        let firstPadding := s.isFirstRender
        let renderHeight := max (metrics.totalHeight + 200) 1000
        let request : RasterRequest :=
          { html := slideHtml
            firstRenderPadding := firstPadding
            scale := html2canvasScale scale
            width := 1280 + 200
            height := renderHeight
            y := min (-100) (metrics.minTop - 50) }
        ({ s with isFirstRender := false, rasterLog := s.rasterLog ++ [request] },
         some { cacheKey := cacheKey, scale := scale, rotation := rotation, html := slideHtml,
                firstRenderPadding := firstPadding, metrics := metrics })

/-- The statements of the success callback up to and including the cache insertion and
the size limit. -/
def drawAndCache (s : State) (job : Job) : State :=
  let size := finalSize job.scale job.rotation
  let canvas : Canvas :=
    { width := size.1, height := size.2,
      picture := .slide job.html job.firstRenderPadding job.scale job.rotation }
  let cache := insertLimited s.renderCache job.cacheKey
    { imageData := canvas.picture, width := canvas.width, height := canvas.height }
  { s with canvas := canvas, renderCache := cache }

/-- The asynchronous part of `redraw`: the `then` callback with its try, catch and
finally blocks, or the `catch` callback of the promise. -/
def redrawFinish (s : State) (job : Job) (o : RasterOutcome) : State :=
  match o with
  | .resolved =>
      let s := drawAndCache s job
      { s with completions := s.completions ++ [none] }
  | .resolvedDrawThrows =>
      let s := renderFallback s job.scale job.rotation
      { s with completions := s.completions ++ [none] }
  | .resolvedLateThrows =>
      let s := renderFallback (drawAndCache s job) job.scale job.rotation
      { s with completions := s.completions ++ [none] }
  | .rejected =>
      let s := renderFallback s job.scale job.rotation
      { s with completions := s.completions ++ [none] }

/-- Method `redraw`, with the rasterization completing before any other call. -/
def redraw (s : State) (scale : ℚ) (rotation pageIndex : ℤ) (metrics : SlideMetrics)
    (o : RasterOutcome) : State :=
  match redrawBegin s scale rotation pageIndex metrics with
  | (s1, none) => s1
  | (s1, some job) => redrawFinish s1 job o

/-- The states a handler can be in: any interleaving of `loadDocument`, `cleanup`, the
synchronous part of `redraw` and the completion of any rasterization. -/
inductive Reachable : State → Prop
  | init (canvas : Canvas) : Reachable (init canvas)
  | loadDocument {s : State} (o : LoadOutcome) : Reachable s → Reachable (loadDocument s o)
  | cleanup {s : State} : Reachable s → Reachable (cleanup s)
  | redrawBegin {s : State} (scale : ℚ) (rotation pageIndex : ℤ) (metrics : SlideMetrics) :
      Reachable s → Reachable (redrawBegin s scale rotation pageIndex metrics).1
  | redrawFinish {s : State} (job : Job) (o : RasterOutcome) :
      Reachable s → Reachable (redrawFinish s job o)

/-- One call made by the host, with what the collaborators answer to it. -/
inductive Call
  | loadDocument (o : LoadOutcome)
  | redraw (scale : ℚ) (rotation pageIndex : ℤ) (metrics : SlideMetrics) (o : RasterOutcome)
  | cleanup
  deriving DecidableEq, Repr

/-- The effect of one call. -/
def step (s : State) : Call → State
  | .loadDocument o => loadDocument s o
  | .redraw scale rotation pageIndex metrics o => redraw s scale rotation pageIndex metrics o
  | .cleanup => cleanup s

/-- The effect of a sequence of calls, each completing before the next one starts. -/
def run (s : State) (calls : List Call) : State := calls.foldl step s

/-- A call is a cache hit in state `s`: a `redraw` that takes the branch
`!isFirstRender && renderCache.has(cacheKey)`. -/
def isCacheHit (s : State) : Call → Prop
  | .redraw scale rotation pageIndex _ _ =>
      s.isFirstRender = false ∧
        mapHas s.renderCache { pageIndex := pageIndex, scale := scale, rotation := rotation } = true
  | _ => False

end Enhanced

/-! ## src/final-pptx-handler.js -/

namespace Final

/-- The object stored in `pptxHtmlContent`. -/
structure Presentation where
  slides : List String
  width : ℚ
  height : ℚ
  deriving DecidableEq, Repr

/-- The options of one `html2canvas` call. -/
structure RasterRequest where
  html : String
  scale : ℚ
  width : ℚ
  height : ℚ
  deriving DecidableEq, Repr

/-- The variables closed over by the methods, the canvas and the two logs. -/
structure State where
  pptxHtmlContent : Option Presentation
  slideCount : ℕ
  canvas : Canvas
  rasterLog : List RasterRequest
  completions : List (Option String)
  deriving DecidableEq, Repr

/-- The handler right after construction on a canvas. -/
def init (canvas : Canvas) : State :=
  { pptxHtmlContent := none, slideCount := 0, canvas := canvas, rasterLog := [],
    completions := [] }

/-- Method `loadDocument` when the conversion produced the given slides: the stored
presentation and `slideCount` are replaced. -/
def loadDocument (s : State) (slideContents : List String) : State :=
  { s with
    pptxHtmlContent := some { slides := slideContents, width := 1280, height := 720 }
    slideCount := slideContents.length }

/-- Method `cleanup`. -/
def cleanup (s : State) : State :=
  { s with pptxHtmlContent := none, slideCount := 0 }

/-- The canvas size computed in the success callback: both sides rounded, then swapped
for a quarter turn. -/
def finalSize (scale : ℚ) (rotation : ℤ) : ℤ × ℤ :=
  let finalWidth := mathRound (1280 * scale)
  let finalHeight := mathRound (720 * scale)
  if rotation = 90 ∨ rotation = 270 then (finalHeight, finalWidth) else (finalWidth, finalHeight)

/-- The early returns of `redraw`: `onCompletion()` and nothing else. -/
def complete (s : State) : State :=
  { s with completions := s.completions ++ [none] }

/-- Method `redraw`.  An exception thrown in the `then` callback lands in the `catch`
callback, as a rejection does. -/
def redraw (s : State) (scale : ℚ) (rotation pageIndex : ℤ) (o : RasterOutcome) : State :=
  match s.pptxHtmlContent with
  | none => complete s
  | some p =>
    if p.slides.length = 0 then complete s
    else
      match arrayAt p.slides pageIndex with
      | none => complete s
      | some slideHtml =>
        if slideHtml = "" then complete s
        else
          let s := { s with
                     rasterLog := s.rasterLog ++
                       [({ html := slideHtml, scale := 1, width := 1280, height := 720 } :
                          RasterRequest)] }
          match o with
          | .resolved =>
              let size := finalSize scale rotation
              complete { s with
                         canvas := { width := size.1, height := size.2,
                                     picture := .slide slideHtml false scale rotation } }
          | _ =>
              complete { s with
                         canvas := { width := 1280 * scale, height := 720 * scale,
                                     picture := .fallback scale } }

end Final

/-! ## src/fullcontent-pptx-handler.js, first handler -/

namespace FullContent

/-- The object stored in `pptxHtmlContent`. -/
structure Presentation where
  slides : List String
  width : ℚ
  height : ℚ
  deriving DecidableEq, Repr

/-- The options of one `html2canvas` call; with `scale: 1` the bitmap delivered has
exactly this width and height. -/
structure RasterRequest where
  html : String
  scale : ℚ
  width : ℚ
  height : ℚ
  deriving DecidableEq, Repr

/-- The variables closed over by the methods, the canvas and the two logs. -/
structure State where
  pptxHtmlContent : Option Presentation
  slideCount : ℕ
  canvas : Canvas
  rasterLog : List RasterRequest
  completions : List (Option String)
  deriving DecidableEq, Repr

/-- The handler right after construction on a canvas. -/
def init (canvas : Canvas) : State :=
  { pptxHtmlContent := none, slideCount := 0, canvas := canvas, rasterLog := [],
    completions := [] }

/-- Method `loadDocument` when the conversion produced the given slides. -/
def loadDocument (s : State) (slideContents : List String) : State :=
  { s with
    pptxHtmlContent := some { slides := slideContents, width := 1280, height := 720 }
    slideCount := slideContents.length }

/-- The early returns of `redraw`: `onCompletion()` and nothing else. -/
def complete (s : State) : State :=
  { s with completions := s.completions ++ [none] }

/-- The measured height with its floor: `if (actualHeight < 720) actualHeight = 720`. -/
def actualHeight (scrollHeight : ℚ) : ℚ :=
  if scrollHeight < 720 then 720 else scrollHeight

/-- The canvas size computed in the success callback. -/
def finalSize (scrollHeight scale : ℚ) (rotation : ℤ) : ℤ × ℤ :=
  let actualWidth : ℚ := 1280
  let finalWidth := mathRound (actualWidth * scale)
  let finalHeight := mathRound (actualHeight scrollHeight * scale)
  if rotation = 90 ∨ rotation = 270 then (finalHeight, finalWidth) else (finalWidth, finalHeight)

/-- Method `redraw`; `scrollHeight` is `slideElement.scrollHeight`, read from the DOM inside
the timer callback. -/
def redraw (s : State) (scale : ℚ) (rotation pageIndex : ℤ) (scrollHeight : ℚ)
    (o : RasterOutcome) : State :=
  match s.pptxHtmlContent with
  | none => complete s
  | some p =>
    if p.slides.length = 0 then complete s
    else
      match arrayAt p.slides pageIndex with
      | none => complete s
      | some slideHtml =>
        if slideHtml = "" then complete s
        else
          let actualWidth : ℚ := 1280
          let s := { s with
                     rasterLog := s.rasterLog ++
                       [({ html := slideHtml, scale := 1, width := actualWidth,
                           height := actualHeight scrollHeight + 50 } : RasterRequest)] }
          match o with
          | .resolved =>
              let size := finalSize scrollHeight scale rotation
              complete { s with
                         canvas := { width := size.1, height := size.2,
                                     picture := .slide slideHtml false scale rotation } }
          | _ =>
              complete { s with
                         canvas := { width := 1280 * scale, height := 800 * scale,
                                     picture := .fallback scale } }

end FullContent

/-! ## src/improved-pptx-handler.js -/

namespace Improved

/-- One entry of `pptxHtmlContent.slides`: the slide element and its size. -/
structure Slide where
  element : String
  width : ℚ
  height : ℚ
  deriving DecidableEq, Repr

/-- The object stored in `pptxHtmlContent`. -/
structure Presentation where
  slides : List Slide
  width : ℚ
  height : ℚ
  deriving DecidableEq, Repr

/-- The options of one `html2canvas` call. -/
structure RasterRequest where
  element : String
  scale : ℚ
  windowWidth : ℚ
  windowHeight : ℚ
  deriving DecidableEq, Repr

/-- The variables closed over by the methods, the canvas and the two logs. -/
structure State where
  pptxHtmlContent : Option Presentation
  slideCount : ℕ
  lastRenderedPageIndex : ℤ
  lastRenderedScale : ℚ
  lastRenderedRotation : ℤ
  canvas : Canvas
  rasterLog : List RasterRequest
  completions : List (Option String)
  deriving DecidableEq, Repr

/-- The handler right after construction on a canvas. -/
def init (canvas : Canvas) : State :=
  { pptxHtmlContent := none
    slideCount := 0
    lastRenderedPageIndex := -1
    lastRenderedScale := 1
    lastRenderedRotation := 0
    canvas := canvas
    rasterLog := []
    completions := [] }

/-- A slide element found by the converter, with the largest relative bottom edge of its
descendants (`maxBottom` of `getActualContentHeight`). -/
structure SlideElement where
  element : String
  maxBottom : ℚ
  deriving DecidableEq, Repr

/-- Function `getActualContentHeight`. -/
def getActualContentHeight (e : SlideElement) : ℚ := max 720 e.maxBottom

/-- How the conversion awaited by `loadDocument` ends. -/
inductive LoadOutcome
  | converted (slideElements : List SlideElement)
  | failed
  | timedOut
  deriving DecidableEq, Repr

/-- Method `loadDocument`.  `slideCount` is assigned before the test for zero slides;
`pptxHtmlContent` is assigned only when there is at least one slide. -/
def loadDocument (s : State) (o : LoadOutcome) : State :=
  match o with
  | .converted slideElements =>
      let s := { s with slideCount := slideElements.length }
      if slideElements.length = 0 then s
      else
        let contentHeight := fun e => max 720 (getActualContentHeight e)
        let slidesContent : List Slide :=
          slideElements.map fun e =>
            { element := e.element, width := 1280, height := contentHeight e + 40 }
        let maxHeight := slideElements.foldl (fun acc e => max acc (contentHeight e + 40)) 0
        { s with
          pptxHtmlContent := some { slides := slidesContent, width := 1280, height := maxHeight } }
  | .failed => s
  | .timedOut => s

/-- Method `pageCount`. -/
def pageCount (s : State) : ℕ := s.slideCount

/-- Method `originalWidth`. -/
def originalWidth (s : State) : ℚ :=
  match s.pptxHtmlContent with
  | some p => p.width
  | none => 1280

/-- Method `originalHeight`. -/
def originalHeight (s : State) : ℚ :=
  match s.pptxHtmlContent with
  | some p => p.height
  | none => 720

/-- Method `cleanup`. -/
def cleanup (s : State) : State :=
  { s with pptxHtmlContent := none, slideCount := 0, lastRenderedPageIndex := -1 }

/-- The parameter validation at the start of the `try` block of `redraw`: the slide to
render, or the message of the `Error` thrown. -/
def validate (s : State) (pageIndex : ℤ) : Except String Slide :=
  match s.pptxHtmlContent with
  | none => .error "No slide content available for rendering"
  | some p =>
    if p.slides.length = 0 then .error "No slide content available for rendering"
    else if pageIndex < 0 ∨ pageIndex ≥ p.slides.length then
      .error ("Slide index " ++ toString pageIndex ++ " out of bounds")
    else
      match arrayAt p.slides pageIndex with
      | some slide => .ok slide
      | none => .error "Cannot read properties of undefined"

/-- The outer `catch` block of `redraw`: the canvas is resized to the original size times
the scale, the message is painted and `onCompletion()` is called. -/
def drawError (s : State) (scale : ℚ) (message : String) : State :=
  { s with
    canvas := { width := originalWidth s * scale, height := originalHeight s * scale,
                picture := .errorText ("Error: " ++ message) }
    completions := s.completions ++ [none] }

/-- Method `redraw`.  An exception thrown in the `then` callback lands in the `catch`
callback of the promise, as a rejection does. -/
def redraw (s : State) (scale : ℚ) (rotation pageIndex : ℤ) (o : RasterOutcome) : State :=
  if s.lastRenderedPageIndex = pageIndex ∧ s.lastRenderedScale = scale ∧
      s.lastRenderedRotation = rotation then
    { s with completions := s.completions ++ [none] }
  else
    let s := { s with
               lastRenderedPageIndex := pageIndex
               lastRenderedScale := scale
               lastRenderedRotation := rotation }
    match validate s pageIndex with
    | .error message => drawError s scale message
    | .ok slide =>
        let effectiveWidth := slide.width * scale
        let effectiveHeight := slide.height * scale
        let size : ℚ × ℚ :=
          if rotation = 90 ∨ rotation = 270 then (effectiveHeight, effectiveWidth)
          else (effectiveWidth, effectiveHeight)
        let s := { s with
                   canvas := { s.canvas with width := size.1, height := size.2 }
                   rasterLog := s.rasterLog ++
                     [({ element := slide.element, scale := 1, windowWidth := slide.width,
                         windowHeight := slide.height } : RasterRequest)] }
        match o with
        | .resolved =>
            { s with
              canvas := { s.canvas with picture := .slide slide.element false scale rotation }
              completions := s.completions ++ [none] }
        | _ =>
            { s with
              canvas := { s.canvas with
                          picture := .errorText ("Error rendering slide " ++ toString (pageIndex + 1)) }
              completions := s.completions ++ [none] }

end Improved

/-! ## The number stored by a canvas element -/

/-- The integer a canvas element stores when the number `x` is assigned to its `width` or
`height`, an `unsigned long` attribute: `x` is truncated towards zero and reduced modulo
2^32, and a result above 2^31 - 1 is replaced by the default of the attribute (300 for the
width, 150 for the height). -/
def canvasDimension (fallback : ℕ) (x : ℚ) : ℕ :=
  let truncated : ℤ := if 0 ≤ x then ⌊x⌋ else -⌊-x⌋
  let reduced : ℕ := (truncated % 4294967296).toNat
  if reduced > 2147483647 then fallback else reduced

/-- The pixel width of a canvas. -/
def Canvas.pixelWidth (c : Canvas) : ℕ := canvasDimension 300 c.width

/-- The pixel height of a canvas. -/
def Canvas.pixelHeight (c : Canvas) : ℕ := canvasDimension 150 c.height

/-! ## src/full-pptx-handler.js -/

namespace Full

/-- What the DOM reports for one descendant of a slide: `offsetHeight`, the `bottom` of
its bounding rectangle and the result of `parseInt(style.marginBottom)` (`none` for NaN). -/
structure ElementBox where
  offsetHeight : ℚ
  bottom : ℚ
  marginBottom : Option ℤ
  deriving DecidableEq, Repr

/-- What measuring a slide element meets: an exception somewhere in the `try` block, or
the top of the slide rectangle and the boxes of all its descendants. -/
inductive Measurement
  | throws
  | boxes (slideTop : ℚ) (elements : List ElementBox)
  deriving DecidableEq, Repr

/-- The expression `parseInt(style.marginBottom) || 0`. -/
def marginBottomOf (e : ElementBox) : ℚ :=
  match e.marginBottom with
  | some v => if v = 0 then 0 else (v : ℚ)
  | none => 0

/-- The loop of `measureSlideContentHeight`, started with the current `maxBottom`. -/
def measureLoop (slideTop : ℚ) : List ElementBox → ℚ → ℚ
  | [], maxBottom => maxBottom
  | e :: rest, maxBottom =>
    if e.offsetHeight > 0 then
      let bottom := e.bottom - slideTop
      measureLoop slideTop rest (max maxBottom (bottom + marginBottomOf e))
    else measureLoop slideTop rest maxBottom

/-- Function `measureSlideContentHeight`. -/
def measureSlideContentHeight (m : Measurement) : ℚ :=
  let minHeight : ℚ := 720
  match m with
  | .boxes slideTop elements => max minHeight (measureLoop slideTop elements 0 + 50)
  | .throws => minHeight

/-- The values `bottom + marginBottom`, relative to the slide top, of the descendants with
`offsetHeight > 0`, in document order. -/
def visibleBottoms (slideTop : ℚ) (elements : List ElementBox) : List ℚ :=
  (elements.filter fun e => e.offsetHeight > 0).map fun e =>
    e.bottom - slideTop + marginBottomOf e

/-- The quantity M of the measurement, as the specification words it: the maximum of
`visibleBottoms`, and 0 when no descendant has a positive `offsetHeight`. -/
def specMaxBottom (slideTop : ℚ) (elements : List ElementBox) : ℚ :=
  match visibleBottoms slideTop elements with
  | [] => 0
  | v :: vs => vs.foldl max v

/-- The measured height as the specification words it: `max(720, 50 + M)`. -/
def specContentHeight (slideTop : ℚ) (elements : List ElementBox) : ℚ :=
  max 720 (50 + specMaxBottom slideTop elements)

/-- A `.slide` element found in the container, with what measuring it meets. -/
structure SlideNode where
  element : String
  measurement : Measurement
  deriving DecidableEq, Repr

/-- One entry of `slideContent`. -/
structure SlideInfo where
  element : String
  width : ℚ
  height : ℚ
  deriving DecidableEq, Repr

/-- A call of one of the two callbacks of `loadDocument`. -/
inductive LoadSignal
  | completion
  | error (message : String)
  deriving DecidableEq, Repr

/-- The variables closed over by the methods, the timer of the load in flight and the log
of the callbacks of `loadDocument`. -/
structure State where
  slideContent : Option (List SlideInfo)
  slideCount : ℕ
  maxSlideWidth : ℚ
  maxSlideHeight : ℚ
  slideCache : List (String × Canvas)
  containerPresent : Bool
  loadingTimeoutArmed : Bool
  loadSignals : List LoadSignal
  deriving DecidableEq, Repr

/-- The handler right after construction. -/
def init : State :=
  { slideContent := none
    slideCount := 0
    maxSlideWidth := 1280
    maxSlideHeight := 720
    slideCache := []
    containerPresent := false
    loadingTimeoutArmed := false
    loadSignals := [] }

/-- Method `pageCount`. -/
def pageCount (s : State) : ℕ := s.slideCount

/-- Method `originalWidth`. -/
def originalWidth (s : State) : ℚ := s.maxSlideWidth

/-- Method `originalHeight`. -/
def originalHeight (s : State) : ℚ := s.maxSlideHeight

/-- The loop of `processSlides` over the slide elements. -/
def processLoop : List SlideNode → State → State
  | [], s => s
  | slide :: rest, s =>
    let contentHeight := measureSlideContentHeight slide.measurement
    processLoop rest
      { s with
        maxSlideWidth := max s.maxSlideWidth 1280
        maxSlideHeight := max s.maxSlideHeight contentHeight
        slideContent :=
          some ((s.slideContent.getD []) ++
            [{ element := slide.element, width := 1280, height := contentHeight }]) }

/-- Function `processSlides`: the new state, and the message of the `Error` thrown when no
slide element is found (after `slideCount` has been assigned). -/
def processSlides (s : State) (slideElements : List SlideNode) : State × Option String :=
  let s := { s with slideCount := slideElements.length }
  if slideElements.length = 0 then (s, some "No slides found in the PPTX document")
  else
    (processLoop slideElements
      { s with slideContent := some [], maxSlideWidth := 0, maxSlideHeight := 0 }, none)

/-- The synchronous part of `loadDocument`: the cache is emptied, the container is
created, the timer of 60 seconds is armed and the converter is called; when that call
throws, the timer is cleared and `onError` is called. -/
def loadDocumentBegin (s : State) (converterThrows : Option String) : State :=
  let s := { s with slideCache := [], containerPresent := true, loadingTimeoutArmed := true }
  match converterThrows with
  | none => s
  | some message =>
      { s with loadingTimeoutArmed := false, loadSignals := s.loadSignals ++ [.error message] }

/-- What can happen to a load in flight. -/
inductive LoadEvent
  | timeout
  | converterSuccess (slideElements : List SlideNode)
  | converterError (message : Option String)
  deriving DecidableEq, Repr

/-- The callbacks of `loadDocument`.  The timer callback runs only while the timer is
armed.  The `success` callback clears the timer and, one second later, processes the
slides and calls `onCompletion`, or `onError` when processing throws.  The `error` callback
clears the timer and calls `onError`. -/
def loadEvent (s : State) : LoadEvent → State
  | .timeout =>
      if s.loadingTimeoutArmed then
        { s with
          loadingTimeoutArmed := false
          loadSignals := s.loadSignals ++ [.error "Loading timed out"] }
      else s
  | .converterSuccess slideElements =>
      let s := { s with loadingTimeoutArmed := false }
      match processSlides s slideElements with
      | (s1, none) => { s1 with loadSignals := s1.loadSignals ++ [.completion] }
      | (s1, some message) => { s1 with loadSignals := s1.loadSignals ++ [.error message] }
  | .converterError message =>
      { s with
        loadingTimeoutArmed := false
        loadSignals := s.loadSignals ++ [.error (message.getD "Failed to convert PPTX")] }

/-- A whole load: the synchronous part followed by the events, in their order. -/
def loadDocument (s : State) (events : List LoadEvent) : State :=
  events.foldl loadEvent (loadDocumentBegin s none)

/-- Method `cleanup`. -/
def cleanup (s : State) : State :=
  { s with slideCache := [], slideContent := none, slideCount := 0 }

/-- The number of slides held in the stored slide list, 0 when none is stored. -/
def storedSlides (s : State) : ℕ :=
  match s.slideContent with
  | some slides => slides.length
  | none => 0

end Full

/-! ## src/logScanner/optimized-pptx-handler.js -/

namespace Optimized

/-- The object stored in `pptxHtmlContent`. -/
structure Presentation where
  slides : List String
  width : ℚ
  height : ℚ
  deriving DecidableEq, Repr

/-- A `.slide` element found in the container `myModal`. -/
structure SlideNode where
  outerHTML : String
  offsetWidth : ℚ
  offsetHeight : ℚ
  deriving DecidableEq, Repr

/-- A call of one of the two callbacks of `loadDocument`. -/
inductive LoadSignal
  | completion (content : Presentation)
  | error (message : String)
  deriving DecidableEq, Repr

/-- The variables closed over by the methods, the canvas, and the load in flight: whether
its observer is connected, whether its two timers are armed, how many processing timers
the observer has scheduled, whether its promise is settled; and the log of the callbacks
of `loadDocument`. -/
structure State where
  pptxHtmlContent : Option Presentation
  slideCount : ℕ
  canvas : Canvas
  modalPresent : Bool
  observing : Bool
  timeoutArmed : Bool
  errorCheckArmed : Bool
  scheduledProcessing : ℕ
  settled : Bool
  loadSignals : List LoadSignal
  deriving DecidableEq, Repr

/-- The handler right after construction on a canvas. -/
def init (canvas : Canvas) : State :=
  { pptxHtmlContent := none
    slideCount := 0
    canvas := canvas
    modalPresent := false
    observing := false
    timeoutArmed := false
    errorCheckArmed := false
    scheduledProcessing := 0
    settled := true
    loadSignals := [] }

/-- Method `pageCount`. -/
def pageCount (s : State) : ℕ := s.slideCount

/-- The call `reject(error)` with the `catch` block of `loadDocument` behind it: the first
settlement of the promise calls `onError`, a later one does nothing. -/
def rejectLoad (s : State) (message : String) : State :=
  if s.settled then s
  else { s with settled := true, loadSignals := s.loadSignals ++ [.error message] }

/-- The call `resolve()` with the rest of `loadDocument` behind it: the first settlement
of the promise clears both timers and calls `onCompletion(null, pptxHtmlContent)`, a later
one does nothing. -/
def resolveLoad (s : State) : State :=
  if s.settled then s
  else
    match s.pptxHtmlContent with
    | some content =>
        { s with
          settled := true
          timeoutArmed := false
          errorCheckArmed := false
          loadSignals := s.loadSignals ++ [.completion content] }
    | none =>
        { s with
          settled := true
          timeoutArmed := false
          errorCheckArmed := false
          loadSignals := s.loadSignals ++
            [.error "Cannot read properties of null (reading presentationSize)"] }

/-- The synchronous part of `loadDocument`: the container is created, the observer is
connected, the two timers are armed and the converter is called; when that call throws,
the observer is disconnected, the timers are cleared and the promise is rejected.  One
load is in flight at a time: a load begins when the callbacks of the previous one have
all run. -/
def loadDocumentBegin (s : State) (converterThrows : Option String) : State :=
  let s := { s with
             modalPresent := true
             observing := true
             timeoutArmed := true
             errorCheckArmed := true
             scheduledProcessing := 0
             settled := false }
  match converterThrows with
  | none => s
  | some message =>
      rejectLoad { s with observing := false, timeoutArmed := false, errorCheckArmed := false }
        message

/-- What can happen to a load in flight: a run of the observer callback with the slides
then in the container, a run of a processing timer on the slides its observer callback
saw, the error check after 5 seconds with the number of slides and the texts of the error
elements then in the container, and the timeout after 30 seconds. -/
inductive LoadEvent
  | mutation (slides : List SlideNode)
  | processing (slides : List SlideNode)
  | errorCheck (slides : ℕ) (errorTexts : List String)
  | timeout
  deriving DecidableEq, Repr

/-- The presentation built by a processing timer. -/
def capture (slides : List SlideNode) : Presentation :=
  let slideContents := slides.map fun slide => slide.outerHTML
  match slides with
  | [] => { slides := slideContents, width := 1280, height := 720 }
  | firstSlide :: _ =>
    if firstSlide.offsetWidth < 100 ∨ firstSlide.offsetHeight < 100 then
      { slides := slideContents, width := 1280, height := 720 }
    else
      { slides := slideContents, width := firstSlide.offsetWidth,
        height := firstSlide.offsetHeight }

/-- The callbacks of the load in flight.  Each runs only while its source is live: the
observer while connected, a processing timer when one is scheduled, the two other timers
while armed. -/
def loadEvent (s : State) : LoadEvent → State
  | .mutation slides =>
      if s.observing ∧ slides.length > 0 then
        { s with scheduledProcessing := s.scheduledProcessing + 1 }
      else s
  | .processing slides =>
      if s.scheduledProcessing = 0 then s
      else
        resolveLoad
          { s with
            scheduledProcessing := s.scheduledProcessing - 1
            observing := false
            pptxHtmlContent := some (capture slides)
            slideCount := slides.length }
  | .errorCheck slides errorTexts =>
      if s.errorCheckArmed then
        let s := { s with errorCheckArmed := false }
        if slides = 0 then
          match errorTexts with
          | [] => s
          | text :: _ =>
              rejectLoad { s with observing := false, timeoutArmed := false }
                (if text = "" then "PPTXjs conversion failed" else text)
        else s
      else s
  | .timeout =>
      if s.timeoutArmed then
        rejectLoad { s with timeoutArmed := false, observing := false } "Conversion timed out"
      else s

/-- An event of a load during which the converter produces no slide and no error element:
the observer sees no slide, the error check finds neither slide nor error element. -/
def LoadEvent.quiet : LoadEvent → Prop
  | .mutation slides => slides = []
  | .errorCheck slides errorTexts => slides = 0 ∧ errorTexts = []
  | .processing _ => False
  | .timeout => False

/-- The effect of a sequence of events on the load in flight. -/
def loadEvents (s : State) (events : List LoadEvent) : State := events.foldl loadEvent s

/-- A load in flight that has seen nothing yet: its promise is pending, its observer is
connected, its timeout is armed and no processing timer is scheduled. -/
def Waiting (s0 s : State) : Prop :=
  s.settled = false ∧ s.timeoutArmed = true ∧ s.scheduledProcessing = 0 ∧
    s.loadSignals = s0.loadSignals ∧ s.pptxHtmlContent = s0.pptxHtmlContent ∧
    s.slideCount = s0.slideCount

/-- A load that has timed out: its promise is settled, its timeout has fired, no processing
timer is scheduled and `onError` has been called once with the timeout error. -/
def TimedOut (s0 s : State) : Prop :=
  s.settled = true ∧ s.timeoutArmed = false ∧ s.scheduledProcessing = 0 ∧
    s.loadSignals = s0.loadSignals ++ [.error "Conversion timed out"] ∧
    s.pptxHtmlContent = s0.pptxHtmlContent ∧ s.slideCount = s0.slideCount

end Optimized

/-! ## Drawing onto the canvas: rectangles and the context transform -/

/-- The effect of `ctx.rotate(rotation * Math.PI / 180)` on a point, for the quarter turns,
whose sine and cosine are 0, 1 or -1: the point (x, y) goes to
(x cos - y sin, x sin + y cos).  Other angles have no rational image and give `none`. -/
def rotatePoint (rotation : ℤ) (p : ℚ × ℚ) : Option (ℚ × ℚ) :=
  if rotation = 0 then some p
  else if rotation = 90 then some (-p.2, p.1)
  else if rotation = 180 then some (-p.1, -p.2)
  else if rotation = 270 then some (p.2, -p.1)
  else none

/-- An axis-parallel rectangle given as `drawImage` takes it: corner, width, height. -/
structure Rect where
  x : ℚ
  y : ℚ
  w : ℚ
  h : ℚ
  deriving DecidableEq, Repr

/-- The points of a rectangle. -/
def Rect.contains (r : Rect) (p : ℚ × ℚ) : Prop :=
  r.x ≤ p.1 ∧ p.1 ≤ r.x + r.w ∧ r.y ≤ p.2 ∧ p.2 ≤ r.y + r.h

/-- The context transform in force when `drawImage` is called: none, a rotation about the
origin, or `translate(cx, cy)` followed by a rotation. -/
inductive Transform
  | identity
  | rotated (rotation : ℤ)
  | centred (cx cy : ℚ) (rotation : ℤ)
  deriving DecidableEq, Repr

/-- Where the transform sends a point of user space. -/
def Transform.image : Transform → ℚ × ℚ → Option (ℚ × ℚ)
  | .identity, p => some p
  | .rotated rotation, p => rotatePoint rotation p
  | .centred cx cy rotation, p =>
    match rotatePoint rotation p with
    | some q => some (cx + q.1, cy + q.2)
    | none => none

/-- A call of `drawImage(bitmap, x, y, w, h)` under a transform. -/
structure DrawCall where
  transform : Transform
  dest : Rect
  deriving DecidableEq, Repr

/-- The canvas points the bitmap is painted on. -/
def DrawCall.covers (d : DrawCall) (p : ℚ × ℚ) : Prop :=
  ∃ q, d.dest.contains q ∧ d.transform.image q = some p

namespace Final

/-- The transform and the `drawImage` call of the success callback of `redraw`, in terms of
`finalWidth` and `finalHeight` after the swap (the canvas size). -/
def drawImageCall (finalWidth finalHeight : ℚ) (rotation : ℤ) : DrawCall :=
  if rotation ≠ 0 then
    if rotation = 90 ∨ rotation = 270 then
      { transform := .centred (finalWidth / 2) (finalHeight / 2) rotation
        dest := { x := -finalHeight / 2, y := -finalWidth / 2, w := finalHeight,
                  h := finalWidth } }
    else
      { transform := .centred (finalWidth / 2) (finalHeight / 2) rotation
        dest := { x := -finalWidth / 2, y := -finalHeight / 2, w := finalWidth,
                  h := finalHeight } }
  else
    { transform := .identity, dest := { x := 0, y := 0, w := finalWidth, h := finalHeight } }

/-- The draw call of a redraw at the given scale and rotation. -/
def redrawDrawCall (scale : ℚ) (rotation : ℤ) : DrawCall :=
  drawImageCall (finalSize scale rotation).1 (finalSize scale rotation).2 rotation

/-- Method `fitToViewport`; `viewerPanel` is the `clientWidth` and `clientHeight` of the
element `viewerPanel`, `none` when the page has no such element. -/
def fitToViewport (s : State) (viewerPanel : Option (ℤ × ℤ)) (o : RasterOutcome) : State :=
  match s.pptxHtmlContent with
  | none => s
  | some _ =>
    match viewerPanel with
    | none => s
    | some (clientWidth, clientHeight) =>
      let viewportWidth : ℚ := clientWidth - 40
      let viewportHeight : ℚ := clientHeight - 40
      let scaleToFitWidth := viewportWidth / 1280
      let scaleToFitHeight := viewportHeight / 720
      let fitScale := min scaleToFitWidth scaleToFitHeight
      redraw s fitScale 0 0 o

end Final

/-! ## src/pptx_debug_handler.js, last handler -/

namespace DebugLast

/-- The object returned by `calcCanvasCorrections`. -/
structure DrawInfo where
  cw : ℚ
  ch : ℚ
  cx : ℚ
  cy : ℚ
  deriving DecidableEq, Repr

/-- Function `calcCanvasCorrections`. -/
def calcCanvasCorrections (w h : ℚ) (rotation : ℤ) : DrawInfo :=
  if rotation = 90 then { cw := h, ch := w, cx := 0, cy := -h }
  else if rotation = 180 then { cw := w, ch := h, cx := -w, cy := -h }
  else if rotation = 270 then { cw := h, ch := w, cx := -w, cy := 0 }
  else { cw := w, ch := h, cx := 0, cy := 0 }

/-- The `drawImage` call of `redraw` for a bitmap of scaled size `w` by `h`:
`ctx.rotate` when the rotation is not 0, then `drawImage` at the corrected corner. -/
def drawImageCall (w h : ℚ) (rotation : ℤ) : DrawCall :=
  let drawInfo := calcCanvasCorrections w h rotation
  { transform := if rotation ≠ 0 then .rotated rotation else .identity
    dest := { x := drawInfo.cx, y := drawInfo.cy, w := w, h := h } }

end DebugLast

/-! ## Thumbnails: `createCanvases` -/

/-- A thumbnail canvas: rendered from the slide of the given index, or the fallback that
carries its label. -/
inductive Thumbnail
  | rendered (slideIndex : ℕ)
  | fallback (slideIndex : ℕ)
  deriving DecidableEq, Repr

/-- The assignment `array[i] = v` on a JavaScript array: cells between the old end and `i`
become holes. -/
def arraySet {α : Type} : List (Option α) → ℕ → α → List (Option α)
  | [], 0, v => [some v]
  | [], i + 1, v => none :: arraySet [] i v
  | _ :: xs, 0, v => some v :: xs
  | x :: xs, i + 1, v => x :: arraySet xs i v

/-- The expression `canvases.filter(canvas => canvas !== undefined)`. -/
def validCanvases {α : Type} (canvases : List (Option α)) : List α :=
  canvases.filterMap id

/-- The variables of one call of `createCanvases`, the slide indices whose rasterization
is in flight, and the arguments of the calls of `callback`. -/
structure ThumbnailJob where
  fromPage : ℕ
  toPage : ℤ
  canvases : List (Option Thumbnail)
  processedCount : ℕ
  pending : List ℕ
  callbacks : List (List Thumbnail)
  deriving DecidableEq, Repr

/-- Function `checkCompletion`. -/
def ThumbnailJob.checkCompletion (j : ThumbnailJob) : ThumbnailJob :=
  if (j.processedCount : ℤ) ≥ j.toPage - j.fromPage + 1 then
    { j with callbacks := j.callbacks ++ [validCanvases j.canvases] }
  else j

/-- The `for` loop of `createCanvases` over the indices still to visit: reading
`pptxHtmlContent.slides` when nothing is stored throws a `TypeError`; a missing or empty
slide is counted at once; for any other slide a rasterization is started. -/
def createLoop (slides : Option (List String)) : List ℕ → ThumbnailJob → Except String ThumbnailJob
  | [], j => .ok j
  | i :: rest, j =>
    match slides with
    | none => .error "TypeError: Cannot read properties of null (reading slides)"
    | some stored =>
      match stored[i]? with
      | none =>
          createLoop slides rest
            (ThumbnailJob.checkCompletion { j with processedCount := j.processedCount + 1 })
      | some slideHtml =>
        if slideHtml = "" then
          createLoop slides rest
            (ThumbnailJob.checkCompletion { j with processedCount := j.processedCount + 1 })
        else createLoop slides rest { j with pending := j.pending ++ [i] }

/-- The synchronous part of `createCanvases`, shared by the enhanced and the optimized
handler: `pageCount || self.pageCount()`, `toPage`, and the loop from `fromPage` to
`toPage`. -/
def createCanvasesLoop (slides : Option (List String)) (slideCount fromPage pageCount : ℕ) :
    Except String ThumbnailJob :=
  let pageCount := if pageCount = 0 then slideCount else pageCount
  let toPage : ℤ := min (slideCount : ℤ) ((fromPage : ℤ) + pageCount - 1)
  createLoop slides (List.range' fromPage (toPage - fromPage + 1).toNat)
    { fromPage := fromPage, toPage := toPage, canvases := [], processedCount := 0,
      pending := [], callbacks := [] }

/-- The thumbnail stored for slide `i`: the scaled bitmap, or the fallback with the slide
label when html2canvas fails. -/
def thumbnailFor (i : ℕ) (rendered : Bool) : Thumbnail :=
  if rendered then Thumbnail.rendered i else Thumbnail.fallback i

namespace Enhanced

/-- The synchronous part of `createCanvases`. -/
def createCanvasesBegin (s : State) (fromPage pageCount : ℕ) : Except String ThumbnailJob :=
  createCanvasesLoop (s.pptxHtmlContent.map fun p => p.slides) (Enhanced.pageCount s) fromPage pageCount

/-- The two callbacks of one thumbnail rasterization: the bitmap is scaled into a thumbnail
of 160 by 90, or, when html2canvas fails, the fallback thumbnail with the slide label is
made; either is stored at `i - fromPage`, then the slide is counted. -/
def thumbnailDone (j : ThumbnailJob) (i : ℕ) (rendered : Bool) : ThumbnailJob :=
  ThumbnailJob.checkCompletion
    { j with
      canvases := arraySet j.canvases (i - j.fromPage) (thumbnailFor i rendered)
      pending := j.pending.erase i
      processedCount := j.processedCount + 1 }

/-- Method `createCanvases`, with the rasterizations completing in the given order;
`rendered i` tells whether the rasterization of slide `i` succeeds. -/
def createCanvases (s : State) (fromPage pageCount : ℕ) (order : List ℕ) (rendered : ℕ → Bool) :
    Except String ThumbnailJob :=
  match createCanvasesBegin s fromPage pageCount with
  | .error e => .error e
  | .ok job => .ok (order.foldl (fun j i => thumbnailDone j i (rendered i)) job)

end Enhanced

namespace Optimized

/-- The synchronous part of `createCanvases`. -/
def createCanvasesBegin (s : State) (fromPage pageCount : ℕ) : Except String ThumbnailJob :=
  createCanvasesLoop (s.pptxHtmlContent.map fun p => p.slides) (Optimized.pageCount s) fromPage pageCount

/-- The two callbacks of one thumbnail rasterization: the bitmap is stored at
`index - fromPage`, or nothing is stored when html2canvas fails; then the slide is
counted. -/
def thumbnailDone (j : ThumbnailJob) (index : ℕ) (rendered : Bool) : ThumbnailJob :=
  ThumbnailJob.checkCompletion
    { j with
      canvases :=
        if rendered then arraySet j.canvases (index - j.fromPage) (Thumbnail.rendered index)
        else j.canvases
      pending := j.pending.erase index
      processedCount := j.processedCount + 1 }

/-- Method `createCanvases`, with the rasterizations completing in the given order. -/
def createCanvases (s : State) (fromPage pageCount : ℕ) (order : List ℕ) (rendered : ℕ → Bool) :
    Except String ThumbnailJob :=
  match createCanvasesBegin s fromPage pageCount with
  | .error e => .error e
  | .ok job => .ok (order.foldl (fun j i => thumbnailDone j i (rendered i)) job)

end Optimized

/-! ## src/pptx_debug_handler.js, first handler -/

namespace DebugFirst

/-- Method `createCanvases` of the first handler of the file: its body is
`callback([])`.  The result is the list of the arguments of the calls of `callback`. -/
def createCanvases (_fromPage _pageCount : ℕ) : List (List Thumbnail) := [[]]

end DebugFirst

/-! ## src/enhanced_pptx_handler.js: positioning fix, slide metrics, zoom -/

/-- JavaScript `parseInt` on a string that starts with a decimal number, such as
`-0.5px`, given the value of that number: the digits before the point are read, so the
number is truncated towards zero (`parseInt` of `-0.5px` is `-0`, which is not below 0). -/
def parseInt (x : ℚ) : ℤ := if 0 ≤ x then ⌊x⌋ else -⌊-x⌋

namespace Enhanced

/-- What `comprehensiveContentFix` reads and writes of one element: the number of an
inline `top` given in px, and the number matched by `translateY\((-?\d+(?:\.\d+)?)px\)`
in the inline transform; `none` when the element has no such style. -/
structure StyledElement where
  top : Option ℚ
  translateY : Option ℚ
  deriving DecidableEq, Repr

/-- The body of the inner `forEach` of `comprehensiveContentFix`, for one element. -/
def fixElement (element : StyledElement) : StyledElement :=
  let element :=
    match element.top with
    | some top =>
        let topPos := parseInt top
        if topPos < 0 then
          let adjustedTop := max 0 (topPos + 100)
          { element with top := some (adjustedTop : ℚ) }
        else element
    | none => element
  match element.translateY with
  | some translateY =>
      if translateY < -50 then
        let adjustedTranslateY := max (-50) (translateY + 50)
        { element with translateY := some adjustedTranslateY }
      else element
  | none => element

/-- Function `comprehensiveContentFix` on a list of slides, each given by its elements. -/
def comprehensiveContentFix (slides : List (List StyledElement)) : List (List StyledElement) :=
  slides.map fun slide => slide.map fixElement

/-- What `calculateEnhancedSlideMetrics` reads of one element: the numbers of the inline
`top` and `height` given in px (`none` when absent, where `parseInt` yields `NaN`), the
number matched by the `translateY` pattern, and the bounding rectangle. -/
structure MeasuredElement where
  styleTop : Option ℚ
  styleHeight : Option ℚ
  translateY : Option ℚ
  rectTop : ℚ
  rectHeight : ℚ
  deriving DecidableEq, Repr

/-- The body of the `forEach` of `calculateEnhancedSlideMetrics` for one element, on the
pair `(minTop, maxBottom)`; `slideRectTop` is the top of the bounding rectangle of the
slide. -/
def metricsStep (slideRectTop : ℚ) (acc : ℚ × ℚ) (element : MeasuredElement) : ℚ × ℚ :=
  let acc : ℚ × ℚ :=
    match element.styleTop with
    | some top =>
        let topPos : ℚ := parseInt top
        let parsedHeight : ℚ :=
          match element.styleHeight with
          | some height => parseInt height
          | none => 0
        let height : ℚ :=
          if parsedHeight ≠ 0 then parsedHeight
          else if element.rectHeight ≠ 0 then element.rectHeight
          else 0
        (min acc.1 topPos, max acc.2 (topPos + height))
    | none => acc
  let acc : ℚ × ℚ :=
    match element.translateY with
    | some translateY => (min acc.1 translateY, acc.2)
    | none => acc
  if element.rectTop ≠ 0 ∧ element.rectHeight ≠ 0 then
    let relativeTop := element.rectTop - slideRectTop
    (min acc.1 relativeTop, max acc.2 (relativeTop + element.rectHeight))
  else acc

/-- The values of `minTop` and `maxBottom` after the `forEach` of
`calculateEnhancedSlideMetrics`. -/
def metricsLoop (slideRectTop : ℚ) (elements : List MeasuredElement) : ℚ × ℚ :=
  elements.foldl (metricsStep slideRectTop) (0, 720)

/-- Function `calculateEnhancedSlideMetrics`; a slide element is given by the top of its
bounding rectangle and its descendants, `none` is a null argument. -/
def calculateEnhancedSlideMetrics (slideElement : Option (ℚ × List MeasuredElement)) :
    SlideMetrics :=
  match slideElement with
  | none => { minTop := 0, totalHeight := 720, adjustmentNeeded := 100 }
  | some (slideRectTop, elements) =>
      let minTop := (metricsLoop slideRectTop elements).1
      let maxBottom := (metricsLoop slideRectTop elements).2
      let adjustmentNeeded := max 100 (|min 0 minTop| + 50)
      let totalHeight := max 720 (maxBottom - minTop + adjustmentNeeded * 2)
      { minTop := minTop, totalHeight := totalHeight, adjustmentNeeded := adjustmentNeeded }

/-- The expression `lastRenderedScale || 1` of `zoomToScale`. -/
def currentScale (s : State) : ℚ :=
  if s.lastRenderedScale = 0 then 1 else s.lastRenderedScale

end Enhanced

/-! ## src/logScanner/optimized-pptx-handler.js: `redraw` -/

namespace Optimized

/-- The constant `MAX_CANVAS_DIMENSION`. -/
def MAX_CANVAS_DIMENSION : ℚ := 16384

/-- The numbers computed by `redraw` from the measured rectangle of the slide. -/
structure RenderPlan where
  canvasScaleFactor : ℚ
  renderWidth : ℚ
  renderHeight : ℚ
  deriving DecidableEq, Repr

/-- The part of `redraw` between the measurement and the call of html2canvas: the
measured width and height with the 20% buffer, the factor that scales an oversized
content down, and the size requested from html2canvas. -/
def renderPlan (slideRect : ℚ × ℚ) : RenderPlan :=
  let bufferFactor : ℚ := 6 / 5
  let contentWidth : ℚ := mathCeil (slideRect.1 * bufferFactor)
  let contentHeight : ℚ := mathCeil (slideRect.2 * bufferFactor)
  let canvasScaleFactor : ℚ :=
    if contentWidth > MAX_CANVAS_DIMENSION ∨ contentHeight > MAX_CANVAS_DIMENSION then
      min (MAX_CANVAS_DIMENSION / contentWidth) (MAX_CANVAS_DIMENSION / contentHeight)
    else 1
  { canvasScaleFactor := canvasScaleFactor
    renderWidth := min contentWidth MAX_CANVAS_DIMENSION
    renderHeight := min contentHeight MAX_CANVAS_DIMENSION }

/-- Method `redraw`, as far as the canvas goes (the call of `onCompletion`, made on every
path, is not recorded in this state).  `slideRect` is the width and height measured for
the slide; html2canvas, called with `scale: 1`, delivers a bitmap of the requested
`renderWidth` by `renderHeight`; an exception thrown in the `then` callback lands in the
`catch` callback, as a rejection does. -/
def redraw (s : State) (scale : ℚ) (rotation pageIndex : ℤ) (slideRect : ℚ × ℚ)
    (o : RasterOutcome) : State :=
  match s.pptxHtmlContent with
  | none => s
  | some p =>
    if p.slides.length = 0 then s
    else
      match arrayAt p.slides pageIndex with
      | none => s
      | some slideHtml =>
        if slideHtml = "" then s
        else
          match o with
          | .resolved =>
              let plan := renderPlan slideRect
              let finalScale := scale * plan.canvasScaleFactor
              let needSwapDimensions : Bool := rotation = 90 ∨ rotation = 270
              if needSwapDimensions then
                { s with
                  canvas := { width := plan.renderHeight * finalScale
                              height := plan.renderWidth * finalScale
                              picture := .slide slideHtml false scale rotation } }
              else
                { s with
                  canvas := { width := plan.renderWidth * finalScale
                              height := plan.renderHeight * finalScale
                              picture := .slide slideHtml false scale rotation } }
          | _ =>
              { s with
                canvas := { width := 1280 * scale, height := 720 * scale,
                            picture := .fallback scale } }

end Optimized


/-! ## States used in the worked examples -/

/-- A blank canvas of the default size, used in the worked examples. -/
def blankCanvas : Canvas := { width := 300, height := 150, picture := .blank }

namespace Enhanced

/-- Metrics of a slide whose content stays inside the 1280 by 720 box. -/
def plainMetrics : SlideMetrics := { minTop := 0, totalHeight := 920, adjustmentNeeded := 100 }

/-- A handler on which a one-slide document was loaded and rendered at the scales
1 to 10: its cache is full. -/
def fullCacheState : State :=
  run (init blankCanvas)
    [Call.loadDocument (.slidesProcessed ["<div class=slide>A</div>"]),
     Call.redraw 1 0 0 plainMetrics .resolved, Call.redraw 2 0 0 plainMetrics .resolved,
     Call.redraw 3 0 0 plainMetrics .resolved, Call.redraw 4 0 0 plainMetrics .resolved,
     Call.redraw 5 0 0 plainMetrics .resolved, Call.redraw 6 0 0 plainMetrics .resolved,
     Call.redraw 7 0 0 plainMetrics .resolved, Call.redraw 8 0 0 plainMetrics .resolved,
     Call.redraw 9 0 0 plainMetrics .resolved, Call.redraw 10 0 0 plainMetrics .resolved]

end Enhanced

namespace Enhanced

/-- A handler on which a document of three slides was loaded. -/
def threeSlides : State :=
  loadDocument (init blankCanvas)
    (.slidesProcessed
      ["<div class=slide>A</div>", "<div class=slide>B</div>", "<div class=slide>C</div>"])

/-- A handler on which a one-slide document was loaded and rendered at scale 1, then at
scale 2, then at scale 1 again. -/
def zoomedInAndBack : State :=
  run (init blankCanvas)
    [Call.loadDocument (.slidesProcessed ["<div class=slide>A</div>"]),
     Call.redraw 1 0 0 plainMetrics .resolved, Call.redraw 2 0 0 plainMetrics .resolved,
     Call.redraw 1 0 0 plainMetrics .resolved]

end Enhanced

namespace Optimized

/-- A slide of the standard size found in the container. -/
def slideA : SlideNode :=
  { outerHTML := "<div class=slide>A</div>", offsetWidth := 1280, offsetHeight := 720 }

/-- A handler on which a one-slide document was loaded: the observer saw the slide and
its processing timer ran. -/
def oneSlideLoaded : State :=
  loadEvents (loadDocumentBegin (init blankCanvas) none)
    [.mutation [slideA], .processing [slideA]]

end Optimized

/-! # Theorems -/

section MapLemmas
variable {κ ν : Type} [DecidableEq κ]

theorem mapDeleteFirstKey_eq_tail (m : List (κ × ν)) : mapDeleteFirstKey m = m.tail := by
  cases m with
  | nil => rfl
  | cons e rest => simp [mapDeleteFirstKey, mapDelete]

theorem mapSet_length_le (m : List (κ × ν)) (k : κ) (v : ν) :
    (mapSet m k v).length ≤ m.length + 1 := by
  induction m with
  | nil => simp [mapSet]
  | cons e rest ih =>
    by_cases h : e.1 = k
    · simp [mapSet, h]
    · simp [mapSet, h]; exact ih

theorem mapSet_of_not_has (m : List (κ × ν)) (k : κ) (v : ν) (h : mapHas m k = false) :
    mapSet m k v = m ++ [(k, v)] := by
  induction m with
  | nil => rfl
  | cons e rest ih =>
    by_cases he : e.1 = k
    · simp [mapHas, he] at h
    · simp [mapHas, he] at h
      simp [mapSet, he, ih h]

theorem mapSet_length_of_has (m : List (κ × ν)) (k : κ) (v : ν) (h : mapHas m k = true) :
    (mapSet m k v).length = m.length := by
  induction m with
  | nil => simp [mapHas] at h
  | cons e rest ih =>
    by_cases he : e.1 = k
    · simp [mapSet, he]
    · simp [mapHas, he] at h
      simp [mapSet, he, ih h]

theorem mapHas_mapSet (m : List (κ × ν)) (k : κ) (v : ν) : mapHas (mapSet m k v) k = true := by
  induction m with
  | nil => simp [mapSet, mapHas]
  | cons e rest ih =>
    by_cases he : e.1 = k
    · simp [mapSet, mapHas, he]
    · simp [mapSet, mapHas, he, ih]

theorem mapGet_mapSet (m : List (κ × ν)) (k : κ) (v : ν) : mapGet (mapSet m k v) k = some v := by
  induction m with
  | nil => simp [mapSet, mapGet]
  | cons e rest ih =>
    by_cases he : e.1 = k
    · simp [mapSet, mapGet, he]
    · simp [mapSet, mapGet, he, ih]

theorem mapHas_append_self (m : List (κ × ν)) (k : κ) (v : ν) :
    mapHas (m ++ [(k, v)]) k = true := by
  induction m with
  | nil => simp [mapHas]
  | cons e rest ih =>
    by_cases he : e.1 = k
    · simp [mapHas, he]
    · simp [mapHas, he, ih]

theorem mapGet_append_self (m : List (κ × ν)) (k : κ) (v : ν) (h : mapHas m k = false) :
    mapGet (m ++ [(k, v)]) k = some v := by
  induction m with
  | nil => simp [mapGet]
  | cons e rest ih =>
    by_cases he : e.1 = k
    · simp [mapHas, he] at h
    · simp [mapHas, he] at h
      simp [mapGet, he, ih h]

theorem mapHas_tail_false (m : List (κ × ν)) (k : κ) (h : mapHas m k = false) :
    mapHas m.tail k = false := by
  cases m with
  | nil => rfl
  | cons e rest =>
    by_cases he : e.1 = k
    · simp [mapHas, he] at h
    · simp [mapHas, he] at h
      simpa using h

theorem mapGet_of_has (m : List (κ × ν)) (k : κ) (h : mapHas m k = true) :
    ∃ v, mapGet m k = some v := by
  induction m with
  | nil => simp [mapHas] at h
  | cons e rest ih =>
    by_cases he : e.1 = k
    · exact ⟨e.2, by simp [mapGet, he]⟩
    · simp [mapHas, he] at h
      obtain ⟨v, hv⟩ := ih h
      exact ⟨v, by simp [mapGet, he, hv]⟩

/-- `Map.prototype.set` keeps the keys already present in their order and puts a new key
last: the list order is the insertion order. -/
theorem mapSet_keys (m : List (κ × ν)) (k : κ) (v : ν) :
    (mapSet m k v).map Prod.fst =
      if mapHas m k = true then m.map Prod.fst else m.map Prod.fst ++ [k] := by
  induction m with
  | nil => simp [mapSet, mapHas]
  | cons e rest ih =>
    by_cases he : e.1 = k
    · simp [mapSet, mapHas, he]
    · by_cases hr : mapHas rest k = true
      · simp [mapSet, mapHas, he, ih, hr]
      · simp [mapSet, mapHas, he, ih, hr]

/-- Inserting a new key into a map of ten entries drops the head and appends the new
entry at the end. -/
theorem insertLimited_full (m : List (κ × ν)) (k : κ) (v : ν) (hm : m.length = 10)
    (hk : mapHas m k = false) : insertLimited m k v = m.tail ++ [(k, v)] := by
  have hc : mapSet m k v = m ++ [(k, v)] := mapSet_of_not_has m k v hk
  have hne : m ≠ [] := by
    intro h0; simp [h0] at hm
  unfold insertLimited
  rw [hc, mapDeleteFirstKey_eq_tail, List.tail_append_of_ne_nil hne]
  simp [hm]

/-- After the cache update at most ten entries are held and the inserted key maps to the
inserted value. -/
theorem insertLimited_spec (m : List (κ × ν)) (k : κ) (v : ν) (hm : m.length ≤ 10) :
    (insertLimited m k v).length ≤ 10 ∧ mapHas (insertLimited m k v) k = true ∧
      mapGet (insertLimited m k v) k = some v := by
  by_cases hlen : (mapSet m k v).length > 10
  · have hnot : mapHas m k = false := by
      by_contra hh
      have hh1 : mapHas m k = true := by simpa using hh
      have := mapSet_length_of_has m k v hh1
      omega
    have hmlen : m.length = 10 := by
      have := mapSet_length_le m k v
      omega
    rw [insertLimited_full m k v hmlen hnot]
    refine ⟨?_, mapHas_append_self _ _ _, mapGet_append_self _ _ _ (mapHas_tail_false m k hnot)⟩
    simp [hmlen]
  · have hc1 : insertLimited m k v = mapSet m k v := by
      unfold insertLimited; exact if_neg hlen
    rw [hc1]
    exact ⟨by omega, mapHas_mapSet m k v, mapGet_mapSet m k v⟩

end MapLemmas

namespace Enhanced

/-! ## The render cache of the enhanced handler -/

/-- The cache-hit branch of `redraw`. -/
theorem redrawBegin_hit (s : State) (scale : ℚ) (rotation pageIndex : ℤ)
    (metrics : SlideMetrics) (v : CachedImage) (hf : s.isFirstRender = false)
    (hv : mapGet s.renderCache ⟨pageIndex, scale, rotation⟩ = some v)
    (hh : mapHas s.renderCache ⟨pageIndex, scale, rotation⟩ = true) :
    redrawBegin s scale rotation pageIndex metrics =
      ({ s with
         canvas := { width := v.width, height := v.height, picture := v.imageData }
         completions := s.completions ++ [none] }, none) := by
  simp [redrawBegin, hf, hv, hh]

/-- The branch of `redraw` that finds no slide. -/
theorem redrawBegin_noSlide (s : State) (scale : ℚ) (rotation pageIndex : ℤ)
    (metrics : SlideMetrics)
    (hmiss : (!s.isFirstRender && mapHas s.renderCache ⟨pageIndex, scale, rotation⟩) = false)
    (hs : slideHtmlAt s pageIndex = none) :
    redrawBegin s scale rotation pageIndex metrics =
      ({ s with
         lastRenderedPageIndex := pageIndex
         lastRenderedScale := scale
         lastRenderedRotation := rotation
         completions := s.completions ++ [none] }, none) := by
  have hs1 : slideHtmlAt
      { s with
        lastRenderedPageIndex := pageIndex
        lastRenderedScale := scale
        lastRenderedRotation := rotation } pageIndex = none := hs
  simp only [redrawBegin, hmiss, hs1]
  simp

/-- The branch of `redraw` that calls the rasterizer. -/
theorem redrawBegin_raster (s : State) (scale : ℚ) (rotation pageIndex : ℤ)
    (metrics : SlideMetrics) (html : String)
    (hmiss : (!s.isFirstRender && mapHas s.renderCache ⟨pageIndex, scale, rotation⟩) = false)
    (hs : slideHtmlAt s pageIndex = some html) :
    redrawBegin s scale rotation pageIndex metrics =
      ({ s with
         lastRenderedPageIndex := pageIndex
         lastRenderedScale := scale
         lastRenderedRotation := rotation
         isFirstRender := false
         rasterLog := s.rasterLog ++
           [{ html := html, firstRenderPadding := s.isFirstRender,
              scale := html2canvasScale scale, width := 1280 + 200,
              height := max (metrics.totalHeight + 200) 1000,
              y := min (-100) (metrics.minTop - 50) }] },
       some { cacheKey := ⟨pageIndex, scale, rotation⟩, scale := scale, rotation := rotation,
              html := html, firstRenderPadding := s.isFirstRender, metrics := metrics }) := by
  have hs1 : slideHtmlAt
      { s with
        lastRenderedPageIndex := pageIndex
        lastRenderedScale := scale
        lastRenderedRotation := rotation } pageIndex = some html := hs
  simp only [redrawBegin, hmiss, hs1]
  simp

/-- The three ways the synchronous part of `redraw` can go. -/
theorem redrawBegin_cases (s : State) (scale : ℚ) (rotation pageIndex : ℤ) :
    (s.isFirstRender = false ∧ mapHas s.renderCache ⟨pageIndex, scale, rotation⟩ = true ∧
        ∃ v, mapGet s.renderCache ⟨pageIndex, scale, rotation⟩ = some v) ∨
      ((!s.isFirstRender && mapHas s.renderCache ⟨pageIndex, scale, rotation⟩) = false ∧
        slideHtmlAt s pageIndex = none) ∨
      ((!s.isFirstRender && mapHas s.renderCache ⟨pageIndex, scale, rotation⟩) = false ∧
        ∃ html, slideHtmlAt s pageIndex = some html) := by
  by_cases hh : (!s.isFirstRender && mapHas s.renderCache ⟨pageIndex, scale, rotation⟩) = true
  · left
    have hf : s.isFirstRender = false := by
      cases hb : s.isFirstRender
      · rfl
      · rw [hb] at hh; simp at hh
    have hm : mapHas s.renderCache ⟨pageIndex, scale, rotation⟩ = true := by
      rw [hf] at hh; simpa using hh
    exact ⟨hf, hm, mapGet_of_has _ _ hm⟩
  · right
    have hm : (!s.isFirstRender && mapHas s.renderCache ⟨pageIndex, scale, rotation⟩) = false := by
      simpa using hh
    rcases hsl : slideHtmlAt s pageIndex with _ | html
    · exact Or.inl ⟨hm, rfl⟩
    · exact Or.inr ⟨hm, html, rfl⟩

theorem redrawBegin_renderCache (s : State) (scale : ℚ) (rotation pageIndex : ℤ)
    (metrics : SlideMetrics) :
    (redrawBegin s scale rotation pageIndex metrics).1.renderCache = s.renderCache := by
  rcases redrawBegin_cases s scale rotation pageIndex with ⟨hf, hh, v, hv⟩ | ⟨hm, hs⟩ | ⟨hm, html, hs⟩
  · rw [redrawBegin_hit s scale rotation pageIndex metrics v hf hv hh]
  · rw [redrawBegin_noSlide s scale rotation pageIndex metrics hm hs]
  · rw [redrawBegin_raster s scale rotation pageIndex metrics html hm hs]

theorem renderFallback_renderCache (s : State) (scale : ℚ) (rotation : ℤ) :
    (renderFallback s scale rotation).renderCache = s.renderCache := rfl

theorem drawAndCache_length (s : State) (job : Job) (h : s.renderCache.length ≤ 10) :
    (drawAndCache s job).renderCache.length ≤ 10 :=
  (insertLimited_spec s.renderCache job.cacheKey _ h).1

theorem redrawFinish_length (s : State) (job : Job) (o : RasterOutcome)
    (h : s.renderCache.length ≤ 10) : (redrawFinish s job o).renderCache.length ≤ 10 := by
  cases o
  · exact drawAndCache_length s job h
  · exact h
  · exact drawAndCache_length s job h
  · exact h

/-- In every state the handler can reach, under any interleaving of calls and
completions, the render cache holds at most ten entries. -/
theorem renderCache_length_le {s : State} (h : Reachable s) : s.renderCache.length ≤ 10 := by
  induction h with
  | init canvas => simp [init]
  | loadDocument o _ ih => cases o <;> exact ih
  | cleanup _ _ => simp [cleanup]
  | redrawBegin scale rotation pageIndex metrics _ ih =>
      rw [redrawBegin_renderCache]; exact ih
  | redrawFinish job o _ ih => exact redrawFinish_length _ job o ih

theorem reachable_redraw {s : State} (h : Reachable s) (scale : ℚ) (rotation pageIndex : ℤ)
    (metrics : SlideMetrics) (o : RasterOutcome) :
    Reachable (redraw s scale rotation pageIndex metrics o) := by
  have hb := Reachable.redrawBegin scale rotation pageIndex metrics h
  unfold redraw
  rcases hbe : redrawBegin s scale rotation pageIndex metrics with ⟨s1, _ | job⟩
  · rw [hbe] at hb; exact hb
  · rw [hbe] at hb; exact Reachable.redrawFinish job o hb

theorem reachable_step {s : State} (h : Reachable s) (c : Call) : Reachable (step s c) := by
  cases c with
  | loadDocument o => exact Reachable.loadDocument o h
  | redraw scale rotation pageIndex metrics o => exact reachable_redraw h _ _ _ _ _
  | cleanup => exact Reachable.cleanup h

theorem reachable_run {s : State} (h : Reachable s) (calls : List Call) :
    Reachable (run s calls) := by
  induction calls generalizing s with
  | nil => exact h
  | cons c rest ih => exact ih (reachable_step h c)

/-- C1: for every sequence of loadDocument, redraw and cleanup calls on a fresh handler,
whatever the conversions and rasterizations answer, the render cache holds at most ten
entries after the last call of the sequence, hence after each redraw. -/
theorem renderCache_bounded (canvas : Canvas) (calls : List Call) :
    (run (init canvas) calls).renderCache.length ≤ 10 :=
  renderCache_length_le (reachable_run (Reachable.init canvas) calls)

/-! ## Sequential redraw: the three branches -/

theorem redraw_hit (s : State) (scale : ℚ) (rotation pageIndex : ℤ)
    (metrics : SlideMetrics) (o : RasterOutcome) (v : CachedImage) (hf : s.isFirstRender = false)
    (hv : mapGet s.renderCache ⟨pageIndex, scale, rotation⟩ = some v)
    (hh : mapHas s.renderCache ⟨pageIndex, scale, rotation⟩ = true) :
    redraw s scale rotation pageIndex metrics o =
      { s with
        canvas := { width := v.width, height := v.height, picture := v.imageData }
        completions := s.completions ++ [none] } := by
  unfold redraw
  rw [redrawBegin_hit s scale rotation pageIndex metrics v hf hv hh]

theorem redraw_noSlide (s : State) (scale : ℚ) (rotation pageIndex : ℤ)
    (metrics : SlideMetrics) (o : RasterOutcome)
    (hmiss : (!s.isFirstRender && mapHas s.renderCache ⟨pageIndex, scale, rotation⟩) = false)
    (hs : slideHtmlAt s pageIndex = none) :
    redraw s scale rotation pageIndex metrics o =
      { s with
        lastRenderedPageIndex := pageIndex
        lastRenderedScale := scale
        lastRenderedRotation := rotation
        completions := s.completions ++ [none] } := by
  unfold redraw
  rw [redrawBegin_noSlide s scale rotation pageIndex metrics hmiss hs]

theorem redraw_raster (s : State) (scale : ℚ) (rotation pageIndex : ℤ)
    (metrics : SlideMetrics) (o : RasterOutcome) (html : String)
    (hmiss : (!s.isFirstRender && mapHas s.renderCache ⟨pageIndex, scale, rotation⟩) = false)
    (hs : slideHtmlAt s pageIndex = some html) :
    redraw s scale rotation pageIndex metrics o =
      redrawFinish (redrawBegin s scale rotation pageIndex metrics).1
        { cacheKey := ⟨pageIndex, scale, rotation⟩, scale := scale, rotation := rotation,
          html := html, firstRenderPadding := s.isFirstRender, metrics := metrics } o := by
  unfold redraw
  rw [redrawBegin_raster s scale rotation pageIndex metrics html hmiss hs]

/-- A successful fresh render: the state it leaves. -/
theorem redraw_raster_resolved (s : State) (scale : ℚ) (rotation pageIndex : ℤ)
    (metrics : SlideMetrics) (html : String)
    (hmiss : (!s.isFirstRender && mapHas s.renderCache ⟨pageIndex, scale, rotation⟩) = false)
    (hs : slideHtmlAt s pageIndex = some html) :
    redraw s scale rotation pageIndex metrics .resolved =
      { s with
        lastRenderedPageIndex := pageIndex
        lastRenderedScale := scale
        lastRenderedRotation := rotation
        isFirstRender := false
        rasterLog := s.rasterLog ++
           [{ html := html, firstRenderPadding := s.isFirstRender,
              scale := html2canvasScale scale, width := 1280 + 200,
              height := max (metrics.totalHeight + 200) 1000,
              y := min (-100) (metrics.minTop - 50) }]
        canvas := { width := (finalSize scale rotation).1, height := (finalSize scale rotation).2,
                    picture := .slide html s.isFirstRender scale rotation }
        renderCache := insertLimited s.renderCache ⟨pageIndex, scale, rotation⟩
          { imageData := .slide html s.isFirstRender scale rotation,
            width := (finalSize scale rotation).1, height := (finalSize scale rotation).2 }
        completions := s.completions ++ [none] } := by
  rw [redraw_raster s scale rotation pageIndex metrics .resolved html hmiss hs,
    redrawBegin_raster s scale rotation pageIndex metrics html hmiss hs]
  rfl

/-! ## Cache hits leave the cache alone -/

theorem step_hit (s : State) (c : Call) (h : isCacheHit s c) :
    (step s c).renderCache = s.renderCache ∧ (step s c).isFirstRender = s.isFirstRender ∧
      (step s c).pptxHtmlContent = s.pptxHtmlContent := by
  cases c with
  | loadDocument o => exact absurd h (by simp [isCacheHit])
  | cleanup => exact absurd h (by simp [isCacheHit])
  | redraw scale rotation pageIndex metrics o =>
    obtain ⟨hf, hh⟩ := h
    obtain ⟨v, hv⟩ := mapGet_of_has _ _ hh
    simp only [step]
    rw [redraw_hit s scale rotation pageIndex metrics o v hf hv hh]
    exact ⟨rfl, rfl, rfl⟩

theorem isCacheHit_congr (s t : State) (c : Call) (hc : t.renderCache = s.renderCache)
    (hf : t.isFirstRender = s.isFirstRender) (h : isCacheHit s c) : isCacheHit t c := by
  cases c with
  | loadDocument o => exact h
  | cleanup => exact h
  | redraw scale rotation pageIndex metrics o =>
    simp only [isCacheHit] at h ⊢
    rw [hc, hf]; exact h

theorem run_hits (s : State) (hits : List Call) (h : ∀ c ∈ hits, isCacheHit s c) :
    (run s hits).renderCache = s.renderCache ∧ (run s hits).isFirstRender = s.isFirstRender ∧
      (run s hits).pptxHtmlContent = s.pptxHtmlContent := by
  induction hits generalizing s with
  | nil => exact ⟨rfl, rfl, rfl⟩
  | cons c rest ih =>
    have hc := step_hit s c (h c (List.mem_cons_self _ _))
    have hrest : ∀ d ∈ rest, isCacheHit (step s c) d := fun d hd =>
      isCacheHit_congr s (step s c) d hc.1 hc.2.1 (h d (List.mem_cons_of_mem _ hd))
    have := ih (step s c) hrest
    simp only [run, List.foldl_cons] at this ⊢
    exact ⟨this.1.trans hc.1, this.2.1.trans hc.2.1, this.2.2.trans hc.2.2⟩

theorem slideHtmlAt_congr (s t : State) (h : t.pptxHtmlContent = s.pptxHtmlContent)
    (pageIndex : ℤ) : slideHtmlAt t pageIndex = slideHtmlAt s pageIndex := by
  unfold slideHtmlAt
  rw [h]

/-- C2: when a successful render inserts a key that is not cached into a cache holding
ten entries, the cache afterwards is the old one without its first entry (the one inserted
earliest: the list is kept in insertion order) followed by the new entry; any number of
cache hits served in between leave the cache as it was, so they do not change which entry
is dropped. -/
theorem fifo_eviction (s : State) (hits : List Call) (scale : ℚ) (rotation pageIndex : ℤ)
    (metrics : SlideMetrics) (html : String)
    (hfull : s.renderCache.length = 10)
    (hhits : ∀ c ∈ hits, isCacheHit s c)
    (hnew : mapHas s.renderCache ⟨pageIndex, scale, rotation⟩ = false)
    (hslide : slideHtmlAt s pageIndex = some html) :
    (run s hits).renderCache = s.renderCache ∧
      (redraw (run s hits) scale rotation pageIndex metrics .resolved).renderCache =
        s.renderCache.tail ++
          [(⟨pageIndex, scale, rotation⟩,
            { imageData := .slide html s.isFirstRender scale rotation,
              width := (finalSize scale rotation).1,
              height := (finalSize scale rotation).2 })] := by
  obtain ⟨hc, hf, hp⟩ := run_hits s hits hhits
  refine ⟨hc, ?_⟩
  have hmiss : (!(run s hits).isFirstRender &&
      mapHas (run s hits).renderCache ⟨pageIndex, scale, rotation⟩) = false := by
    rw [hc, hnew]; simp
  have hs : slideHtmlAt (run s hits) pageIndex = some html := by
    rw [slideHtmlAt_congr s (run s hits) hp]; exact hslide
  rw [redraw_raster_resolved (run s hits) scale rotation pageIndex metrics html hmiss hs]
  simp only
  rw [hc, hf]
  exact insertLimited_full _ _ _ hfull hnew

/-- Worked example: on the full cache holding the scales 1 to 10, two
cache hits followed by a fresh render at scale 11 drop the entry of scale 1. -/
theorem fifo_eviction_witness :
    (fullCacheState.renderCache.length = 10 ∧
      mapHas fullCacheState.renderCache ⟨0, 11, 0⟩ = false ∧
      slideHtmlAt fullCacheState 0 = some "<div class=slide>A</div>") ∧
    ((run fullCacheState
        [Call.redraw 1 0 0 plainMetrics .resolved,
         Call.redraw 2 0 0 plainMetrics .rejected]).renderCache = fullCacheState.renderCache ∧
      (redraw
        (run fullCacheState
          [Call.redraw 1 0 0 plainMetrics .resolved, Call.redraw 2 0 0 plainMetrics .rejected])
        11 0 0 plainMetrics .resolved).renderCache =
        fullCacheState.renderCache.tail ++
          [(⟨0, 11, 0⟩,
            { imageData := .slide "<div class=slide>A</div>" fullCacheState.isFirstRender 11 0,
              width := (finalSize 11 0).1,
              height := (finalSize 11 0).2 })]) :=
  ⟨⟨by decide, by decide, by decide⟩,
    fifo_eviction fullCacheState
      [Call.redraw 1 0 0 plainMetrics .resolved, Call.redraw 2 0 0 plainMetrics .rejected]
      11 0 0 plainMetrics "<div class=slide>A</div>" (by decide)
      (by
        intro c hc
        simp only [List.mem_cons, List.mem_singleton, List.not_mem_nil, or_false] at hc
        rcases hc with rfl | rfl <;> exact ⟨by decide, by decide⟩)
      (by decide) (by decide)⟩

/-- After a redraw whose rasterization (if any) succeeds, either the key of the call is
cached with the size and picture now on the canvas, or the call found no slide and the
same call will find none again. -/
theorem redraw_resolved_cached {s : State} (h : Reachable s) (scale : ℚ)
    (rotation pageIndex : ℤ) (m1 : SlideMetrics) (s1 : State)
    (hs1 : s1 = redraw s scale rotation pageIndex m1 .resolved) :
    (∃ v, s1.isFirstRender = false ∧
        mapHas s1.renderCache ⟨pageIndex, scale, rotation⟩ = true ∧
        mapGet s1.renderCache ⟨pageIndex, scale, rotation⟩ = some v ∧
        s1.canvas = { width := v.width, height := v.height, picture := v.imageData }) ∨
      ((!s1.isFirstRender && mapHas s1.renderCache ⟨pageIndex, scale, rotation⟩) = false ∧
        slideHtmlAt s1 pageIndex = none) := by
  have hlen := renderCache_length_le h
  rcases redrawBegin_cases s scale rotation pageIndex with
    ⟨hf, hh, v, hv⟩ | ⟨hm, hs⟩ | ⟨hm, html, hs⟩
  · rw [redraw_hit s scale rotation pageIndex m1 .resolved v hf hv hh] at hs1
    subst hs1
    exact Or.inl ⟨v, hf, hh, hv, rfl⟩
  · rw [redraw_noSlide s scale rotation pageIndex m1 .resolved hm hs] at hs1
    subst hs1
    exact Or.inr ⟨hm, hs⟩
  · rw [redraw_raster_resolved s scale rotation pageIndex m1 html hm hs] at hs1
    subst hs1
    obtain ⟨_, hhas, hget⟩ := insertLimited_spec s.renderCache
      (⟨pageIndex, scale, rotation⟩ : CacheKey)
      ({ imageData := .slide html s.isFirstRender scale rotation,
         width := (finalSize scale rotation).1, height := (finalSize scale rotation).2 } :
        CachedImage) hlen
    exact Or.inl ⟨_, rfl, hhas, hget, rfl⟩

/-- A redraw whose rasterization (if any) succeeds and completes, followed at once by the
same redraw: the second call makes no call of html2canvas and leaves the canvas as the
first call left it. -/
theorem second_redraw_after_resolved {s : State} (h : Reachable s) (scale : ℚ)
    (rotation pageIndex : ℤ) (m1 m2 : SlideMetrics) (o2 : RasterOutcome) :
    (redraw (redraw s scale rotation pageIndex m1 .resolved) scale rotation pageIndex m2
        o2).rasterLog = (redraw s scale rotation pageIndex m1 .resolved).rasterLog ∧
      (redraw (redraw s scale rotation pageIndex m1 .resolved) scale rotation pageIndex m2
        o2).canvas = (redraw s scale rotation pageIndex m1 .resolved).canvas := by
  obtain ⟨s1, hs1⟩ : ∃ s1, s1 = redraw s scale rotation pageIndex m1 .resolved := ⟨_, rfl⟩
  rw [← hs1]
  rcases redraw_resolved_cached h scale rotation pageIndex m1 s1 hs1 with
    ⟨v, hf, hh, hv, hc⟩ | ⟨hm, hs⟩
  · rw [redraw_hit s1 scale rotation pageIndex m2 o2 v hf hv hh]
    exact ⟨rfl, hc.symm⟩
  · rw [redraw_noSlide s1 scale rotation pageIndex m2 o2 hm hs]
    exact ⟨rfl, rfl⟩

/-- A fresh render whose rasterization succeeds and whose success callback throws after
the cache insertion: the state it leaves is the one of a successful render with the
fallback on the canvas. -/
theorem redraw_raster_lateThrows (s : State) (scale : ℚ) (rotation pageIndex : ℤ)
    (metrics : SlideMetrics) (html : String)
    (hmiss : (!s.isFirstRender && mapHas s.renderCache ⟨pageIndex, scale, rotation⟩) = false)
    (hs : slideHtmlAt s pageIndex = some html) :
    redraw s scale rotation pageIndex metrics .resolvedLateThrows =
      { s with
        lastRenderedPageIndex := pageIndex
        lastRenderedScale := scale
        lastRenderedRotation := rotation
        isFirstRender := false
        rasterLog := s.rasterLog ++
           [{ html := html, firstRenderPadding := s.isFirstRender,
              scale := html2canvasScale scale, width := 1280 + 200,
              height := max (metrics.totalHeight + 200) 1000,
              y := min (-100) (metrics.minTop - 50) }]
        canvas := { width := 1280 * scale, height := 720 * scale, picture := .fallback scale }
        renderCache := insertLimited s.renderCache ⟨pageIndex, scale, rotation⟩
          { imageData := .slide html s.isFirstRender scale rotation,
            width := (finalSize scale rotation).1, height := (finalSize scale rotation).2 }
        completions := s.completions ++ [none] } := by
  rw [redraw_raster s scale rotation pageIndex metrics .resolvedLateThrows html hmiss hs,
    redrawBegin_raster s scale rotation pageIndex metrics html hmiss hs]
  rfl

/-- C3, amended: on every reachable handler state, when a redraw whose rasterization (if
any) succeeds and whose result is cached, whether or not a later step of its success
callback throws, is followed at once by a redraw with the same scale, rotation and page
index, the second call makes no call of html2canvas and sets the canvas, in particular
its width and height, to exactly what the first call set when it cached its result: the
canvas a first call without late exception leaves. -/
theorem second_redraw_from_cache {s : State} (h : Reachable s) (scale : ℚ)
    (rotation pageIndex : ℤ) (m1 m2 : SlideMetrics) (o1 o2 : RasterOutcome)
    (ho1 : o1 = .resolved ∨ o1 = .resolvedLateThrows) :
    (redraw (redraw s scale rotation pageIndex m1 o1) scale rotation pageIndex m2
        o2).rasterLog = (redraw s scale rotation pageIndex m1 o1).rasterLog ∧
      (redraw (redraw s scale rotation pageIndex m1 o1) scale rotation pageIndex m2
        o2).canvas = (redraw s scale rotation pageIndex m1 .resolved).canvas := by
  rcases ho1 with rfl | rfl
  · exact second_redraw_after_resolved h scale rotation pageIndex m1 m2 o2
  · rcases redrawBegin_cases s scale rotation pageIndex with
      ⟨hf, hh, v, hv⟩ | ⟨hm, hs⟩ | ⟨hm, html, hs⟩
    · have e : redraw s scale rotation pageIndex m1 .resolvedLateThrows =
          redraw s scale rotation pageIndex m1 .resolved := by
        rw [redraw_hit s scale rotation pageIndex m1 .resolvedLateThrows v hf hv hh,
          redraw_hit s scale rotation pageIndex m1 .resolved v hf hv hh]
      rw [e]
      exact second_redraw_after_resolved h scale rotation pageIndex m1 m2 o2
    · have e : redraw s scale rotation pageIndex m1 .resolvedLateThrows =
          redraw s scale rotation pageIndex m1 .resolved := by
        rw [redraw_noSlide s scale rotation pageIndex m1 .resolvedLateThrows hm hs,
          redraw_noSlide s scale rotation pageIndex m1 .resolved hm hs]
      rw [e]
      exact second_redraw_after_resolved h scale rotation pageIndex m1 m2 o2
    · have hlen := renderCache_length_le h
      obtain ⟨_, hhas, hget⟩ := insertLimited_spec s.renderCache
        (⟨pageIndex, scale, rotation⟩ : CacheKey)
        ({ imageData := .slide html s.isFirstRender scale rotation,
           width := (finalSize scale rotation).1, height := (finalSize scale rotation).2 } :
          CachedImage) hlen
      obtain ⟨s1, hs1⟩ :
          ∃ s1, s1 = redraw s scale rotation pageIndex m1 .resolvedLateThrows := ⟨_, rfl⟩
      rw [← hs1, redraw_raster_resolved s scale rotation pageIndex m1 html hm hs]
      rw [redraw_raster_lateThrows s scale rotation pageIndex m1 html hm hs] at hs1
      subst hs1
      rw [redraw_hit _ scale rotation pageIndex m2 o2 _ rfl hget hhas]
      exact ⟨rfl, rfl⟩

/-- Worked example: a fresh render of the only slide at scale 11 on the full cache whose
success callback throws after the cache insertion, then the same call again. -/
theorem second_redraw_from_cache_witness :
    (Reachable fullCacheState ∧
      (RasterOutcome.resolvedLateThrows = .resolved ∨
        RasterOutcome.resolvedLateThrows = .resolvedLateThrows)) ∧
      ((redraw (redraw fullCacheState 11 0 0 plainMetrics .resolvedLateThrows) 11 0 0
          plainMetrics .rejected).rasterLog =
          (redraw fullCacheState 11 0 0 plainMetrics .resolvedLateThrows).rasterLog ∧
        (redraw (redraw fullCacheState 11 0 0 plainMetrics .resolvedLateThrows) 11 0 0
          plainMetrics .rejected).canvas =
          (redraw fullCacheState 11 0 0 plainMetrics .resolved).canvas) :=
  ⟨⟨reachable_run (Reachable.init blankCanvas) _, Or.inr rfl⟩,
    second_redraw_from_cache (reachable_run (Reachable.init blankCanvas) _) 11 0 0
      plainMetrics plainMetrics .resolvedLateThrows .rejected (Or.inr rfl)⟩

/-- C4 (the code departs from the claim): a document A is loaded and its slide 0 rendered
at scale 1, rotation 0; a document B is loaded; the same redraw is then served from the
cache: html2canvas is not called again and the canvas shows the slide of document A. -/
theorem stale_cache_after_load :
    (redraw
        (loadDocument
          (redraw (loadDocument (init blankCanvas)
            (.slidesProcessed ["<div class=slide>A</div>"])) 1 0 0 plainMetrics .resolved)
          (.slidesProcessed ["<div class=slide>B</div>"]))
        1 0 0 plainMetrics .resolved).rasterLog.length = 1 ∧
      (redraw
        (loadDocument
          (redraw (loadDocument (init blankCanvas)
            (.slidesProcessed ["<div class=slide>A</div>"])) 1 0 0 plainMetrics .resolved)
          (.slidesProcessed ["<div class=slide>B</div>"]))
        1 0 0 plainMetrics .resolved).canvas.picture =
        .slide "<div class=slide>A</div>" true 1 0 ∧
      slideHtmlAt
        (loadDocument
          (redraw (loadDocument (init blankCanvas)
            (.slidesProcessed ["<div class=slide>A</div>"])) 1 0 0 plainMetrics .resolved)
          (.slidesProcessed ["<div class=slide>B</div>"])) 0 =
        some "<div class=slide>B</div>" := by
  decide

end Enhanced

/-! ## Rounding -/

/-- `Math.round` is within one half of its argument. -/
theorem mathRound_near (x : ℚ) : x - 1 / 2 < mathRound x ∧ (mathRound x : ℚ) ≤ x + 1 / 2 := by
  unfold mathRound
  constructor
  · have := Int.lt_floor_add_one (x + 1 / 2)
    linarith
  · exact Int.floor_le (x + 1 / 2)

/-- `Math.round` yields at least 1 exactly from one half on. -/
theorem one_le_mathRound (x : ℚ) : 1 ≤ mathRound x ↔ 1 / 2 ≤ x := by
  unfold mathRound
  rw [Int.le_floor]
  constructor <;> intro h <;> push_cast at h ⊢ <;> linarith

theorem arrayAt_some_length {α : Type} (xs : List α) (i : ℤ) (x : α)
    (h : arrayAt xs i = some x) : xs.length ≠ 0 := by
  intro h0
  have hx : xs = [] := List.length_eq_zero.mp h0
  subst hx
  unfold arrayAt at h
  split at h <;> simp at h

namespace Final

/-- A redraw of a stored slide whose rasterization succeeds. -/
theorem final_redraw_resolved (s : State) (p : Presentation) (html : String) (scale : ℚ)
    (rotation pageIndex : ℤ) (hp : s.pptxHtmlContent = some p)
    (hs : arrayAt p.slides pageIndex = some html) (hne : html ≠ "") :
    redraw s scale rotation pageIndex .resolved =
      { s with
        rasterLog := s.rasterLog ++ [{ html := html, scale := 1, width := 1280, height := 720 }]
        canvas := { width := (finalSize scale rotation).1, height := (finalSize scale rotation).2,
                    picture := .slide html false scale rotation }
        completions := s.completions ++ [none] } := by
  have hlen := arrayAt_some_length p.slides pageIndex html hs
  simp [redraw, hp, hs, hne, hlen, complete]

/-- C5: when the rasterization of a stored slide succeeds, the canvas is
round(1280 × scale) wide and round(720 × scale) high for rotation 0 or 180, and
round(720 × scale) wide and round(1280 × scale) high for rotation 90 or 270, for every
scale. -/
theorem canvas_size_by_rotation (s : State) (p : Presentation) (html : String) (scale : ℚ)
    (rotation pageIndex : ℤ) (hp : s.pptxHtmlContent = some p)
    (hs : arrayAt p.slides pageIndex = some html) (hne : html ≠ "") :
    ((rotation = 0 ∨ rotation = 180) →
        (redraw s scale rotation pageIndex .resolved).canvas.width = mathRound (1280 * scale) ∧
        (redraw s scale rotation pageIndex .resolved).canvas.height = mathRound (720 * scale)) ∧
      ((rotation = 90 ∨ rotation = 270) →
        (redraw s scale rotation pageIndex .resolved).canvas.width = mathRound (720 * scale) ∧
        (redraw s scale rotation pageIndex .resolved).canvas.height = mathRound (1280 * scale)) := by
  rw [final_redraw_resolved s p html scale rotation pageIndex hp hs hne]
  constructor
  · intro hr
    have hq : ¬ (rotation = 90 ∨ rotation = 270) := by omega
    simp [finalSize, hq]
  · intro hr
    simp [finalSize, hr]

/-- Worked example: slide 0 of a one-slide document at
scale 3/2, rotation 90. -/
theorem canvas_size_by_rotation_witness :
    ((loadDocument (init blankCanvas) ["<div class=slide>A</div>"]).pptxHtmlContent =
        some { slides := ["<div class=slide>A</div>"], width := 1280, height := 720 } ∧
      arrayAt ["<div class=slide>A</div>"] 0 = some "<div class=slide>A</div>" ∧
      "<div class=slide>A</div>" ≠ "") ∧
    (((90 : ℤ) = 0 ∨ (90 : ℤ) = 180) →
        (redraw (loadDocument (init blankCanvas) ["<div class=slide>A</div>"]) (3 / 2) 90 0
          .resolved).canvas.width = mathRound (1280 * (3 / 2)) ∧
        (redraw (loadDocument (init blankCanvas) ["<div class=slide>A</div>"]) (3 / 2) 90 0
          .resolved).canvas.height = mathRound (720 * (3 / 2))) ∧
      (((90 : ℤ) = 90 ∨ (90 : ℤ) = 270) →
        (redraw (loadDocument (init blankCanvas) ["<div class=slide>A</div>"]) (3 / 2) 90 0
          .resolved).canvas.width = mathRound (720 * (3 / 2)) ∧
        (redraw (loadDocument (init blankCanvas) ["<div class=slide>A</div>"]) (3 / 2) 90 0
          .resolved).canvas.height = mathRound (1280 * (3 / 2))) :=
  ⟨⟨rfl, by decide, by decide⟩,
    canvas_size_by_rotation (loadDocument (init blankCanvas) ["<div class=slide>A</div>"])
      { slides := ["<div class=slide>A</div>"], width := 1280, height := 720 }
      "<div class=slide>A</div>" (3 / 2) 90 0 rfl (by decide) (by decide)⟩

/-- C8, as stated, fails: at the positive scale 1/2000 and rotation 0 the canvas height
set after a successful rasterization is 0. -/
theorem zero_height_at_small_scale :
    (0 : ℚ) < 1 / 2000 ∧
      (redraw (loadDocument (init blankCanvas) ["<div class=slide>A</div>"]) (1 / 2000) 0 0
        .resolved).canvas.height = 0 ∧
      ¬ (1 ≤ (redraw (loadDocument (init blankCanvas) ["<div class=slide>A</div>"])
        (1 / 2000) 0 0 .resolved).canvas.height) := by
  have h0 : mathRound (720 * (1 / 2000)) = 0 := by
    unfold mathRound
    rw [Int.floor_eq_iff]
    constructor <;> norm_num
  have hf : (finalSize (1 / 2000) 0).2 = 0 := by
    have hq : ¬ ((0 : ℤ) = 90 ∨ (0 : ℤ) = 270) := by decide
    simp only [finalSize, if_neg hq]
    exact h0
  rw [final_redraw_resolved _ { slides := ["<div class=slide>A</div>"], width := 1280, height := 720 }
    "<div class=slide>A</div>" (1 / 2000) 0 0 rfl (by decide) (by decide)]
  dsimp only
  rw [hf]
  norm_num

/-- C8, amended: after a successful rasterization of a stored slide, for every scale and
every rotation, the canvas width and height are both at least 1 exactly when
scale ≥ 1/1440, that is when 720 × scale ≥ 1/2. -/
theorem canvas_at_least_one_iff (s : State) (p : Presentation) (html : String) (scale : ℚ)
    (rotation pageIndex : ℤ) (hp : s.pptxHtmlContent = some p)
    (hs : arrayAt p.slides pageIndex = some html) (hne : html ≠ "") :
    (1 ≤ (redraw s scale rotation pageIndex .resolved).canvas.width ∧
        1 ≤ (redraw s scale rotation pageIndex .resolved).canvas.height) ↔
      1 / 1440 ≤ scale := by
  rw [final_redraw_resolved s p html scale rotation pageIndex hp hs hne]
  have hw : (1 : ℚ) ≤ ((mathRound (1280 * scale) : ℤ) : ℚ) ↔ 1 / 2560 ≤ scale := by
    rw [show (1 : ℚ) = ((1 : ℤ) : ℚ) by norm_num, Int.cast_le, one_le_mathRound]
    constructor <;> intro h <;> linarith
  have hh : (1 : ℚ) ≤ ((mathRound (720 * scale) : ℤ) : ℚ) ↔ 1 / 1440 ≤ scale := by
    rw [show (1 : ℚ) = ((1 : ℤ) : ℚ) by norm_num, Int.cast_le, one_le_mathRound]
    constructor <;> intro h <;> linarith
  by_cases hr : rotation = 90 ∨ rotation = 270
  · simp only [finalSize, hr, if_true]
    rw [hw, hh]
    constructor
    · intro h; exact h.1
    · intro h; exact ⟨h, by linarith⟩
  · simp only [finalSize, hr, if_false]
    rw [hw, hh]
    constructor
    · intro h; exact h.2
    · intro h; exact ⟨by linarith, h⟩

/-- Worked example: slide 0 of a one-slide document at
scale 1/1440, rotation 0. -/
theorem canvas_at_least_one_iff_witness :
    ((loadDocument (init blankCanvas) ["<div class=slide>A</div>"]).pptxHtmlContent =
        some { slides := ["<div class=slide>A</div>"], width := 1280, height := 720 } ∧
      arrayAt ["<div class=slide>A</div>"] 0 = some "<div class=slide>A</div>" ∧
      "<div class=slide>A</div>" ≠ "") ∧
    ((1 ≤ (redraw (loadDocument (init blankCanvas) ["<div class=slide>A</div>"]) (1 / 1440) 0 0
          .resolved).canvas.width ∧
        1 ≤ (redraw (loadDocument (init blankCanvas) ["<div class=slide>A</div>"]) (1 / 1440) 0
          0 .resolved).canvas.height) ↔
      (1 : ℚ) / 1440 ≤ 1 / 1440) :=
  ⟨⟨rfl, by decide, by decide⟩,
    canvas_at_least_one_iff (loadDocument (init blankCanvas) ["<div class=slide>A</div>"])
      { slides := ["<div class=slide>A</div>"], width := 1280, height := 720 }
      "<div class=slide>A</div>" (1 / 1440) 0 0 rfl (by decide) (by decide)⟩

end Final

/-! ## The integer square root used for the rotated canvas -/

/-- `ceilSqrt` computes `Math.ceil(Math.sqrt(x))` over the reals. -/
theorem ceilSqrt_eq_ceil_sqrt (x : ℚ) : ceilSqrt x = ⌈Real.sqrt (x : ℝ)⌉ := by
  by_cases hx : x ≤ 0
  · have hc : ⌈x⌉ ≤ 0 := by
      rw [Int.ceil_le]; exact_mod_cast hx
    have hm : ⌈x⌉.toNat = 0 := Int.toNat_eq_zero.mpr hc
    have hxr : (x : ℝ) ≤ 0 := by exact_mod_cast hx
    simp [ceilSqrt, hm, Real.sqrt_eq_zero_of_nonpos hxr]
  · have hx0 : 0 < x := lt_of_not_ge hx
    have hc : 0 < ⌈x⌉ := Int.ceil_pos.mpr hx0
    obtain ⟨m, hm⟩ : ∃ m : ℕ, ⌈x⌉ = (m : ℤ) := ⟨⌈x⌉.toNat, (Int.toNat_of_nonneg hc.le).symm⟩
    have hmt : ⌈x⌉.toNat = m := by rw [hm]; simp
    have hxm : (x : ℝ) ≤ (m : ℝ) := by
      have h1 : x ≤ ((⌈x⌉ : ℤ) : ℚ) := Int.le_ceil x
      rw [hm] at h1
      exact_mod_cast h1
    have hlt : ∀ k : ℕ, k < m → (k : ℝ) < (x : ℝ) := by
      intro k hk
      have h1 : ((k : ℤ) : ℚ) < x := by
        rw [← Int.lt_ceil, hm]; exact_mod_cast hk
      exact_mod_cast h1
    have hle := Nat.sqrt_le m
    have hsl := Nat.lt_succ_sqrt m
    have hxr0 : (0 : ℝ) ≤ (x : ℝ) := by exact_mod_cast hx0.le
    symm
    rw [Int.ceil_eq_iff]
    unfold ceilSqrt
    simp only [hmt]
    by_cases hsq : Nat.sqrt m * Nat.sqrt m = m
    · rw [if_pos hsq]
      have hpos : 0 < Nat.sqrt m := by
        rcases Nat.eq_zero_or_pos (Nat.sqrt m) with h0 | h0
        · rw [h0] at hsq
          have : (m : ℤ) = 0 := by exact_mod_cast hsq.symm
          omega
        · exact h0
      constructor
      · obtain ⟨r, hr⟩ : ∃ r, Nat.sqrt m = r + 1 := ⟨Nat.sqrt m - 1, by omega⟩
        rw [hr] at hsq ⊢
        have hk : r * r < m := by nlinarith
        have := hlt (r * r) hk
        push_cast
        rw [show ((r : ℝ) + 1 - 1) = (r : ℝ) by ring]
        rw [Real.lt_sqrt (by positivity)]
        push_cast at this
        nlinarith
      · rw [Real.sqrt_le_left (by positivity)]
        push_cast
        have : ((Nat.sqrt m * Nat.sqrt m : ℕ) : ℝ) = (m : ℝ) := by rw [hsq]
        push_cast at this
        nlinarith
    · rw [if_neg hsq]
      have hk : Nat.sqrt m * Nat.sqrt m < m := lt_of_le_of_ne hle hsq
      constructor
      · have := hlt _ hk
        push_cast
        rw [show ((Nat.sqrt m : ℝ) + 1 - 1) = (Nat.sqrt m : ℝ) by ring]
        rw [Real.lt_sqrt (by positivity)]
        push_cast at this
        nlinarith
      · rw [Real.sqrt_le_left (by positivity)]
        have h2 : (m : ℝ) < ((Nat.succ (Nat.sqrt m) * Nat.succ (Nat.sqrt m) : ℕ) : ℝ) := by
          exact_mod_cast hsl
        push_cast at h2 ⊢
        nlinarith


/-- With the padding of 100: `Math.ceil(Math.sqrt(x) + 100)`. -/
theorem ceilSqrt_add_hundred (x : ℚ) : ceilSqrt x + 100 = ⌈Real.sqrt (x : ℝ) + 100⌉ := by
  rw [ceilSqrt_eq_ceil_sqrt]
  have h := Int.ceil_add_int (Real.sqrt (x : ℝ)) 100
  push_cast at h
  rw [h]

theorem ceilSqrt_slide_diagonal : ceilSqrt (2156800 : ℚ) = 1469 := by
  have hc : ⌈(2156800 : ℚ)⌉ = 2156800 := by
    rw [Int.ceil_eq_iff]; constructor <;> norm_num
  have hs : Nat.sqrt 2156800 = 1468 := by
    symm
    rw [Nat.eq_sqrt]
    constructor <;> norm_num
  have ht : (2156800 : ℤ).toNat = 2156800 := rfl
  have hne : ¬ (1468 * 1468 = 2156800) := by norm_num
  unfold ceilSqrt
  simp only [hc, ht, hs, if_neg hne]
  norm_num

namespace Enhanced

theorem redrawFinish_logs (s : State) (job : Job) (o : RasterOutcome) :
    (redrawFinish s job o).rasterLog = s.rasterLog ∧
      (redrawFinish s job o).completions = s.completions ++ [none] := by
  cases o <;> exact ⟨rfl, rfl⟩

/-- A redraw that is not served from the cache and finds its slide calls html2canvas once
and calls `onCompletion()` once, without argument, however the rasterization ends. -/
theorem redraw_raster_logs (s : State) (scale : ℚ) (rotation pageIndex : ℤ)
    (metrics : SlideMetrics) (o : RasterOutcome) (html : String)
    (hmiss : (!s.isFirstRender && mapHas s.renderCache ⟨pageIndex, scale, rotation⟩) = false)
    (hs : slideHtmlAt s pageIndex = some html) :
    (redraw s scale rotation pageIndex metrics o).rasterLog.length = s.rasterLog.length + 1 ∧
      (redraw s scale rotation pageIndex metrics o).completions = s.completions ++ [none] := by
  rw [redraw_raster s scale rotation pageIndex metrics o html hmiss hs]
  obtain ⟨h1, h2⟩ := redrawFinish_logs (redrawBegin s scale rotation pageIndex metrics).1
    { cacheKey := ⟨pageIndex, scale, rotation⟩, scale := scale, rotation := rotation,
      html := html, firstRenderPadding := s.isFirstRender, metrics := metrics } o
  rw [h1, h2, redrawBegin_raster s scale rotation pageIndex metrics html hmiss hs]
  simp

/-- C6, as stated, fails: at scale 1 and rotation 90 the canvas set after a successful
rasterization is 1569 by 1569, not 720 by 1280. -/
theorem quarter_turn_canvas_not_swapped :
    (redraw (loadDocument (init blankCanvas) (.slidesProcessed ["<div class=slide>A</div>"]))
        1 90 0 plainMetrics .resolved).canvas.width = 1569 ∧
      (redraw (loadDocument (init blankCanvas) (.slidesProcessed ["<div class=slide>A</div>"]))
        1 90 0 plainMetrics .resolved).canvas.height = 1569 ∧
      ¬ ((redraw (loadDocument (init blankCanvas)
            (.slidesProcessed ["<div class=slide>A</div>"]))
          1 90 0 plainMetrics .resolved).canvas.width = 720 * 1 ∧
        (redraw (loadDocument (init blankCanvas)
            (.slidesProcessed ["<div class=slide>A</div>"]))
          1 90 0 plainMetrics .resolved).canvas.height = 1280 * 1) := by
  have hf : finalSize 1 90 = (1569, 1569) := by
    have hq : ((90 : ℤ) = 90 ∨ (90 : ℤ) = 270) := by decide
    have hx : (1280 * 1 * (1280 * 1) + 720 * 1 * (720 * 1) : ℚ) = 2156800 := by norm_num
    simp only [finalSize, if_pos hq, hx, ceilSqrt_slide_diagonal]
    norm_num
  rw [redraw_raster_resolved _ 1 90 0 plainMetrics "<div class=slide>A</div>"
    (by decide) (by decide)]
  dsimp only
  rw [hf]
  norm_num

/-- C6, amended: for rotation 90 or 270 and every scale, a redraw that is not served from
the cache and whose rasterization succeeds makes the canvas a square: its width is
ceil(sqrt((1280 × scale)² + (720 × scale)²) + 100) and its height equals its width. -/
theorem quarter_turn_canvas_square (s : State) (scale : ℚ) (rotation pageIndex : ℤ)
    (metrics : SlideMetrics) (html : String) (hrot : rotation = 90 ∨ rotation = 270)
    (hmiss : (!s.isFirstRender && mapHas s.renderCache ⟨pageIndex, scale, rotation⟩) = false)
    (hs : slideHtmlAt s pageIndex = some html) :
    (redraw s scale rotation pageIndex metrics .resolved).canvas.width =
        ((⌈Real.sqrt ((1280 * (scale : ℝ)) ^ 2 + (720 * (scale : ℝ)) ^ 2) + 100⌉ : ℤ) : ℚ) ∧
      (redraw s scale rotation pageIndex metrics .resolved).canvas.height =
        (redraw s scale rotation pageIndex metrics .resolved).canvas.width := by
  rw [redraw_raster_resolved s scale rotation pageIndex metrics html hmiss hs]
  have hf : finalSize scale rotation =
      (ceilSqrt (1280 * scale * (1280 * scale) + 720 * scale * (720 * scale)) + 100,
        ceilSqrt (1280 * scale * (1280 * scale) + 720 * scale * (720 * scale)) + 100) := by
    simp only [finalSize, if_pos hrot]
  dsimp only
  rw [hf]
  refine ⟨?_, rfl⟩
  have hx : ((1280 * scale * (1280 * scale) + 720 * scale * (720 * scale) : ℚ) : ℝ) =
      (1280 * (scale : ℝ)) ^ 2 + (720 * (scale : ℝ)) ^ 2 := by
    push_cast
    ring
  rw [ceilSqrt_add_hundred, hx]

/-- Worked example: slide 0 of a one-slide document at
scale 1, rotation 90. -/
theorem quarter_turn_canvas_square_witness :
    (((90 : ℤ) = 90 ∨ (90 : ℤ) = 270) ∧
      slideHtmlAt (loadDocument (init blankCanvas)
        (.slidesProcessed ["<div class=slide>A</div>"])) 0 =
        some "<div class=slide>A</div>") ∧
    ((redraw (loadDocument (init blankCanvas) (.slidesProcessed ["<div class=slide>A</div>"]))
        1 90 0 plainMetrics .resolved).canvas.width =
        ((⌈Real.sqrt ((1280 * ((1 : ℚ) : ℝ)) ^ 2 + (720 * ((1 : ℚ) : ℝ)) ^ 2) + 100⌉ : ℤ) : ℚ) ∧
      (redraw (loadDocument (init blankCanvas) (.slidesProcessed ["<div class=slide>A</div>"]))
        1 90 0 plainMetrics .resolved).canvas.height =
        (redraw (loadDocument (init blankCanvas)
          (.slidesProcessed ["<div class=slide>A</div>"]))
          1 90 0 plainMetrics .resolved).canvas.width) :=
  ⟨⟨by decide, by decide⟩,
    quarter_turn_canvas_square
      (loadDocument (init blankCanvas) (.slidesProcessed ["<div class=slide>A</div>"]))
      1 90 0 plainMetrics "<div class=slide>A</div>" (by decide) (by decide) (by decide)⟩

/-- C3, as stated, fails: slide 0 of a one-slide document is rendered at scale 1,
rotation 90; the rasterization succeeds and the result is cached (1569 by 1569), then the
annotation handler throws and the fallback is drawn, 1280 by 720.  The same redraw again
makes no call of html2canvas and sets the canvas to 1569 by 1569, not to the 1280 by 720
the first call left. -/
theorem repeat_after_late_throw_resizes :
    (redraw (loadDocument (init blankCanvas) (.slidesProcessed ["<div class=slide>A</div>"]))
        1 90 0 plainMetrics .resolvedLateThrows).canvas =
        { width := 1280, height := 720, picture := .fallback 1 } ∧
      (redraw
          (redraw (loadDocument (init blankCanvas)
            (.slidesProcessed ["<div class=slide>A</div>"]))
            1 90 0 plainMetrics .resolvedLateThrows)
          1 90 0 plainMetrics .resolved).rasterLog.length = 1 ∧
      (redraw
          (redraw (loadDocument (init blankCanvas)
            (.slidesProcessed ["<div class=slide>A</div>"]))
            1 90 0 plainMetrics .resolvedLateThrows)
          1 90 0 plainMetrics .resolved).canvas =
        { width := 1569, height := 1569,
          picture := .slide "<div class=slide>A</div>" true 1 90 } := by
  have hf : finalSize 1 90 = (1569, 1569) := by
    have hq : ((90 : ℤ) = 90 ∨ (90 : ℤ) = 270) := by decide
    have hx : (1280 * 1 * (1280 * 1) + 720 * 1 * (720 * 1) : ℚ) = 2156800 := by norm_num
    simp only [finalSize, if_pos hq, hx, ceilSqrt_slide_diagonal]
    norm_num
  obtain ⟨s1, hs1⟩ : ∃ s1, s1 =
      redraw (loadDocument (init blankCanvas) (.slidesProcessed ["<div class=slide>A</div>"]))
        1 90 0 plainMetrics .resolvedLateThrows := ⟨_, rfl⟩
  rw [← hs1]
  rw [redraw_raster_lateThrows _ 1 90 0 plainMetrics "<div class=slide>A</div>"
    (by decide) (by decide), hf] at hs1
  subst hs1
  refine ⟨by norm_num, ?_, ?_⟩
  · rw [redraw_hit _ 1 90 0 plainMetrics .resolved
      { imageData := .slide "<div class=slide>A</div>" true 1 90, width := 1569, height := 1569 }
      rfl (by decide) (by decide)]
    rfl
  · rw [redraw_hit _ 1 90 0 plainMetrics .resolved
      { imageData := .slide "<div class=slide>A</div>" true 1 90, width := 1569, height := 1569 }
      rfl (by decide) (by decide)]

/-- C9, as stated, fails: a redraw with rotation 45 calls html2canvas and calls
`onCompletion()` without any error argument. -/
theorem rotation_not_validated :
    (redraw (loadDocument (init blankCanvas) (.slidesProcessed ["<div class=slide>A</div>"]))
        1 45 0 plainMetrics .resolved).rasterLog.length = 1 ∧
      (redraw (loadDocument (init blankCanvas) (.slidesProcessed ["<div class=slide>A</div>"]))
        1 45 0 plainMetrics .resolved).completions = [none] := by
  decide

/-- C9, amended: the rotation is not validated.  For every rotation, in particular one
other than 0, 90, 180 and 270, a redraw that is not served from the cache and finds its
slide calls html2canvas once and calls `onCompletion()` once without argument, whatever
the rasterizer answers; when the rasterization succeeds the slide is drawn with that
rotation. -/
theorem other_rotation_rendered (s : State) (scale : ℚ) (rotation pageIndex : ℤ)
    (metrics : SlideMetrics) (o : RasterOutcome) (html : String)
    (hmiss : (!s.isFirstRender && mapHas s.renderCache ⟨pageIndex, scale, rotation⟩) = false)
    (hs : slideHtmlAt s pageIndex = some html) :
    (redraw s scale rotation pageIndex metrics o).rasterLog.length = s.rasterLog.length + 1 ∧
      (redraw s scale rotation pageIndex metrics o).completions = s.completions ++ [none] ∧
      (redraw s scale rotation pageIndex metrics .resolved).canvas.picture =
        .slide html s.isFirstRender scale rotation := by
  obtain ⟨h1, h2⟩ := redraw_raster_logs s scale rotation pageIndex metrics o html hmiss hs
  refine ⟨h1, h2, ?_⟩
  rw [redraw_raster_resolved s scale rotation pageIndex metrics html hmiss hs]

/-- Worked example: slide 0 of a one-slide document at
scale 1, rotation 45, with a rasterizer that fails. -/
theorem other_rotation_rendered_witness :
    (((45 : ℤ) ≠ 0 ∧ (45 : ℤ) ≠ 90 ∧ (45 : ℤ) ≠ 180 ∧ (45 : ℤ) ≠ 270) ∧
      slideHtmlAt (loadDocument (init blankCanvas)
        (.slidesProcessed ["<div class=slide>A</div>"])) 0 =
        some "<div class=slide>A</div>") ∧
    ((redraw (loadDocument (init blankCanvas) (.slidesProcessed ["<div class=slide>A</div>"]))
        1 45 0 plainMetrics .rejected).rasterLog.length =
        (loadDocument (init blankCanvas)
          (.slidesProcessed ["<div class=slide>A</div>"])).rasterLog.length + 1 ∧
      (redraw (loadDocument (init blankCanvas) (.slidesProcessed ["<div class=slide>A</div>"]))
        1 45 0 plainMetrics .rejected).completions =
        (loadDocument (init blankCanvas)
          (.slidesProcessed ["<div class=slide>A</div>"])).completions ++ [none] ∧
      (redraw (loadDocument (init blankCanvas) (.slidesProcessed ["<div class=slide>A</div>"]))
        1 45 0 plainMetrics .resolved).canvas.picture =
        .slide "<div class=slide>A</div>"
          (loadDocument (init blankCanvas)
            (.slidesProcessed ["<div class=slide>A</div>"])).isFirstRender 1 45) :=
  ⟨⟨by decide, by decide⟩,
    other_rotation_rendered
      (loadDocument (init blankCanvas) (.slidesProcessed ["<div class=slide>A</div>"]))
      1 45 0 plainMetrics .rejected "<div class=slide>A</div>" (by decide) (by decide)⟩

end Enhanced

namespace FullContent

/-- A redraw of a stored slide whose rasterization succeeds. -/
theorem fullContent_redraw_resolved (s : State) (p : Presentation) (html : String) (scale : ℚ)
    (rotation pageIndex : ℤ) (scrollHeight : ℚ) (hp : s.pptxHtmlContent = some p)
    (hs : arrayAt p.slides pageIndex = some html) (hne : html ≠ "") :
    redraw s scale rotation pageIndex scrollHeight .resolved =
      { s with
        rasterLog := s.rasterLog ++
          [{ html := html, scale := 1, width := 1280, height := actualHeight scrollHeight + 50 }]
        canvas := { width := (finalSize scrollHeight scale rotation).1,
                    height := (finalSize scrollHeight scale rotation).2,
                    picture := .slide html false scale rotation }
        completions := s.completions ++ [none] } := by
  have hlen := arrayAt_some_length p.slides pageIndex html hs
  simp [redraw, hp, hs, hne, hlen, complete]

/-- C7 (the code departs from the claim): for a slide whose scrollHeight is 720, at scale 1
and rotation 0, the bitmap requested from html2canvas is 1280 wide and 770 high, and the
canvas it is drawn onto is 1280 wide and 720 high: the canvas height is not the bitmap
height times the scale. -/
theorem bitmap_taller_than_canvas :
    (redraw (loadDocument (init blankCanvas) ["<div class=slide>A</div>"]) 1 0 0 720
        .resolved).rasterLog =
        [{ html := "<div class=slide>A</div>", scale := 1, width := 1280, height := 770 }] ∧
      (redraw (loadDocument (init blankCanvas) ["<div class=slide>A</div>"]) 1 0 0 720
        .resolved).canvas.width = 1280 * 1 ∧
      (redraw (loadDocument (init blankCanvas) ["<div class=slide>A</div>"]) 1 0 0 720
        .resolved).canvas.height = 720 ∧
      (redraw (loadDocument (init blankCanvas) ["<div class=slide>A</div>"]) 1 0 0 720
        .resolved).canvas.height ≠ 770 * 1 := by
  have ha : actualHeight 720 = 720 := by
    unfold actualHeight
    norm_num
  have hw : mathRound (1280 * 1) = 1280 := by
    unfold mathRound
    rw [Int.floor_eq_iff]
    constructor <;> norm_num
  have hh : mathRound (720 * 1) = 720 := by
    unfold mathRound
    rw [Int.floor_eq_iff]
    constructor <;> norm_num
  have hf : finalSize 720 1 0 = (1280, 720) := by
    have hq : ¬ ((0 : ℤ) = 90 ∨ (0 : ℤ) = 270) := by decide
    simp only [finalSize, if_neg hq, ha, hw, hh]
  rw [fullContent_redraw_resolved _ { slides := ["<div class=slide>A</div>"], width := 1280, height := 720 }
    "<div class=slide>A</div>" 1 0 0 720 rfl (by decide) (by decide)]
  dsimp only
  rw [hf, ha]
  refine ⟨?_, ?_, ?_, ?_⟩
  · simp [loadDocument, init]
    norm_num
  · norm_num
  · norm_num
  · norm_num

end FullContent

namespace Improved

/-- The branch of `redraw` that repeats the last rendered parameters. -/
theorem redraw_repeat (s : State) (scale : ℚ) (rotation pageIndex : ℤ) (o : RasterOutcome)
    (h : s.lastRenderedPageIndex = pageIndex ∧ s.lastRenderedScale = scale ∧
      s.lastRenderedRotation = rotation) :
    redraw s scale rotation pageIndex o = { s with completions := s.completions ++ [none] } := by
  unfold redraw
  rw [if_pos h]

/-- The branch of `redraw` whose validation throws. -/
theorem redraw_invalid (s : State) (scale : ℚ) (rotation pageIndex : ℤ) (o : RasterOutcome)
    (message : String)
    (h : ¬ (s.lastRenderedPageIndex = pageIndex ∧ s.lastRenderedScale = scale ∧
      s.lastRenderedRotation = rotation))
    (hv : validate s pageIndex = .error message) :
    redraw s scale rotation pageIndex o =
      { s with
        lastRenderedPageIndex := pageIndex
        lastRenderedScale := scale
        lastRenderedRotation := rotation
        canvas := { width := originalWidth s * scale, height := originalHeight s * scale,
                    picture := .errorText ("Error: " ++ message) }
        completions := s.completions ++ [none] } := by
  have hv1 : validate
      { s with
        lastRenderedPageIndex := pageIndex
        lastRenderedScale := scale
        lastRenderedRotation := rotation } pageIndex = .error message := hv
  unfold redraw
  rw [if_neg h]
  simp only [hv1]
  rfl

/-- Validation rejects every page index outside the stored slide list, and everything when
no slide list is stored. -/
theorem validate_out_of_range (s : State) (pageIndex : ℤ)
    (h : ∀ p, s.pptxHtmlContent = some p → pageIndex < 0 ∨ (p.slides.length : ℤ) ≤ pageIndex) :
    validate s pageIndex = .error "No slide content available for rendering" ∨
      validate s pageIndex = .error ("Slide index " ++ toString pageIndex ++ " out of bounds") := by
  unfold validate
  rcases hp : s.pptxHtmlContent with _ | p
  · exact Or.inl rfl
  · by_cases h0 : p.slides.length = 0
    · left; simp [h0]
    · right
      have hr := h p hp
      have hge : pageIndex < 0 ∨ pageIndex ≥ (p.slides.length : ℤ) := hr
      simp [h0, hge]

/-- C10, as stated, fails: on a handler without slides, a redraw of page 5 ends with a
single call `onCompletion()` that carries no argument; nothing is thrown, so the caller
cannot observe an IndexOutOfRange error. -/
theorem out_of_range_not_reported :
    pageCount (init blankCanvas) = 0 ∧
      (redraw (init blankCanvas) 2 0 5 .resolved).completions = [none] ∧
      (redraw (init blankCanvas) 2 0 5 .resolved).rasterLog = [] := by
  decide

/-- C10, amended: for every page index below 0 or at least the length of the stored slide
list (and for every page index when no slide list is stored), redraw does not call
html2canvas and calls `onCompletion()` exactly once, without argument; nothing is thrown.
Unless the call repeats the last rendered page index, scale and rotation, the failure is
shown on the canvas only: the canvas is resized to originalWidth × scale by
originalHeight × scale and carries one of the two error messages. -/
theorem out_of_range_redraw (s : State) (scale : ℚ) (rotation pageIndex : ℤ)
    (o : RasterOutcome)
    (h : ∀ p, s.pptxHtmlContent = some p → pageIndex < 0 ∨ (p.slides.length : ℤ) ≤ pageIndex) :
    (redraw s scale rotation pageIndex o).rasterLog = s.rasterLog ∧
      (redraw s scale rotation pageIndex o).completions = s.completions ++ [none] ∧
      (¬ (s.lastRenderedPageIndex = pageIndex ∧ s.lastRenderedScale = scale ∧
          s.lastRenderedRotation = rotation) →
        (redraw s scale rotation pageIndex o).canvas.width = originalWidth s * scale ∧
        (redraw s scale rotation pageIndex o).canvas.height = originalHeight s * scale ∧
        ((redraw s scale rotation pageIndex o).canvas.picture =
            .errorText "Error: No slide content available for rendering" ∨
          (redraw s scale rotation pageIndex o).canvas.picture =
            .errorText ("Error: Slide index " ++ toString pageIndex ++ " out of bounds"))) := by
  by_cases hrep : s.lastRenderedPageIndex = pageIndex ∧ s.lastRenderedScale = scale ∧
      s.lastRenderedRotation = rotation
  · rw [redraw_repeat s scale rotation pageIndex o hrep]
    exact ⟨rfl, rfl, fun hn => absurd hrep hn⟩
  · rcases validate_out_of_range s pageIndex h with hv | hv
    · rw [redraw_invalid s scale rotation pageIndex o _ hrep hv]
      exact ⟨rfl, rfl, fun _ => ⟨rfl, rfl, Or.inl rfl⟩⟩
    · rw [redraw_invalid s scale rotation pageIndex o _ hrep hv]
      have hmsg : "Error: " ++ ("Slide index " ++ toString pageIndex ++ " out of bounds") =
          "Error: Slide index " ++ toString pageIndex ++ " out of bounds" := by
        have h1 : "Error: Slide index " = "Error: " ++ "Slide index " := by decide
        rw [h1]
        simp only [String.append_assoc]
      refine ⟨rfl, rfl, fun _ => ⟨rfl, rfl, Or.inr ?_⟩⟩
      exact congrArg Picture.errorText hmsg

/-- Worked example: page 1 of a one-slide document. -/
theorem out_of_range_redraw_witness :
    (∀ p, (loadDocument (init blankCanvas)
          (.converted [{ element := "slide-1", maxBottom := 700 }])).pptxHtmlContent = some p →
        (1 : ℤ) < 0 ∨ (p.slides.length : ℤ) ≤ 1) ∧
    ((redraw (loadDocument (init blankCanvas)
          (.converted [{ element := "slide-1", maxBottom := 700 }])) 2 0 1 .resolved).rasterLog =
        (loadDocument (init blankCanvas)
          (.converted [{ element := "slide-1", maxBottom := 700 }])).rasterLog ∧
      (redraw (loadDocument (init blankCanvas)
          (.converted [{ element := "slide-1", maxBottom := 700 }])) 2 0 1 .resolved).completions =
        (loadDocument (init blankCanvas)
          (.converted [{ element := "slide-1", maxBottom := 700 }])).completions ++ [none] ∧
      (¬ ((loadDocument (init blankCanvas)
            (.converted [{ element := "slide-1", maxBottom := 700 }])).lastRenderedPageIndex = 1 ∧
          (loadDocument (init blankCanvas)
            (.converted [{ element := "slide-1", maxBottom := 700 }])).lastRenderedScale = 2 ∧
          (loadDocument (init blankCanvas)
            (.converted [{ element := "slide-1", maxBottom := 700 }])).lastRenderedRotation = 0) →
        (redraw (loadDocument (init blankCanvas)
            (.converted [{ element := "slide-1", maxBottom := 700 }])) 2 0 1
            .resolved).canvas.width =
          originalWidth (loadDocument (init blankCanvas)
            (.converted [{ element := "slide-1", maxBottom := 700 }])) * 2 ∧
        (redraw (loadDocument (init blankCanvas)
            (.converted [{ element := "slide-1", maxBottom := 700 }])) 2 0 1
            .resolved).canvas.height =
          originalHeight (loadDocument (init blankCanvas)
            (.converted [{ element := "slide-1", maxBottom := 700 }])) * 2 ∧
        ((redraw (loadDocument (init blankCanvas)
            (.converted [{ element := "slide-1", maxBottom := 700 }])) 2 0 1
            .resolved).canvas.picture =
            .errorText "Error: No slide content available for rendering" ∨
          (redraw (loadDocument (init blankCanvas)
            (.converted [{ element := "slide-1", maxBottom := 700 }])) 2 0 1
            .resolved).canvas.picture =
            .errorText ("Error: Slide index " ++ toString (1 : ℤ) ++ " out of bounds")))) :=
  have hw : ∀ p, (loadDocument (init blankCanvas)
        (.converted [{ element := "slide-1", maxBottom := 700 }])).pptxHtmlContent = some p →
      (1 : ℤ) < 0 ∨ (p.slides.length : ℤ) ≤ 1 := by
    intro p hp
    simp only [loadDocument, init, List.length_singleton, one_ne_zero, if_false,
      Option.some.injEq] at hp
    subst hp
    right
    simp
  ⟨hw, out_of_range_redraw _ 2 0 1 .resolved hw⟩

end Improved

/-! ## The enhanced handler: failure signal, fallback size, cleanup, rasterizer scale -/

namespace Enhanced

/-- A fresh render whose rasterization is rejected leaves the fallback on the canvas. -/
theorem redraw_raster_rejected_canvas (s : State) (scale : ℚ) (rotation pageIndex : ℤ)
    (metrics : SlideMetrics) (html : String)
    (hmiss : (!s.isFirstRender && mapHas s.renderCache ⟨pageIndex, scale, rotation⟩) = false)
    (hs : slideHtmlAt s pageIndex = some html) :
    (redraw s scale rotation pageIndex metrics .rejected).canvas =
      { width := 1280 * scale, height := 720 * scale, picture := .fallback scale } := by
  rw [redraw_raster s scale rotation pageIndex metrics .rejected html hmiss hs,
    redrawBegin_raster s scale rotation pageIndex metrics html hmiss hs]
  rfl

/-- C11, as stated, fails: when html2canvas rejects, `onCompletion()` is called once but
carries no argument, exactly as after a successful render. -/
theorem raster_failure_not_reported :
    (redraw (loadDocument (init blankCanvas) (.slidesProcessed ["<div class=slide>A</div>"]))
        2 90 0 plainMetrics .rejected).completions = [none] ∧
      (redraw (loadDocument (init blankCanvas) (.slidesProcessed ["<div class=slide>A</div>"]))
        2 90 0 plainMetrics .resolved).completions = [none] := by
  decide

/-- C11, amended: when html2canvas signals failure for a redraw that is not served from the
cache and finds its slide, the fallback is drawn at 1280 × scale by 720 × scale and
`onCompletion()` is invoked exactly once, without argument; a successful render ends with
the same single call without argument, so the argument of the callback does not tell a
fallback from a success. -/
theorem raster_failure_signal (s : State) (scale : ℚ) (rotation pageIndex : ℤ)
    (metrics : SlideMetrics) (html : String)
    (hmiss : (!s.isFirstRender && mapHas s.renderCache ⟨pageIndex, scale, rotation⟩) = false)
    (hs : slideHtmlAt s pageIndex = some html) :
    (redraw s scale rotation pageIndex metrics .rejected).completions =
        s.completions ++ [none] ∧
      (redraw s scale rotation pageIndex metrics .resolved).completions =
        s.completions ++ [none] ∧
      (redraw s scale rotation pageIndex metrics .rejected).canvas =
        { width := 1280 * scale, height := 720 * scale, picture := .fallback scale } :=
  ⟨(redraw_raster_logs s scale rotation pageIndex metrics .rejected html hmiss hs).2,
    (redraw_raster_logs s scale rotation pageIndex metrics .resolved html hmiss hs).2,
    redraw_raster_rejected_canvas s scale rotation pageIndex metrics html hmiss hs⟩

/-- Worked example: slide 0 of a one-slide document at scale 2, rotation 90. -/
theorem raster_failure_signal_witness :
    slideHtmlAt (loadDocument (init blankCanvas)
        (.slidesProcessed ["<div class=slide>A</div>"])) 0 = some "<div class=slide>A</div>" ∧
    ((redraw (loadDocument (init blankCanvas) (.slidesProcessed ["<div class=slide>A</div>"]))
        2 90 0 plainMetrics .rejected).completions =
        (loadDocument (init blankCanvas)
          (.slidesProcessed ["<div class=slide>A</div>"])).completions ++ [none] ∧
      (redraw (loadDocument (init blankCanvas) (.slidesProcessed ["<div class=slide>A</div>"]))
        2 90 0 plainMetrics .resolved).completions =
        (loadDocument (init blankCanvas)
          (.slidesProcessed ["<div class=slide>A</div>"])).completions ++ [none] ∧
      (redraw (loadDocument (init blankCanvas) (.slidesProcessed ["<div class=slide>A</div>"]))
        2 90 0 plainMetrics .rejected).canvas =
        { width := 1280 * 2, height := 720 * 2, picture := .fallback 2 }) :=
  ⟨by decide,
    raster_failure_signal
      (loadDocument (init blankCanvas) (.slidesProcessed ["<div class=slide>A</div>"]))
      2 90 0 plainMetrics "<div class=slide>A</div>" (by decide) (by decide)⟩

/-- C16: cleanup is idempotent.  For every handler state a second cleanup leaves the state
of the first one, in which no presentation is stored, pageCount() is 0, the render cache
is empty and the off-screen container is gone; cleanup is a total function, so the second
call does not fail. -/
theorem cleanup_idempotent (s : State) :
    cleanup (cleanup s) = cleanup s ∧ (cleanup s).pptxHtmlContent = none ∧
      pageCount (cleanup s) = 0 ∧ (cleanup s).renderCache = [] ∧
      (cleanup s).modalPresent = false :=
  ⟨rfl, rfl, rfl, rfl, rfl⟩

end Enhanced

/-! ## Pixels of the fallback canvas -/

/-- For a number from 0 up to 2^31 the canvas stores its integer part. -/
theorem canvasDimension_eq_floor (fallback : ℕ) (x : ℚ) (h0 : 0 ≤ x) (h1 : x < 2147483648) :
    canvasDimension fallback x = ⌊x⌋.toNat := by
  have hf0 : 0 ≤ ⌊x⌋ := Int.floor_nonneg.mpr h0
  have hf1 : ⌊x⌋ < 2147483648 := by
    rw [Int.floor_lt]; exact_mod_cast h1
  have hmod : ⌊x⌋ % 4294967296 = ⌊x⌋ := Int.emod_eq_of_lt hf0 (by omega)
  have hle : ¬ (⌊x⌋.toNat > 2147483647) := by omega
  unfold canvasDimension
  simp only [if_pos h0, hmod, if_neg hle]

/-- The canvas stores at least 1 exactly for a number that is at least 1. -/
theorem one_le_canvasDimension (fallback : ℕ) (x : ℚ) (h0 : 0 ≤ x) (h1 : x < 2147483648) :
    1 ≤ canvasDimension fallback x ↔ 1 ≤ x := by
  rw [canvasDimension_eq_floor fallback x h0 h1]
  have hf0 : 0 ≤ ⌊x⌋ := Int.floor_nonneg.mpr h0
  have hiff : (1 : ℤ) ≤ ⌊x⌋ ↔ 1 ≤ x := by
    rw [Int.le_floor]; norm_num
  constructor
  · intro h; exact hiff.mp (by omega)
  · intro h; have := hiff.mpr h; omega

namespace Enhanced

/-- C12, as stated, fails: at the positive scale 1/1000 the fallback canvas is assigned the
height 720/1000, which the canvas stores as 0 pixels. -/
theorem fallback_zero_height :
    (0 : ℚ) < 1 / 1000 ∧
      (renderFallback (init blankCanvas) (1 / 1000) 0).canvas.pixelHeight = 0 := by
  refine ⟨by norm_num, ?_⟩
  have hx : (720 : ℚ) * (1 / 1000) = 18 / 25 := by norm_num
  have hfl : ⌊(18 / 25 : ℚ)⌋ = 0 := by
    rw [Int.floor_eq_iff]; constructor <;> norm_num
  show canvasDimension 150 (720 * (1 / 1000)) = 0
  rw [hx, canvasDimension_eq_floor 150 _ (by norm_num) (by norm_num), hfl]
  rfl

/-- C12, amended: for every rotation and every scale > 0 with 1280 × scale below 2^31,
the pixel width and height of the canvas left by renderFallback are both at least 1
exactly when scale ≥ 1/720; for a smaller positive scale the height is 0 pixels. -/
theorem fallback_area_iff (s : State) (scale : ℚ) (rotation : ℤ) (hpos : 0 < scale)
    (hbig : 1280 * scale < 2147483648) :
    (1 ≤ (renderFallback s scale rotation).canvas.pixelWidth ∧
        1 ≤ (renderFallback s scale rotation).canvas.pixelHeight) ↔ 1 / 720 ≤ scale := by
  have hw : 1 ≤ (renderFallback s scale rotation).canvas.pixelWidth ↔ 1 ≤ 1280 * scale :=
    one_le_canvasDimension 300 (1280 * scale) (by positivity) hbig
  have hh : 1 ≤ (renderFallback s scale rotation).canvas.pixelHeight ↔ 1 ≤ 720 * scale :=
    one_le_canvasDimension 150 (720 * scale) (by positivity) (by linarith)
  rw [hw, hh]
  constructor
  · intro h; linarith [h.2]
  · intro h; constructor <;> linarith

/-- Worked example: the fallback at scale 1/720. -/
theorem fallback_area_iff_witness :
    ((0 : ℚ) < 1 / 720 ∧ (1280 : ℚ) * (1 / 720) < 2147483648) ∧
      ((1 ≤ (renderFallback (init blankCanvas) (1 / 720) 0).canvas.pixelWidth ∧
          1 ≤ (renderFallback (init blankCanvas) (1 / 720) 0).canvas.pixelHeight) ↔
        (1 : ℚ) / 720 ≤ 1 / 720) :=
  ⟨⟨by norm_num, by norm_num⟩,
    fallback_area_iff (init blankCanvas) (1 / 720) 0 (by norm_num) (by norm_num)⟩

/-- The `scale` option of html2canvas is 2 up to the user scale 1, 2 / scale between 1
and 2, and 1 from the user scale 2 on. -/
theorem html2canvasScale_eq_one_iff (scale : ℚ) (hpos : 0 < scale) :
    html2canvasScale scale = 1 ↔ 2 ≤ scale := by
  unfold html2canvasScale
  rw [if_neg (ne_of_gt hpos)]
  have hq : 2 / scale ≤ 1 ↔ 2 ≤ scale := by
    rw [div_le_one hpos]
  constructor
  · intro h
    by_contra hlt
    have h1 : 1 < 2 / scale := by
      rw [lt_div_iff₀ hpos]; linarith
    have h2 : max 1 (2 / scale) = 2 / scale := max_eq_right h1.le
    rw [h2] at h
    rcases le_total 2 (2 / scale) with h3 | h3
    · rw [min_eq_left h3] at h; norm_num at h
    · rw [min_eq_right h3] at h; linarith
  · intro h
    have h1 : 2 / scale ≤ 1 := hq.mpr h
    rw [max_eq_left h1, min_eq_right (by norm_num)]

/-- C20, as stated, fails: at the user scale 1 html2canvas is called with the `scale`
option 2. -/
theorem raster_scale_not_one :
    (redraw (loadDocument (init blankCanvas) (.slidesProcessed ["<div class=slide>A</div>"]))
        1 0 0 plainMetrics .resolved).rasterLog.map (fun r => r.scale) = [2] := by
  have h2 : html2canvasScale 1 = 2 := by
    unfold html2canvasScale
    norm_num
  rw [redraw_raster_resolved _ 1 0 0 plainMetrics "<div class=slide>A</div>"
    (by decide) (by decide)]
  simp [loadDocument, init, h2]

/-- C20, amended: a redraw at a user scale > 0 that is not served from the cache and finds
its slide calls html2canvas once, with the `scale` option min(2, max(1, 2 / scale)); that
option is 1 exactly when the user scale is at least 2. -/
theorem raster_scale_adaptive (s : State) (scale : ℚ) (rotation pageIndex : ℤ)
    (metrics : SlideMetrics) (o : RasterOutcome) (html : String) (hpos : 0 < scale)
    (hmiss : (!s.isFirstRender && mapHas s.renderCache ⟨pageIndex, scale, rotation⟩) = false)
    (hs : slideHtmlAt s pageIndex = some html) :
    ∃ request : RasterRequest,
      (redraw s scale rotation pageIndex metrics o).rasterLog = s.rasterLog ++ [request] ∧
        request.scale = min 2 (max 1 (2 / scale)) ∧ (request.scale = 1 ↔ 2 ≤ scale) := by
  refine ⟨{ html := html, firstRenderPadding := s.isFirstRender,
            scale := html2canvasScale scale, width := 1280 + 200,
            height := max (metrics.totalHeight + 200) 1000,
            y := min (-100) (metrics.minTop - 50) }, ?_, ?_, ?_⟩
  · rw [redraw_raster s scale rotation pageIndex metrics o html hmiss hs,
      (redrawFinish_logs _ _ o).1,
      redrawBegin_raster s scale rotation pageIndex metrics html hmiss hs]
  · show html2canvasScale scale = _
    unfold html2canvasScale
    rw [if_neg (ne_of_gt hpos)]
  · exact html2canvasScale_eq_one_iff scale hpos

/-- Worked example: slide 0 of a one-slide document at the user scale 3. -/
theorem raster_scale_adaptive_witness :
    ((0 : ℚ) < 3 ∧
      slideHtmlAt (loadDocument (init blankCanvas)
        (.slidesProcessed ["<div class=slide>A</div>"])) 0 = some "<div class=slide>A</div>") ∧
    ∃ request : RasterRequest,
      (redraw (loadDocument (init blankCanvas) (.slidesProcessed ["<div class=slide>A</div>"]))
          3 0 0 plainMetrics .resolved).rasterLog =
        (loadDocument (init blankCanvas)
          (.slidesProcessed ["<div class=slide>A</div>"])).rasterLog ++ [request] ∧
        request.scale = min 2 (max 1 (2 / 3)) ∧ (request.scale = 1 ↔ (2 : ℚ) ≤ 3) :=
  ⟨⟨by norm_num, by decide⟩,
    raster_scale_adaptive
      (loadDocument (init blankCanvas) (.slidesProcessed ["<div class=slide>A</div>"]))
      3 0 0 plainMetrics .resolved "<div class=slide>A</div>" (by norm_num) (by decide)
      (by decide)⟩

end Enhanced

/-! ## The improved handler: a failed redraw is remembered as rendered -/

namespace Improved

/-- Every redraw leaves its own parameters in the tracking variables. -/
theorem redraw_lastRendered (s : State) (scale : ℚ) (rotation pageIndex : ℤ)
    (o : RasterOutcome) :
    (redraw s scale rotation pageIndex o).lastRenderedPageIndex = pageIndex ∧
      (redraw s scale rotation pageIndex o).lastRenderedScale = scale ∧
      (redraw s scale rotation pageIndex o).lastRenderedRotation = rotation := by
  by_cases hrep : s.lastRenderedPageIndex = pageIndex ∧ s.lastRenderedScale = scale ∧
      s.lastRenderedRotation = rotation
  · rw [redraw_repeat s scale rotation pageIndex o hrep]
    exact hrep
  · unfold redraw
    rw [if_neg hrep]
    dsimp only
    split
    · exact ⟨rfl, rfl, rfl⟩
    · cases o <;> exact ⟨rfl, rfl, rfl⟩

/-- A redraw that follows a redraw with the same parameters only calls `onCompletion()`,
however the first one ended. -/
theorem redraw_twice (s : State) (scale : ℚ) (rotation pageIndex : ℤ)
    (o1 o2 : RasterOutcome) :
    redraw (redraw s scale rotation pageIndex o1) scale rotation pageIndex o2 =
      { redraw s scale rotation pageIndex o1 with
        completions := (redraw s scale rotation pageIndex o1).completions ++ [none] } :=
  redraw_repeat _ scale rotation pageIndex o2 (redraw_lastRendered s scale rotation pageIndex o1)

/-- C13 (the code departs from the claim): slide 0 of a one-slide document is redrawn at
scale 2, rotation 0, and html2canvas fails, so the error text is painted; the same redraw
is called again with a rasterizer that would succeed: html2canvas is not called a second
time and the canvas keeps the error text. -/
theorem failed_redraw_not_retried :
    (redraw (loadDocument (init blankCanvas)
        (.converted [{ element := "slide-1", maxBottom := 700 }])) 2 0 0
        .rejected).rasterLog.length = 1 ∧
      (redraw (loadDocument (init blankCanvas)
        (.converted [{ element := "slide-1", maxBottom := 700 }])) 2 0 0
        .rejected).canvas.picture = .errorText "Error rendering slide 1" ∧
      (redraw
        (redraw (loadDocument (init blankCanvas)
          (.converted [{ element := "slide-1", maxBottom := 700 }])) 2 0 0 .rejected)
        2 0 0 .resolved).rasterLog.length = 1 ∧
      (redraw
        (redraw (loadDocument (init blankCanvas)
          (.converted [{ element := "slide-1", maxBottom := 700 }])) 2 0 0 .rejected)
        2 0 0 .resolved).canvas.picture = .errorText "Error rendering slide 1" := by
  have h1 : (redraw (loadDocument (init blankCanvas)
        (.converted [{ element := "slide-1", maxBottom := 700 }])) 2 0 0
        .rejected).rasterLog.length = 1 := by decide
  have h2 : (redraw (loadDocument (init blankCanvas)
        (.converted [{ element := "slide-1", maxBottom := 700 }])) 2 0 0
        .rejected).canvas.picture = .errorText "Error rendering slide 1" := by decide
  rw [redraw_twice]
  exact ⟨h1, h2, h1, h2⟩

end Improved

/-! ## The full handler: measurement, stored sizes and the loading timer -/

namespace Full

theorem foldl_max_le (vs : List ℚ) (a : ℚ) : a ≤ vs.foldl max a := by
  induction vs generalizing a with
  | nil => exact le_refl a
  | cons v rest ih => exact le_trans (le_max_left a v) (ih (max a v))

theorem foldl_max_mem (vs : List ℚ) (a : ℚ) : vs.foldl max a = a ∨ vs.foldl max a ∈ vs := by
  induction vs generalizing a with
  | nil => exact Or.inl rfl
  | cons v rest ih =>
    rcases ih (max a v) with h | h
    · rcases max_choice a v with hm | hm
      · left; rw [List.foldl_cons, h, hm]
      · right; rw [List.foldl_cons, h, hm]; exact List.mem_cons_self _ _
    · right; exact List.mem_cons_of_mem _ h

theorem foldl_max_upper (vs : List ℚ) (a : ℚ) : ∀ v ∈ vs, v ≤ vs.foldl max a := by
  induction vs generalizing a with
  | nil => intro v hv; cases hv
  | cons w rest ih =>
    intro v hv
    rcases List.mem_cons.mp hv with rfl | hr
    · exact le_trans (le_max_right a v) (foldl_max_le rest (max a v))
    · exact ih (max a w) v hr

theorem foldl_max_comm (vs : List ℚ) (a b : ℚ) :
    vs.foldl max (max a b) = max a (vs.foldl max b) := by
  induction vs generalizing b with
  | nil => rfl
  | cons v rest ih => rw [List.foldl_cons, List.foldl_cons, max_assoc, ih]

/-- The loop of the measurement folds `max` over the visible bottoms. -/
theorem measureLoop_eq_foldl (slideTop : ℚ) (elements : List ElementBox) (maxBottom : ℚ) :
    measureLoop slideTop elements maxBottom =
      (visibleBottoms slideTop elements).foldl max maxBottom := by
  induction elements generalizing maxBottom with
  | nil => rfl
  | cons e rest ih =>
    by_cases he : e.offsetHeight > 0
    · simp only [measureLoop, if_pos he, visibleBottoms, List.filter_cons, decide_eq_true he,
        if_true, List.map_cons, List.foldl_cons]
      exact ih _
    · simp only [measureLoop, if_neg he, visibleBottoms, List.filter_cons, decide_eq_false he]
      exact ih _

/-- C17: for every slide element whose measurement does not throw,
measureSlideContentHeight returns max(720, 50 + M), where M is 0 when no descendant has a
positive offsetHeight and otherwise the greatest of the values (bottom relative to the
slide top + bottom margin) of the descendants with positive offsetHeight; and the result
is at least 720 for every slide element, also when the measurement throws. -/
theorem measureSlideContentHeight_spec :
    (∀ slideTop elements,
        measureSlideContentHeight (.boxes slideTop elements) =
          specContentHeight slideTop elements) ∧
      (∀ slideTop elements, visibleBottoms slideTop elements = [] →
        specMaxBottom slideTop elements = 0) ∧
      (∀ slideTop elements, visibleBottoms slideTop elements ≠ [] →
        specMaxBottom slideTop elements ∈ visibleBottoms slideTop elements ∧
          ∀ v ∈ visibleBottoms slideTop elements, v ≤ specMaxBottom slideTop elements) ∧
      (∀ m, 720 ≤ measureSlideContentHeight m) := by
  refine ⟨?_, ?_, ?_, ?_⟩
  · intro slideTop elements
    have hm : measureSlideContentHeight (.boxes slideTop elements) =
        max 720 (measureLoop slideTop elements 0 + 50) := rfl
    rw [hm, measureLoop_eq_foldl]
    unfold specContentHeight specMaxBottom
    rcases hv : visibleBottoms slideTop elements with _ | ⟨v, vs⟩
    · simp only [List.foldl_nil]
      norm_num
    · simp only [List.foldl_cons]
      rw [foldl_max_comm]
      rcases le_total 0 (vs.foldl max v) with h0 | h0
      · rw [max_eq_right h0, add_comm]
      · rw [max_eq_left h0]
        have h1 : (720 : ℚ) ⊔ (0 + 50) = 720 := max_eq_left (by norm_num)
        have h2 : (720 : ℚ) ⊔ (50 + vs.foldl max v) = 720 := max_eq_left (by linarith)
        rw [h1, h2]
  · intro slideTop elements hv
    unfold specMaxBottom
    rw [hv]
  · intro slideTop elements hv
    unfold specMaxBottom
    rcases hvs : visibleBottoms slideTop elements with _ | ⟨v, vs⟩
    · exact absurd hvs hv
    · constructor
      · rcases foldl_max_mem vs v with h | h
        · simp only [h]; exact List.mem_cons_self _ _
        · exact List.mem_cons_of_mem _ h
      · intro w hw
        rcases List.mem_cons.mp hw with rfl | hr
        · exact foldl_max_le vs w
        · exact foldl_max_upper vs v w hr
  · intro m
    cases m with
    | throws => exact le_refl _
    | boxes slideTop elements => exact le_max_left _ _

theorem measure_tall_slide :
    measureSlideContentHeight
      (.boxes 0 [{ offsetHeight := 40, bottom := 850, marginBottom := some 0 }]) = 900 := by
  simp only [measureSlideContentHeight, measureLoop, marginBottomOf]
  norm_num

/-- C14 (the code departs from the claim): a document whose only slide has content down
to 850 pixels is loaded, then cleanup() is called.  No presentation is stored any more and
originalWidth() is 1280, but originalHeight() still returns 900, the height measured for
the document that was cleaned up, instead of 720. -/
theorem stale_height_after_cleanup :
    (cleanup (loadDocument init
        [.converterSuccess
          [{ element := "slide-1",
             measurement :=
               .boxes 0 [{ offsetHeight := 40, bottom := 850, marginBottom := some 0 }] }]])
      ).slideContent = none ∧
      originalWidth (cleanup (loadDocument init
        [.converterSuccess
          [{ element := "slide-1",
             measurement :=
               .boxes 0 [{ offsetHeight := 40, bottom := 850, marginBottom := some 0 }] }]])
      ) = 1280 ∧
      originalHeight (cleanup (loadDocument init
        [.converterSuccess
          [{ element := "slide-1",
             measurement :=
               .boxes 0 [{ offsetHeight := 40, bottom := 850, marginBottom := some 0 }] }]])
      ) = 900 ∧
      originalHeight init = 720 := by
  refine ⟨rfl, ?_, ?_, rfl⟩
  · show max (0 : ℚ) 1280 = 1280
    norm_num
  · show max (0 : ℚ) (measureSlideContentHeight _) = 900
    rw [measure_tall_slide]
    norm_num

/-- C15 (the code departs from the claim): a document of two slides is loaded, then a load
whose conversion succeeds with zero slides follows.  pageCount() is 0 while the stored
slide list still holds the two slides of the first document. -/
theorem pageCount_out_of_step :
    pageCount
        (loadDocument
          (loadDocument init
            [.converterSuccess
              [{ element := "slide-1", measurement := .throws },
               { element := "slide-2", measurement := .throws }]])
          [.converterSuccess []]) = 0 ∧
      storedSlides
        (loadDocument
          (loadDocument init
            [.converterSuccess
              [{ element := "slide-1", measurement := .throws },
               { element := "slide-2", measurement := .throws }]])
          [.converterSuccess []]) = 2 ∧
      (loadDocument
          (loadDocument init
            [.converterSuccess
              [{ element := "slide-1", measurement := .throws },
               { element := "slide-2", measurement := .throws }]])
          [.converterSuccess []]).loadSignals =
        [.completion, .error "No slides found in the PPTX document"] := by
  decide

/-- C19 (the code departs from the claim): the timer of 60 seconds fires and the converter
succeeds afterwards.  onError is called with the timeout error and then onCompletion is
called as well, and the presentation of the late conversion is installed. -/
theorem timeout_does_not_cancel :
    (loadDocument init
        [.timeout,
         .converterSuccess [{ element := "slide-1", measurement := .throws }]]).loadSignals =
        [.error "Loading timed out", .completion] ∧
      storedSlides
        (loadDocument init
          [.timeout,
           .converterSuccess [{ element := "slide-1", measurement := .throws }]]) = 1 ∧
      pageCount
        (loadDocument init
          [.timeout,
           .converterSuccess [{ element := "slide-1", measurement := .throws }]]) = 1 := by
  decide

end Full

/-! ## The optimized handler: a load that times out -/

namespace Optimized

theorem waiting_begin (s : State) : Waiting s (loadDocumentBegin s none) :=
  ⟨rfl, rfl, rfl, rfl, rfl, rfl⟩

theorem waiting_quiet (s0 s : State) (e : LoadEvent) (h : Waiting s0 s) (he : e.quiet) :
    Waiting s0 (loadEvent s e) := by
  obtain ⟨h1, h2, h3, h4, h5, h6⟩ := h
  cases e with
  | mutation slides =>
    have hs : slides = [] := he
    subst hs
    simp only [loadEvent, List.length_nil, gt_iff_lt, lt_self_iff_false, and_false, if_false]
    exact ⟨h1, h2, h3, h4, h5, h6⟩
  | processing slides => exact absurd he (by simp [LoadEvent.quiet])
  | errorCheck slides errorTexts =>
    obtain ⟨hs, ht⟩ : slides = 0 ∧ errorTexts = [] := he
    subst hs ht
    by_cases ha : s.errorCheckArmed = true
    · simp only [loadEvent, ha, if_true]
      exact ⟨h1, h2, h3, h4, h5, h6⟩
    · simp only [loadEvent, ha, Bool.false_eq_true, if_false]
      exact ⟨h1, h2, h3, h4, h5, h6⟩
  | timeout => exact absurd he (by simp [LoadEvent.quiet])

theorem waiting_quiets (s0 s : State) (events : List LoadEvent) (h : Waiting s0 s)
    (he : ∀ e ∈ events, e.quiet) : Waiting s0 (loadEvents s events) := by
  induction events generalizing s with
  | nil => exact h
  | cons e rest ih =>
    exact ih (loadEvent s e) (waiting_quiet s0 s e h (he e (List.mem_cons_self _ _)))
      (fun d hd => he d (List.mem_cons_of_mem _ hd))

theorem timedOut_of_waiting (s0 s : State) (h : Waiting s0 s) :
    TimedOut s0 (loadEvent s .timeout) := by
  obtain ⟨h1, h2, h3, h4, h5, h6⟩ := h
  simp only [loadEvent, h2, if_true, rejectLoad, h1, Bool.false_eq_true, if_false]
  exact ⟨rfl, rfl, h3, by rw [h4], h5, h6⟩

theorem timedOut_step (s0 s : State) (e : LoadEvent) (h : TimedOut s0 s)
    (he : e.quiet ∨ e = .timeout) : TimedOut s0 (loadEvent s e) := by
  obtain ⟨h1, h2, h3, h4, h5, h6⟩ := h
  rcases he with he | rfl
  · cases e with
    | mutation slides =>
      have hs : slides = [] := he
      subst hs
      simp only [loadEvent, List.length_nil, gt_iff_lt, lt_self_iff_false, and_false, if_false]
      exact ⟨h1, h2, h3, h4, h5, h6⟩
    | processing slides => exact absurd he (by simp [LoadEvent.quiet])
    | errorCheck slides errorTexts =>
      obtain ⟨hs, ht⟩ : slides = 0 ∧ errorTexts = [] := he
      subst hs ht
      by_cases ha : s.errorCheckArmed = true
      · simp only [loadEvent, ha, if_true]
        exact ⟨h1, h2, h3, h4, h5, h6⟩
      · simp only [loadEvent, ha, Bool.false_eq_true, if_false]
        exact ⟨h1, h2, h3, h4, h5, h6⟩
    | timeout => exact absurd he (by simp [LoadEvent.quiet])
  · simp only [loadEvent, h2, Bool.false_eq_true, if_false]
    exact ⟨h1, h2, h3, h4, h5, h6⟩

theorem timedOut_steps (s0 s : State) (events : List LoadEvent) (h : TimedOut s0 s)
    (he : ∀ e ∈ events, e.quiet ∨ e = .timeout) : TimedOut s0 (loadEvents s events) := by
  induction events generalizing s with
  | nil => exact h
  | cons e rest ih =>
    exact ih (loadEvent s e) (timedOut_step s0 s e h (he e (List.mem_cons_self _ _)))
      (fun d hd => he d (List.mem_cons_of_mem _ hd))

/-- C18: a load is started on any handler state and the converter produces no slide and no
error element, whatever runs of the observer and of the error check happen before and
after; when the timeout of 30 seconds fires, onError is called once with the timeout
error; nothing else is ever signalled (onCompletion is not called), and the stored
presentation and pageCount() stay what they were before the load. -/
theorem timeout_fails_load (s : State) (before after : List LoadEvent)
    (hb : ∀ e ∈ before, e.quiet) (ha : ∀ e ∈ after, e.quiet ∨ e = .timeout) :
    (loadEvents (loadEvent (loadEvents (loadDocumentBegin s none) before) .timeout)
        after).loadSignals = s.loadSignals ++ [.error "Conversion timed out"] ∧
      (loadEvents (loadEvent (loadEvents (loadDocumentBegin s none) before) .timeout)
        after).pptxHtmlContent = s.pptxHtmlContent ∧
      pageCount (loadEvents (loadEvent (loadEvents (loadDocumentBegin s none) before) .timeout)
        after) = pageCount s := by
  have h1 := waiting_quiets s _ before (waiting_begin s) hb
  have h2 := timedOut_steps s _ after (timedOut_of_waiting s _ h1) ha
  exact ⟨h2.2.2.2.1, h2.2.2.2.2.1, h2.2.2.2.2.2⟩

/-- Worked example: on a fresh handler the observer runs once without slides, the error
check finds nothing, the timeout fires, and the observer runs once more. -/
theorem timeout_fails_load_witness :
    ((∀ e ∈ [LoadEvent.mutation [], LoadEvent.errorCheck 0 []], e.quiet) ∧
      (∀ e ∈ [LoadEvent.mutation [], LoadEvent.timeout], e.quiet ∨ e = .timeout)) ∧
    ((loadEvents (loadEvent (loadEvents (loadDocumentBegin (init blankCanvas) none)
          [LoadEvent.mutation [], LoadEvent.errorCheck 0 []]) .timeout)
        [LoadEvent.mutation [], LoadEvent.timeout]).loadSignals =
        (init blankCanvas).loadSignals ++ [.error "Conversion timed out"] ∧
      (loadEvents (loadEvent (loadEvents (loadDocumentBegin (init blankCanvas) none)
          [LoadEvent.mutation [], LoadEvent.errorCheck 0 []]) .timeout)
        [LoadEvent.mutation [], LoadEvent.timeout]).pptxHtmlContent =
        (init blankCanvas).pptxHtmlContent ∧
      pageCount (loadEvents (loadEvent (loadEvents (loadDocumentBegin (init blankCanvas) none)
          [LoadEvent.mutation [], LoadEvent.errorCheck 0 []]) .timeout)
        [LoadEvent.mutation [], LoadEvent.timeout]) = pageCount (init blankCanvas)) :=
  have hb : ∀ e ∈ [LoadEvent.mutation [], LoadEvent.errorCheck 0 []], e.quiet := by
    intro e he
    simp only [List.mem_cons, List.mem_singleton, List.not_mem_nil, or_false] at he
    rcases he with rfl | rfl
    · exact rfl
    · exact ⟨rfl, rfl⟩
  have ha : ∀ e ∈ [LoadEvent.mutation [], LoadEvent.timeout], e.quiet ∨ e = .timeout := by
    intro e he
    simp only [List.mem_cons, List.mem_singleton, List.not_mem_nil, or_false] at he
    rcases he with rfl | rfl
    · exact Or.inl rfl
    · exact Or.inr rfl
  ⟨⟨hb, ha⟩, timeout_fails_load (init blankCanvas) _ _ hb ha⟩

end Optimized


/-! ## Quarter turns and the rectangles drawn -/

/-- The table of `rotatePoint` agrees with the sine and cosine of the angle. -/
theorem rotatePoint_trig (rotation : ℤ)
    (hrot : rotation = 0 ∨ rotation = 90 ∨ rotation = 180 ∨ rotation = 270) (p : ℚ × ℚ) :
    ∃ q, rotatePoint rotation p = some q ∧
      (q.1 : ℝ) = p.1 * Real.cos (rotation * Real.pi / 180) -
        p.2 * Real.sin (rotation * Real.pi / 180) ∧
      (q.2 : ℝ) = p.1 * Real.sin (rotation * Real.pi / 180) +
        p.2 * Real.cos (rotation * Real.pi / 180) := by
  rcases hrot with rfl | rfl | rfl | rfl
  · refine ⟨p, rfl, ?_, ?_⟩ <;> simp
  · have ha : (((90 : ℤ) : ℝ) * Real.pi / 180) = Real.pi / 2 := by push_cast; ring
    refine ⟨(-p.2, p.1), rfl, ?_, ?_⟩ <;> rw [ha] <;> simp
  · have ha : (((180 : ℤ) : ℝ) * Real.pi / 180) = Real.pi := by push_cast; ring
    refine ⟨(-p.1, -p.2), rfl, ?_, ?_⟩ <;> rw [ha] <;> simp
  · have ha : (((270 : ℤ) : ℝ) * Real.pi / 180) = Real.pi / 2 + Real.pi := by push_cast; ring
    refine ⟨(p.2, -p.1), rfl, ?_, ?_⟩ <;> rw [ha, Real.cos_add, Real.sin_add] <;> simp

namespace Final

/-- For a quarter turn and any canvas size, the rectangle drawn covers exactly the canvas
rectangle. -/
theorem drawImageCall_covers (finalWidth finalHeight : ℚ) (rotation : ℤ)
    (hrot : rotation = 0 ∨ rotation = 90 ∨ rotation = 180 ∨ rotation = 270) (p : ℚ × ℚ) :
    (drawImageCall finalWidth finalHeight rotation).covers p ↔
      Rect.contains { x := 0, y := 0, w := finalWidth, h := finalHeight } p := by
  obtain ⟨p1, p2⟩ := p
  rcases hrot with rfl | rfl | rfl | rfl
  · simp only [drawImageCall, DrawCall.covers, Rect.contains, Transform.image]
    constructor
    · rintro ⟨⟨q1, q2⟩, hq, he⟩
      simp only [ne_eq, not_true_eq_false, if_false, Option.some.injEq, Prod.mk.injEq] at he hq
      obtain ⟨rfl, rfl⟩ := he
      exact hq
    · intro h
      exact ⟨(p1, p2), by simpa using h, by simp⟩
  · simp only [drawImageCall, DrawCall.covers, Rect.contains, Transform.image, rotatePoint]
    constructor
    · rintro ⟨⟨q1, q2⟩, hq, he⟩
      norm_num at he hq
      obtain ⟨rfl, rfl⟩ := he
      norm_num
      refine ⟨?_, ?_, ?_, ?_⟩ <;> linarith [hq.1, hq.2.1, hq.2.2.1, hq.2.2.2]
    · intro h
      norm_num at h
      refine ⟨(p2 - finalHeight / 2, finalWidth / 2 - p1), ?_, ?_⟩
      · norm_num
        refine ⟨?_, ?_, ?_, ?_⟩ <;> linarith [h.1, h.2.1, h.2.2.1, h.2.2.2]
      · norm_num
  · simp only [drawImageCall, DrawCall.covers, Rect.contains, Transform.image, rotatePoint]
    constructor
    · rintro ⟨⟨q1, q2⟩, hq, he⟩
      norm_num at he hq
      obtain ⟨rfl, rfl⟩ := he
      norm_num
      refine ⟨?_, ?_, ?_, ?_⟩ <;> linarith [hq.1, hq.2.1, hq.2.2.1, hq.2.2.2]
    · intro h
      norm_num at h
      refine ⟨(finalWidth / 2 - p1, finalHeight / 2 - p2), ?_, ?_⟩
      · norm_num
        refine ⟨?_, ?_, ?_, ?_⟩ <;> linarith [h.1, h.2.1, h.2.2.1, h.2.2.2]
      · norm_num
  · simp only [drawImageCall, DrawCall.covers, Rect.contains, Transform.image, rotatePoint]
    constructor
    · rintro ⟨⟨q1, q2⟩, hq, he⟩
      norm_num at he hq
      obtain ⟨rfl, rfl⟩ := he
      norm_num
      refine ⟨?_, ?_, ?_, ?_⟩ <;> linarith [hq.1, hq.2.1, hq.2.2.1, hq.2.2.2]
    · intro h
      norm_num at h
      refine ⟨(finalHeight / 2 - p2, p1 - finalWidth / 2), ?_, ?_⟩
      · norm_num
        refine ⟨?_, ?_, ?_, ?_⟩ <;> linarith [h.1, h.2.1, h.2.2.1, h.2.2.2]
      · norm_num

/-- C21: for each rotation in 0, 90, 180, 270 and the canvas size W by H computed for any
scale, the rectangle passed to drawImage, mapped through the context transform in force
(identity for 0, translate to (W/2, H/2) then rotation otherwise), covers exactly the
canvas rectangle from (0, 0) to (W, H): a canvas point is painted if and only if it lies
in that rectangle. -/
theorem redraw_draw_fills_canvas (scale : ℚ) (rotation : ℤ)
    (hrot : rotation = 0 ∨ rotation = 90 ∨ rotation = 180 ∨ rotation = 270) (p : ℚ × ℚ) :
    (redrawDrawCall scale rotation).covers p ↔
      Rect.contains
        { x := 0, y := 0, w := (finalSize scale rotation).1, h := (finalSize scale rotation).2 }
        p :=
  drawImageCall_covers _ _ rotation hrot p

/-- Worked example: scale 3/2, rotation 270, the canvas point (10, 20). -/
theorem redraw_draw_fills_canvas_witness :
    ((270 : ℤ) = 0 ∨ (270 : ℤ) = 90 ∨ (270 : ℤ) = 180 ∨ (270 : ℤ) = 270) ∧
      ((redrawDrawCall (3 / 2) 270).covers (10, 20) ↔
        Rect.contains
          { x := 0, y := 0, w := (finalSize (3 / 2) 270).1, h := (finalSize (3 / 2) 270).2 }
          (10, 20)) :=
  ⟨by decide, redraw_draw_fills_canvas (3 / 2) 270 (by decide) (10, 20)⟩

/-- `Math.round` of a number that is at most an integer is at most that integer. -/
theorem mathRound_le_of_le (x : ℚ) (n : ℤ) (h : x ≤ n) : mathRound x ≤ n := by
  unfold mathRound
  have h1 : ⌊x + 1 / 2⌋ < n + 1 := by
    rw [Int.floor_lt]
    push_cast
    linarith
  omega

/-- `Math.round` of an integer is that integer. -/
theorem mathRound_intCast (n : ℤ) : mathRound (n : ℚ) = n := by
  unfold mathRound
  rw [Int.floor_eq_iff]
  constructor <;> linarith

/-- C24: for a viewer panel with integer clientWidth and clientHeight (in particular
both greater than 40), the redraw issued by fitToViewport on a loaded presentation, when
rasterization succeeds, sets the canvas to a width of at most clientWidth − 40 and a
height of at most clientHeight − 40, and one of the two is exactly its bound. -/
theorem fitToViewport_fits (s : State) (p : Presentation) (html : String)
    (clientWidth clientHeight : ℤ)
    (hp : s.pptxHtmlContent = some p) (hs : arrayAt p.slides 0 = some html) (hne : html ≠ "") :
    (fitToViewport s (some (clientWidth, clientHeight)) .resolved).canvas.width ≤
        ((clientWidth - 40 : ℤ) : ℚ) ∧
      (fitToViewport s (some (clientWidth, clientHeight)) .resolved).canvas.height ≤
        ((clientHeight - 40 : ℤ) : ℚ) ∧
      ((fitToViewport s (some (clientWidth, clientHeight)) .resolved).canvas.width =
          ((clientWidth - 40 : ℤ) : ℚ) ∨
        (fitToViewport s (some (clientWidth, clientHeight)) .resolved).canvas.height =
          ((clientHeight - 40 : ℤ) : ℚ)) := by
  have hfit : fitToViewport s (some (clientWidth, clientHeight)) .resolved =
      redraw s (min (((clientWidth : ℚ) - 40) / 1280) (((clientHeight : ℚ) - 40) / 720)) 0 0
        .resolved := by
    simp only [fitToViewport, hp]
  rw [hfit, final_redraw_resolved s p html _ 0 0 hp hs hne]
  have hq : ¬ ((0 : ℤ) = 90 ∨ (0 : ℤ) = 270) := by decide
  simp only [finalSize, if_neg hq]
  have hcw : ((clientWidth - 40 : ℤ) : ℚ) = (clientWidth : ℚ) - 40 := by push_cast; ring
  have hch : ((clientHeight - 40 : ℤ) : ℚ) = (clientHeight : ℚ) - 40 := by push_cast; ring
  have h1 : 1280 * min (((clientWidth : ℚ) - 40) / 1280) (((clientHeight : ℚ) - 40) / 720) ≤
      ((clientWidth - 40 : ℤ) : ℚ) := by
    have := min_le_left (((clientWidth : ℚ) - 40) / 1280) (((clientHeight : ℚ) - 40) / 720)
    rw [hcw]
    linarith
  have h2 : 720 * min (((clientWidth : ℚ) - 40) / 1280) (((clientHeight : ℚ) - 40) / 720) ≤
      ((clientHeight - 40 : ℤ) : ℚ) := by
    have := min_le_right (((clientWidth : ℚ) - 40) / 1280) (((clientHeight : ℚ) - 40) / 720)
    rw [hch]
    linarith
  refine ⟨?_, ?_, ?_⟩
  · exact_mod_cast mathRound_le_of_le _ _ h1
  · exact_mod_cast mathRound_le_of_le _ _ h2
  · rcases min_choice (((clientWidth : ℚ) - 40) / 1280) (((clientHeight : ℚ) - 40) / 720) with
      hm | hm
    · left
      have hx : 1280 * (((clientWidth : ℚ) - 40) / 1280) = ((clientWidth - 40 : ℤ) : ℚ) := by
        rw [hcw]; ring
      rw [hm, hx, mathRound_intCast]
    · right
      have hx : 720 * (((clientHeight : ℚ) - 40) / 720) = ((clientHeight - 40 : ℤ) : ℚ) := by
        rw [hch]; ring
      rw [hm, hx, mathRound_intCast]

/-- Worked example: a one-slide document in a viewer panel of 1000 by 800. -/
theorem fitToViewport_fits_witness :
    ((loadDocument (init blankCanvas) ["<div class=slide>A</div>"]).pptxHtmlContent =
        some { slides := ["<div class=slide>A</div>"], width := 1280, height := 720 } ∧
      arrayAt ["<div class=slide>A</div>"] 0 = some "<div class=slide>A</div>" ∧
      "<div class=slide>A</div>" ≠ "") ∧
    ((fitToViewport (loadDocument (init blankCanvas) ["<div class=slide>A</div>"])
          (some (1000, 800)) .resolved).canvas.width ≤ (((1000 : ℤ) - 40 : ℤ) : ℚ) ∧
      (fitToViewport (loadDocument (init blankCanvas) ["<div class=slide>A</div>"])
          (some (1000, 800)) .resolved).canvas.height ≤ (((800 : ℤ) - 40 : ℤ) : ℚ) ∧
      ((fitToViewport (loadDocument (init blankCanvas) ["<div class=slide>A</div>"])
            (some (1000, 800)) .resolved).canvas.width = (((1000 : ℤ) - 40 : ℤ) : ℚ) ∨
        (fitToViewport (loadDocument (init blankCanvas) ["<div class=slide>A</div>"])
            (some (1000, 800)) .resolved).canvas.height = (((800 : ℤ) - 40 : ℤ) : ℚ))) :=
  ⟨⟨rfl, by decide, by decide⟩,
    fitToViewport_fits (loadDocument (init blankCanvas) ["<div class=slide>A</div>"])
      { slides := ["<div class=slide>A</div>"], width := 1280, height := 720 }
      "<div class=slide>A</div>" 1000 800 rfl (by decide) (by decide)⟩

end Final

namespace DebugLast

/-- C22: for every w and h and every rotation in 0, 90, 180, 270, with (cw, ch, cx, cy)
returned by calcCanvasCorrections(w, h, rotation), the rectangle from (cx, cy) of width w
and height h, rotated about the origin by the rotation angle as redraw does before
drawImage, covers exactly the rectangle from (0, 0) to (cw, ch); and cw = h, ch = w for 90
and 270, cw = w, ch = h for 0 and 180. -/
theorem calcCanvasCorrections_fills (w h : ℚ) (rotation : ℤ)
    (hrot : rotation = 0 ∨ rotation = 90 ∨ rotation = 180 ∨ rotation = 270) :
    (∀ p, (drawImageCall w h rotation).covers p ↔
        Rect.contains
          { x := 0, y := 0, w := (calcCanvasCorrections w h rotation).cw,
            h := (calcCanvasCorrections w h rotation).ch } p) ∧
      ((rotation = 90 ∨ rotation = 270) →
        (calcCanvasCorrections w h rotation).cw = h ∧
          (calcCanvasCorrections w h rotation).ch = w) ∧
      ((rotation = 0 ∨ rotation = 180) →
        (calcCanvasCorrections w h rotation).cw = w ∧
          (calcCanvasCorrections w h rotation).ch = h) := by
  refine ⟨?_, ?_, ?_⟩
  · rintro ⟨p1, p2⟩
    rcases hrot with rfl | rfl | rfl | rfl
    · simp only [drawImageCall, calcCanvasCorrections, DrawCall.covers, Rect.contains,
        Transform.image]
      constructor
      · rintro ⟨⟨q1, q2⟩, hq, he⟩
        norm_num at he hq
        obtain ⟨rfl, rfl⟩ := he
        norm_num
        exact hq
      · intro h0
        norm_num at h0
        exact ⟨(p1, p2), by norm_num; exact h0, by norm_num⟩
    · simp only [drawImageCall, calcCanvasCorrections, DrawCall.covers, Rect.contains,
        Transform.image, rotatePoint]
      constructor
      · rintro ⟨⟨q1, q2⟩, hq, he⟩
        norm_num at he hq
        obtain ⟨rfl, rfl⟩ := he
        norm_num
        refine ⟨?_, ?_, ?_, ?_⟩ <;> linarith [hq.1, hq.2.1, hq.2.2.1, hq.2.2.2]
      · intro h0
        norm_num at h0
        refine ⟨(p2, -p1), ?_, ?_⟩
        · norm_num
          refine ⟨?_, ?_, ?_, ?_⟩ <;> linarith [h0.1, h0.2.1, h0.2.2.1, h0.2.2.2]
        · norm_num
    · simp only [drawImageCall, calcCanvasCorrections, DrawCall.covers, Rect.contains,
        Transform.image, rotatePoint]
      constructor
      · rintro ⟨⟨q1, q2⟩, hq, he⟩
        norm_num at he hq
        obtain ⟨rfl, rfl⟩ := he
        norm_num
        refine ⟨?_, ?_, ?_, ?_⟩ <;> linarith [hq.1, hq.2.1, hq.2.2.1, hq.2.2.2]
      · intro h0
        norm_num at h0
        refine ⟨(-p1, -p2), ?_, ?_⟩
        · norm_num
          refine ⟨?_, ?_, ?_, ?_⟩ <;> linarith [h0.1, h0.2.1, h0.2.2.1, h0.2.2.2]
        · norm_num
    · simp only [drawImageCall, calcCanvasCorrections, DrawCall.covers, Rect.contains,
        Transform.image, rotatePoint]
      constructor
      · rintro ⟨⟨q1, q2⟩, hq, he⟩
        norm_num at he hq
        obtain ⟨rfl, rfl⟩ := he
        norm_num
        refine ⟨?_, ?_, ?_, ?_⟩ <;> linarith [hq.1, hq.2.1, hq.2.2.1, hq.2.2.2]
      · intro h0
        norm_num at h0
        refine ⟨(-p2, p1), ?_, ?_⟩
        · norm_num
          refine ⟨?_, ?_, ?_, ?_⟩ <;> linarith [h0.1, h0.2.1, h0.2.2.1, h0.2.2.2]
        · norm_num
  · rintro (rfl | rfl) <;> simp [calcCanvasCorrections]
  · rintro (rfl | rfl) <;> simp [calcCanvasCorrections]

/-- Worked example: a bitmap of 300 by 200 at rotation 90. -/
theorem calcCanvasCorrections_fills_witness :
    ((90 : ℤ) = 0 ∨ (90 : ℤ) = 90 ∨ (90 : ℤ) = 180 ∨ (90 : ℤ) = 270) ∧
      ((∀ p, (drawImageCall 300 200 90).covers p ↔
          Rect.contains
            { x := 0, y := 0, w := (calcCanvasCorrections 300 200 90).cw,
              h := (calcCanvasCorrections 300 200 90).ch } p) ∧
        (((90 : ℤ) = 90 ∨ (90 : ℤ) = 270) →
          (calcCanvasCorrections 300 200 90).cw = 200 ∧
            (calcCanvasCorrections 300 200 90).ch = 300) ∧
        (((90 : ℤ) = 0 ∨ (90 : ℤ) = 180) →
          (calcCanvasCorrections 300 200 90).cw = 300 ∧
            (calcCanvasCorrections 300 200 90).ch = 200)) :=
  ⟨by decide, calcCanvasCorrections_fills 300 200 90 (by decide)⟩

end DebugLast

/-! ## Thumbnails -/

theorem arraySet_getD {α : Type} (xs : List (Option α)) (i o : ℕ) (v : α) :
    (arraySet xs i v).getD o none = if o = i then some v else xs.getD o none := by
  induction xs generalizing i o with
  | nil =>
    induction i generalizing o with
    | zero => cases o <;> simp [arraySet]
    | succ i ih =>
      cases o with
      | zero => simp [arraySet]
      | succ o => simpa [arraySet] using ih o
  | cons x xs ih =>
    cases i with
    | zero => cases o <;> simp [arraySet]
    | succ i =>
      cases o with
      | zero => simp [arraySet]
      | succ o => simpa [arraySet] using ih i o

theorem validCanvases_of_getD {α : Type} (xs : List (Option α)) :
    ∀ (k : ℕ) (f : ℕ → α),
      (∀ o, xs.getD o none = if o < k then some (f o) else none) →
      validCanvases xs = (List.range k).map f := by
  induction xs with
  | nil =>
    intro k f h
    have h0 := h 0
    rcases Nat.eq_zero_or_pos k with hk | hk
    · subst hk; simp [validCanvases]
    · simp [hk] at h0
  | cons x xs ih =>
    intro k f h
    have h0 := h 0
    have hs : ∀ o, xs.getD o none = if o + 1 < k then some (f (o + 1)) else none := by
      intro o
      have := h (o + 1)
      simpa using this
    cases k with
    | zero =>
      have hx : x = none := by simpa using h0
      have := ih 0 f (by intro o; simpa using hs o)
      simp only [validCanvases] at this ⊢
      simp [hx, this]
    | succ k =>
      have hx : x = some (f 0) := by simpa using h0
      have := ih k (fun o => f (o + 1)) (by intro o; simpa using hs o)
      simp only [validCanvases] at this ⊢
      rw [List.range_succ_eq_map]
      simp [hx, this, Function.comp_def]

theorem checkCompletion_of_lt (j : ThumbnailJob)
    (h : (j.processedCount : ℤ) < j.toPage - j.fromPage + 1) :
    j.checkCompletion = j := by
  unfold ThumbnailJob.checkCompletion
  rw [if_neg (not_le.mpr h)]

theorem checkCompletion_of_ge (j : ThumbnailJob)
    (h : j.toPage - j.fromPage + 1 ≤ (j.processedCount : ℤ)) :
    j.checkCompletion = { j with callbacks := j.callbacks ++ [validCanvases j.canvases] } := by
  unfold ThumbnailJob.checkCompletion
  rw [if_pos h]

theorem createLoop_append (slides : Option (List String)) (xs ys : List ℕ) :
    ∀ j : ThumbnailJob,
      createLoop slides (xs ++ ys) j =
        (match createLoop slides xs j with
         | .error e => .error e
         | .ok j1 => createLoop slides ys j1) := by
  induction xs with
  | nil => intro j; simp [createLoop]
  | cons i rest ih =>
    intro j
    cases slides with
    | none => simp [createLoop]
    | some stored =>
      simp only [List.cons_append, createLoop]
      cases hsi : stored[i]? with
      | none => simp only []; exact ih _
      | some slideHtml =>
        simp only []
        split
        · exact ih _
        · exact ih _

theorem createLoop_present (stored : List String) (hne : ∀ h ∈ stored, h ≠ "") (m : ℕ) :
    ∀ (a : ℕ) (j : ThumbnailJob), a + m ≤ stored.length →
      createLoop (some stored) (List.range' a m) j =
        .ok { j with pending := j.pending ++ List.range' a m } := by
  induction m with
  | zero => intro a j _; simp [createLoop]
  | succ m ih =>
    intro a j ha
    have hlt : a < stored.length := by omega
    have hget : stored[a]? = some stored[a] := List.getElem?_eq_getElem hlt
    have hnz : stored[a] ≠ "" := hne _ (List.getElem_mem hlt)
    rw [List.range'_succ]
    simp only [createLoop, hget, if_neg hnz]
    rw [ih (a + 1) _ (by omega)]
    simp [List.append_assoc]

namespace Enhanced

theorem thumbnails_fold (rendered : ℕ → Bool) (fromPage k c0 : ℕ) (toPage : ℤ)
    (hT : toPage - fromPage + 1 = (c0 : ℤ) + k) (rest : List ℕ) :
    ∀ (done : List ℕ) (j : ThumbnailJob),
      j.fromPage = fromPage → j.toPage = toPage → j.callbacks = [] →
      j.processedCount = c0 + done.length →
      (∀ o, j.canvases.getD o none =
        if fromPage + o ∈ done then some (thumbnailFor (fromPage + o) (rendered (fromPage + o)))
        else none) →
      (∀ i ∈ rest, fromPage ≤ i) → done.length + rest.length = k → rest ≠ [] →
      (rest.foldl (fun j i => thumbnailDone j i (rendered i)) j).callbacks =
          [validCanvases (rest.foldl (fun j i => thumbnailDone j i (rendered i)) j).canvases] ∧
        ∀ o, (rest.foldl (fun j i => thumbnailDone j i (rendered i)) j).canvases.getD o none =
          if fromPage + o ∈ done ++ rest then
            some (thumbnailFor (fromPage + o) (rendered (fromPage + o)))
          else none := by
  induction rest with
  | nil => intro done j _ _ _ _ _ _ _ h; exact absurd rfl h
  | cons i rest ih =>
    intro done j hf ht hc hp hcan hge hlen _
    have hi : fromPage ≤ i := hge i (List.mem_cons_self _ _)
    obtain ⟨j0, hj0⟩ : ∃ j0 : ThumbnailJob, j0 =
        { j with
          canvases := arraySet j.canvases (i - j.fromPage) (thumbnailFor i (rendered i))
          pending := j.pending.erase i
          processedCount := j.processedCount + 1 } := ⟨_, rfl⟩
    have hstep : thumbnailDone j i (rendered i) = j0.checkCompletion := by
      rw [hj0]; rfl
    have hcan0 : ∀ o, j0.canvases.getD o none =
        if fromPage + o ∈ done ++ [i] then
          some (thumbnailFor (fromPage + o) (rendered (fromPage + o)))
        else none := by
      intro o
      rw [hj0]
      simp only [arraySet_getD, hf, hcan o, List.mem_append, List.mem_singleton]
      by_cases ho : o = i - fromPage
      · have : fromPage + o = i := by omega
        rw [if_pos ho, if_pos (Or.inr this), this]
      · have : fromPage + o ≠ i := by omega
        simp [ho, this]
    have hf0 : j0.fromPage = fromPage := by rw [hj0]; exact hf
    have ht0 : j0.toPage = toPage := by rw [hj0]; exact ht
    have hc0 : j0.callbacks = [] := by rw [hj0]; exact hc
    have hp0 : j0.processedCount = c0 + (done ++ [i]).length := by
      rw [hj0]; simp [hp]; omega
    simp only [List.foldl_cons, hstep]
    rcases List.eq_nil_or_concat rest with hr | ⟨r, x, hr⟩
    · subst hr
      have hfire : j0.toPage - j0.fromPage + 1 ≤ (j0.processedCount : ℤ) := by
        rw [ht0, hf0, hT, hp0]
        simp at hlen ⊢
        omega
      rw [checkCompletion_of_ge j0 hfire]
      simp only [List.foldl_nil]
      exact ⟨by simp [hc0], hcan0⟩
    · have hrne : rest ≠ [] := by rw [hr]; simp
      have hquiet : (j0.processedCount : ℤ) < j0.toPage - j0.fromPage + 1 := by
        rw [ht0, hf0, hT, hp0]
        have : 0 < rest.length := List.length_pos.mpr hrne
        simp at hlen ⊢
        omega
      rw [checkCompletion_of_lt j0 hquiet]
      have := ih (done ++ [i]) j0 hf0 ht0 hc0 hp0 hcan0
        (fun a ha => hge a (List.mem_cons_of_mem _ ha)) (by simp at hlen ⊢; omega) hrne
      simpa [List.append_assoc] using this

theorem createCanvasesBegin_loaded (s : State) (p : Presentation) (fromPage pageCount : ℕ)
    (hp : s.pptxHtmlContent = some p) (hcount : s.slideCount = p.slides.length)
    (hne : ∀ h ∈ p.slides, h ≠ "") (hfrom : fromPage < p.slides.length)
    (hpc : 1 ≤ pageCount) :
    ∃ (job : ThumbnailJob) (c0 : ℕ), createCanvasesBegin s fromPage pageCount = .ok job ∧
      job.fromPage = fromPage ∧
      job.toPage - fromPage + 1 = (c0 : ℤ) + min (p.slides.length - fromPage) pageCount ∧
      job.callbacks = [] ∧ job.processedCount = c0 ∧ job.canvases = [] ∧
      job.pending = List.range' fromPage (min (p.slides.length - fromPage) pageCount) := by
  have hpc0 : pageCount ≠ 0 := by omega
  unfold createCanvasesBegin createCanvasesLoop
  simp only [hp, Option.map_some', Enhanced.pageCount, hcount, if_neg hpc0]
  rcases Nat.lt_or_ge (p.slides.length) (fromPage + pageCount) with hcase | hcase
  · -- the loop runs up to index n, which holds no slide
    have hmin : min (p.slides.length : ℤ) ((fromPage : ℤ) + pageCount - 1) = p.slides.length := by
      apply min_eq_left; omega
    have hk : min (p.slides.length - fromPage) pageCount = p.slides.length - fromPage := by
      apply min_eq_left; omega
    have hn : ((p.slides.length : ℤ) - fromPage + 1).toNat = (p.slides.length - fromPage) + 1 := by
      omega
    rw [hmin, hn, hk, List.range'_concat, createLoop_append,
      createLoop_present p.slides hne _ fromPage _ (by omega)]
    have hlast : fromPage + 1 * (p.slides.length - fromPage) = p.slides.length := by omega
    have hnone : p.slides[p.slides.length]? = none := List.getElem?_eq_none (le_refl _)
    simp only [hlast, createLoop, hnone]
    rw [checkCompletion_of_lt _ (by simp; omega)]
    exact ⟨_, 1, rfl, rfl, by simp; omega, rfl, rfl, rfl, by simp⟩
  · have hmin : min (p.slides.length : ℤ) ((fromPage : ℤ) + pageCount - 1) =
        (fromPage : ℤ) + pageCount - 1 := by
      apply min_eq_right; omega
    have hk : min (p.slides.length - fromPage) pageCount = pageCount := by
      apply min_eq_right; omega
    have hn : ((fromPage : ℤ) + pageCount - 1 - fromPage + 1).toNat = pageCount := by omega
    rw [hmin, hn, hk, createLoop_present p.slides hne _ fromPage _ (by omega)]
    exact ⟨_, 0, rfl, rfl, by simp; omega, rfl, rfl, rfl, by simp⟩

/-- C28: on a loaded presentation of n slides (each stored slide is the non-empty
outerHTML of an element), for fromPage < n and pageCount ≥ 1, createCanvases starts one
rasterization for each slide index from fromPage to min(n − 1, fromPage + pageCount − 1);
in whatever order these complete and whichever of them fail, the callback is called
exactly once, with exactly one thumbnail (rendered, or the fallback on failure) for each
of these indices, in increasing index order. -/
theorem createCanvases_one_thumbnail_per_slide (s : State) (p : Presentation)
    (fromPage pageCount : ℕ) (order : List ℕ) (rendered : ℕ → Bool)
    (hp : s.pptxHtmlContent = some p) (hcount : s.slideCount = p.slides.length)
    (hne : ∀ h ∈ p.slides, h ≠ "") (hfrom : fromPage < p.slides.length)
    (hpc : 1 ≤ pageCount)
    (horder : order.Perm (List.range' fromPage (min (p.slides.length - fromPage) pageCount))) :
    (∃ job, createCanvasesBegin s fromPage pageCount = .ok job ∧ job.callbacks = [] ∧
      job.pending = List.range' fromPage (min (p.slides.length - fromPage) pageCount)) ∧
    ∃ job, createCanvases s fromPage pageCount order rendered = .ok job ∧
      job.callbacks =
        [(List.range' fromPage (min (p.slides.length - fromPage) pageCount)).map
          fun i => thumbnailFor i (rendered i)] := by
  obtain ⟨job0, c0, hbegin, hf, hT, hc, hcnt, hcan, hpend⟩ :=
    createCanvasesBegin_loaded s p fromPage pageCount hp hcount hne hfrom hpc
  refine ⟨⟨job0, hbegin, hc, hpend⟩, ?_⟩
  have hkpos : 0 < min (p.slides.length - fromPage) pageCount := by
    apply lt_min <;> omega
  have hlen : order.length = min (p.slides.length - fromPage) pageCount := by
    rw [horder.length_eq, List.length_range']
  have hmem : ∀ i, i ∈ order ↔
      fromPage ≤ i ∧ i < fromPage + min (p.slides.length - fromPage) pageCount := by
    intro i
    rw [horder.mem_iff, List.mem_range'_1]
  have hfold := thumbnails_fold rendered fromPage _ c0 job0.toPage hT order [] job0 hf rfl hc
    (by simpa using hcnt) (by intro o; simp [hcan]) (fun i hi => ((hmem i).mp hi).1)
    (by simpa using hlen) (by intro h; rw [h] at hlen; simp at hlen; omega)
  refine ⟨_, by unfold createCanvases; rw [hbegin], ?_⟩
  rw [hfold.1]
  rw [validCanvases_of_getD _ (min (p.slides.length - fromPage) pageCount)
    (fun o => thumbnailFor (fromPage + o) (rendered (fromPage + o)))]
  · rw [List.range'_eq_map_range, List.map_map]; rfl
  · intro o
    rw [hfold.2 o]
    simp only [List.nil_append, hmem]
    by_cases ho : o < min (p.slides.length - fromPage) pageCount
    · rw [if_pos ⟨by omega, by omega⟩, if_pos ho]
    · rw [if_neg (by omega), if_neg ho]

end Enhanced

/-! ## The enhanced handler: thumbnails of the debug variant, positioning fix, metrics,
the scale remembered for zooming -/

namespace Enhanced

theorem createCanvases_one_thumbnail_per_slide_witness :
    (threeSlides.pptxHtmlContent =
        some { slides := ["<div class=slide>A</div>", "<div class=slide>B</div>",
                          "<div class=slide>C</div>"], width := 1280, height := 720 } ∧
      [2, 1].Perm (List.range' 1 (min (3 - 1) 5))) ∧
    ((∃ job, createCanvasesBegin threeSlides 1 5 = .ok job ∧ job.callbacks = [] ∧
        job.pending = List.range' 1 (min (3 - 1) 5)) ∧
      ∃ job, createCanvases threeSlides 1 5 [2, 1] (fun i => decide (i = 1)) = .ok job ∧
        job.callbacks =
          [(List.range' 1 (min (3 - 1) 5)).map fun i => thumbnailFor i (decide (i = 1))]) :=
  ⟨⟨rfl, by decide⟩,
    createCanvases_one_thumbnail_per_slide threeSlides
      { slides := ["<div class=slide>A</div>", "<div class=slide>B</div>",
                   "<div class=slide>C</div>"], width := 1280, height := 720 }
      1 5 [2, 1] (fun i => decide (i = 1)) rfl rfl (by decide) (by decide) (by decide)
      (by decide)⟩

end Enhanced

namespace DebugFirst

/-- C25 (the code departs from the claim): on a loaded presentation of three slides,
createCanvases of the enhanced handler from page 0 for 3 pages, all rasterizations
succeeding, passes three thumbnails to the callback; createCanvases of the first handler
of pptx_debug_handler.js passes the empty list. -/
theorem createCanvases_passes_no_thumbnail :
    createCanvases 0 3 = [[]] ∧
      (∃ job, Enhanced.createCanvases Enhanced.threeSlides 0 3 [0, 1, 2] (fun _ => true) =
          .ok job ∧
        job.callbacks = [[Thumbnail.rendered 0, Thumbnail.rendered 1, Thumbnail.rendered 2]]) :=
  ⟨rfl, _, rfl, by decide⟩

end DebugFirst

namespace Enhanced

theorem parseInt_neg_half : parseInt (-1 / 2) = 0 := by
  unfold parseInt
  have h : ¬ (0 : ℚ) ≤ -1 / 2 := by norm_num
  have hf : ⌊-(-1 / 2 : ℚ)⌋ = 0 := by
    rw [Int.floor_eq_iff]; constructor <;> norm_num
  rw [if_neg h, hf]; rfl

/-- C26 (the code departs from the claim): an element whose inline top is -0.5px is left
unchanged by comprehensiveContentFix, because `parseInt` reads -0, which is not below 0:
its top is still negative afterwards. -/
theorem fractional_negative_top_kept :
    comprehensiveContentFix [[{ top := some (-1 / 2), translateY := none }]] =
        [[{ top := some (-1 / 2), translateY := none }]] ∧
      (-1 / 2 : ℚ) < 0 := by
  refine ⟨?_, by norm_num⟩
  simp [comprehensiveContentFix, fixElement, parseInt_neg_half]

/-- The part of C26 on `translateY` holds: after the fix no matched value is below -50. -/
theorem fixElement_translateY_ge (element : StyledElement) (t : ℚ)
    (h : (fixElement element).translateY = some t) : -50 ≤ t := by
  unfold fixElement at h
  have key : ∀ e : StyledElement,
      (match e.translateY with
        | some translateY =>
            if translateY < -50 then
              { e with translateY := some (max (-50) (translateY + 50)) }
            else e
        | none => e).translateY = some t → -50 ≤ t := by
    intro e he
    cases hty : e.translateY with
    | none => rw [hty] at he; simp [hty] at he
    | some ty =>
      rw [hty] at he
      by_cases hlt : ty < -50
      · simp only [if_pos hlt] at he
        have : max (-50) (ty + 50) = t := by simpa using he
        rw [← this]; exact le_max_left _ _
      · simp only [if_neg hlt, hty] at he
        have : ty = t := by simpa using he
        rw [← this]; exact not_lt.mp hlt
  exact key _ h

theorem metricsStep_bounds (slideRectTop : ℚ) (acc : ℚ × ℚ) (element : MeasuredElement)
    (h : acc.1 ≤ 0 ∧ 720 ≤ acc.2) :
    (metricsStep slideRectTop acc element).1 ≤ 0 ∧
      720 ≤ (metricsStep slideRectTop acc element).2 := by
  unfold metricsStep
  obtain ⟨h1, h2⟩ := h
  cases element.styleTop <;> cases element.translateY <;>
    ((try dsimp only); split_ifs <;>
      exact ⟨by first | exact h1 | (simp only [min_le_iff]; tauto),
        by first | exact h2 | (simp only [le_max_iff]; tauto)⟩)

theorem metricsLoop_bounds (slideRectTop : ℚ) (elements : List MeasuredElement) :
    (metricsLoop slideRectTop elements).1 ≤ 0 ∧ 720 ≤ (metricsLoop slideRectTop elements).2 := by
  unfold metricsLoop
  have key : ∀ (es : List MeasuredElement) (acc : ℚ × ℚ), acc.1 ≤ 0 ∧ 720 ≤ acc.2 →
      (es.foldl (metricsStep slideRectTop) acc).1 ≤ 0 ∧
        720 ≤ (es.foldl (metricsStep slideRectTop) acc).2 := by
    intro es
    induction es with
    | nil => intro acc h; exact h
    | cons e es ih => intro acc h; exact ih _ (metricsStep_bounds slideRectTop acc e h)
  exact key elements (0, 720) ⟨le_refl _, le_refl _⟩

/-- C27: for every non-null slide element, calculateEnhancedSlideMetrics returns
minTop ≤ 0, adjustmentNeeded = max(100, 50 − minTop) ≥ 100 and
totalHeight = maxBottom − minTop + 2 × adjustmentNeeded ≥ 920, where maxBottom ≥ 720;
so the 720 floor of totalHeight and the 1000 floor of renderHeight =
max(totalHeight + 200, 1000) in redraw do not bind. -/
theorem metrics_floors_never_bind (slideRectTop : ℚ) (elements : List MeasuredElement) :
    (calculateEnhancedSlideMetrics (some (slideRectTop, elements))).minTop ≤ 0 ∧
      (calculateEnhancedSlideMetrics (some (slideRectTop, elements))).adjustmentNeeded =
        max 100 (50 - (calculateEnhancedSlideMetrics (some (slideRectTop, elements))).minTop) ∧
      100 ≤ (calculateEnhancedSlideMetrics (some (slideRectTop, elements))).adjustmentNeeded ∧
      720 ≤ (metricsLoop slideRectTop elements).2 ∧
      (calculateEnhancedSlideMetrics (some (slideRectTop, elements))).totalHeight =
        (metricsLoop slideRectTop elements).2 -
          (calculateEnhancedSlideMetrics (some (slideRectTop, elements))).minTop +
          2 * (calculateEnhancedSlideMetrics (some (slideRectTop, elements))).adjustmentNeeded ∧
      920 ≤ (calculateEnhancedSlideMetrics (some (slideRectTop, elements))).totalHeight ∧
      max ((calculateEnhancedSlideMetrics (some (slideRectTop, elements))).totalHeight + 200)
          1000 =
        (calculateEnhancedSlideMetrics (some (slideRectTop, elements))).totalHeight + 200 := by
  obtain ⟨hmin, hmax⟩ := metricsLoop_bounds slideRectTop elements
  simp only [calculateEnhancedSlideMetrics]
  set minTop := (metricsLoop slideRectTop elements).1 with hminTop
  set maxBottom := (metricsLoop slideRectTop elements).2 with hmaxBottom
  have habs : |min 0 minTop| + 50 = 50 - minTop := by
    rw [min_eq_right hmin, abs_of_nonpos hmin]; ring
  have hadj : (100 : ℚ) ≤ max 100 (50 - minTop) := le_max_left _ _
  have htot : max 720 (maxBottom - minTop + max 100 (50 - minTop) * 2) =
      maxBottom - minTop + 2 * max 100 (50 - minTop) := by
    rw [max_eq_right (by linarith)]; ring
  rw [habs, htot]
  refine ⟨hmin, rfl, hadj, hmax, rfl, by linarith, ?_⟩
  rw [max_eq_left (by linarith)]

/-- C30 (the code departs from the claim): a one-slide document is loaded and rendered at
scale 1, then at scale 2, then at scale 1 again.  The third redraw is served from the
cache and returns before the tracking variables are written: all three redraws have
completed, the canvas shows the image of scale 1, and lastRenderedScale, which
zoomToScale uses as the current scale, is 2. -/
theorem cache_hit_keeps_stale_scale :
    zoomedInAndBack.completions.length = 3 ∧
      zoomedInAndBack.rasterLog.length = 2 ∧
      zoomedInAndBack.canvas.picture = .slide "<div class=slide>A</div>" true 1 0 ∧
      zoomedInAndBack.lastRenderedScale = 2 ∧
      currentScale zoomedInAndBack = 2 := by
  decide

end Enhanced

/-! ## The optimized handler: the canvas limit and the thumbnails -/

namespace Optimized

theorem oneSlideLoaded_content :
    oneSlideLoaded.pptxHtmlContent =
      some { slides := ["<div class=slide>A</div>"], width := 1280, height := 720 } := by
  have h1 : ¬ ((1280 : ℚ) < 100 ∨ (720 : ℚ) < 100) := by norm_num
  simp [oneSlideLoaded, loadEvents, loadEvent, loadDocumentBegin, init, resolveLoad, capture,
    slideA, h1]

/-- C23 (the code departs from the claim): on a loaded slide measured at 1280 by 720,
redraw at the user scale 20 with a successful rasterization requests a bitmap of
1536 by 864, leaves canvasScaleFactor at 1 and sets the canvas width to
1536 × 20 = 30720, above MAX_CANVAS_DIMENSION; the canvas stores 30720 pixels. -/
theorem canvas_exceeds_limit_at_large_scale :
    (redraw oneSlideLoaded 20 0 0 (1280, 720) .resolved).canvas.width = 30720 ∧
      (redraw oneSlideLoaded 20 0 0 (1280, 720) .resolved).canvas.pixelWidth = 30720 ∧
      MAX_CANVAS_DIMENSION < 30720 := by
  have hw : mathCeil ((1280 : ℚ) * (6 / 5)) = 1536 := by
    unfold mathCeil; rw [Int.ceil_eq_iff]; constructor <;> norm_num
  have hh : mathCeil ((720 : ℚ) * (6 / 5)) = 864 := by
    unfold mathCeil; rw [Int.ceil_eq_iff]; constructor <;> norm_num
  have hplan : renderPlan (1280, 720) =
      { canvasScaleFactor := 1, renderWidth := 1536, renderHeight := 864 } := by
    simp only [renderPlan, hw, hh, MAX_CANVAS_DIMENSION]
    norm_num
  have hcanvas : (redraw oneSlideLoaded 20 0 0 (1280, 720) .resolved).canvas.width = 30720 := by
    have hs : ("<div class=slide>A</div>" : String) ≠ "" := by decide
    simp only [redraw, oneSlideLoaded_content, hplan]
    norm_num [arrayAt, hs]
  refine ⟨hcanvas, ?_, by norm_num [MAX_CANVAS_DIMENSION]⟩
  unfold Canvas.pixelWidth
  rw [hcanvas, canvasDimension_eq_floor 300 _ (by norm_num) (by norm_num)]
  have hfl : ⌊(30720 : ℚ)⌋ = 30720 := by
    rw [Int.floor_eq_iff]; constructor <;> norm_num
  rw [hfl]; rfl

/-- C29 (the code departs from the claim): on a handler with no presentation loaded,
createCanvases from page 0 for 1 page throws a TypeError when it reads
`pptxHtmlContent.slides`; with pageCount left out the loop does not run, nothing is
pending and the callback is never called. -/
theorem createCanvases_without_presentation :
    createCanvases (init blankCanvas) 0 1 [] (fun _ => true) =
        .error "TypeError: Cannot read properties of null (reading slides)" ∧
      (∃ job, createCanvases (init blankCanvas) 0 0 [] (fun _ => true) = .ok job ∧
        job.pending = [] ∧ job.callbacks = []) :=
  ⟨rfl, _, rfl, rfl, rfl⟩

end Optimized

end PptxHandler
